import Mathlib

/-!
# Ratio-of-uniforms sampler of OpenTURNS: a shallow embedding

Embedded sources:

* `lib/src/Uncertainty/Model/RatioOfUniforms.cxx`
* `lib/src/Uncertainty/Algorithm/WeightedExperiments/RatioOfUniformsExperiment.cxx`
* `lib/src/Uncertainty/Distribution/MeixnerDistribution.cxx` (the loop of `getRealization`,
  the parameter setters, `update`, `computeCDF` and `computeComplementaryCDF`)
* `lib/src/Base/Func/SpecFunc/GammaFunctions.cxx` (`RegularizedIncompleteGamma` and its
  inverse)

`Scalar` values are modelled as exact numbers of an ordered field `S` extended with the
three IEEE special values (`+inf`, `-inf`, `NaN`).  Rounding, overflow of finite results
and the sign of zero are not modelled.  The transcendental functions of the C library
(`std::exp`, `std::log`, `std::pow`) are a parameter (`Libm`), so that every definition
below is executable; the theorems that need their analytic properties instantiate `S`
with the real numbers.
-/

namespace OpenTURNS

/-! ## Scalars -/

/-- A `Scalar` (C++ `double`): a finite value of `S`, or one of the IEEE special values. -/
inductive Scalar (S : Type) where
  | nan : Scalar S
  | ninf : Scalar S
  | fin (x : S) : Scalar S
  | pinf : Scalar S

/-- The part of the C math library used by the sampler, on finite arguments. -/
structure Libm (S : Type) where
  /-- The function `std::exp` on a finite argument. -/
  exp : S → S
  /-- The function `std::log` on a finite, strictly positive argument. -/
  log : S → S
  /-- The function `std::pow` on a finite, strictly positive base and a finite exponent. -/
  pow : S → S → S

namespace Scalar

variable {S : Type} [LinearOrderedField S]

/-- Unary minus. -/
def neg : Scalar S → Scalar S
  | nan => nan
  | ninf => pinf
  | fin x => fin (-x)
  | pinf => ninf

/-- Addition `a + b`. -/
def add : Scalar S → Scalar S → Scalar S
  | nan, _ => nan
  | _, nan => nan
  | fin a, fin b => fin (a + b)
  | fin _, pinf => pinf
  | fin _, ninf => ninf
  | pinf, fin _ => pinf
  | ninf, fin _ => ninf
  | pinf, pinf => pinf
  | ninf, ninf => ninf
  | pinf, ninf => nan
  | ninf, pinf => nan

/-- Subtraction `a - b`. -/
def sub (a b : Scalar S) : Scalar S := add a (neg b)

/-- The infinity whose sign is the sign of the non-zero value `a`; `NaN` for `a = 0`. -/
def signedInf (a : S) : Scalar S :=
  if a = 0 then nan else if 0 < a then pinf else ninf

/-- Multiplication `a * b`. -/
def mul : Scalar S → Scalar S → Scalar S
  | nan, _ => nan
  | _, nan => nan
  | fin a, fin b => fin (a * b)
  | fin a, pinf => signedInf a
  | fin a, ninf => signedInf (-a)
  | pinf, fin b => signedInf b
  | ninf, fin b => signedInf (-b)
  | pinf, pinf => pinf
  | ninf, ninf => pinf
  | pinf, ninf => ninf
  | ninf, pinf => ninf

/-- Division `a / b`; a zero divisor is the positive zero. -/
def div : Scalar S → Scalar S → Scalar S
  | nan, _ => nan
  | _, nan => nan
  | fin a, fin b => if b = 0 then signedInf a else fin (a / b)
  | fin _, pinf => fin 0
  | fin _, ninf => fin 0
  | pinf, fin b => if b < 0 then ninf else pinf
  | ninf, fin b => if b < 0 then pinf else ninf
  | pinf, pinf => nan
  | ninf, ninf => nan
  | pinf, ninf => nan
  | ninf, pinf => nan

/-- Comparison `a <= b`: false as soon as one operand is `NaN`. -/
def le : Scalar S → Scalar S → Bool
  | nan, _ => false
  | _, nan => false
  | ninf, _ => true
  | fin a, fin b => decide (a ≤ b)
  | fin _, pinf => true
  | fin _, ninf => false
  | pinf, pinf => true
  | pinf, fin _ => false
  | pinf, ninf => false

/-- Comparison `a < b`: false as soon as one operand is `NaN`. -/
def lt : Scalar S → Scalar S → Bool
  | nan, _ => false
  | _, nan => false
  | fin a, fin b => decide (a < b)
  | ninf, ninf => false
  | ninf, fin _ => true
  | ninf, pinf => true
  | fin _, pinf => true
  | fin _, ninf => false
  | pinf, _ => false

/-- Comparison `a == b`. -/
def eq : Scalar S → Scalar S → Bool
  | fin a, fin b => decide (a = b)
  | pinf, pinf => true
  | ninf, ninf => true
  | _, _ => false

/-- The function `std::max(a, b)`, that is `(a < b) ? b : a`. -/
def max (a b : Scalar S) : Scalar S := if lt a b then b else a

/-- The function `std::abs`. -/
def abs : Scalar S → Scalar S
  | nan => nan
  | ninf => pinf
  | fin x => fin |x|
  | pinf => pinf

/-- The function `std::exp`. -/
def exp (m : Libm S) : Scalar S → Scalar S
  | nan => nan
  | ninf => fin 0
  | fin x => fin (m.exp x)
  | pinf => pinf

/-- The function `std::log`. -/
def log (m : Libm S) : Scalar S → Scalar S
  | nan => nan
  | ninf => nan
  | fin x => if x < 0 then nan else if x = 0 then ninf else fin (m.log x)
  | pinf => pinf

/-- The function `std::pow(x, y)` for a finite exponent `y` and a base `x` that is not
strictly negative, as in the sampler (`x = supU * U`, `y = r`).  A strictly negative base
gives `NaN`, as `std::pow` does for every non-integral exponent; an infinite exponent gives
`NaN` (not modelled). -/
def pow (m : Libm S) : Scalar S → Scalar S → Scalar S
  | nan, fin y => if y = 0 then fin 1 else nan
  | ninf, fin y => if y = 0 then fin 1 else nan
  | fin x, fin y =>
    if y = 0 then fin 1
    else if x < 0 then nan
    else if x = 0 then (if 0 < y then fin 0 else pinf)
    else fin (m.pow x y)
  | pinf, fin y => if y = 0 then fin 1 else if 0 < y then pinf else fin 0
  | _, _ => nan

/-- Modelled from the spec: `SpecFunc::IsNormal` (declared in a header that is not part of
the sources at hand): the value is finite and not `NaN`. -/
def isNormal : Scalar S → Bool
  | fin _ => true
  | _ => false

/-- Conversion of an `UnsignedInteger` to a `Scalar`. -/
def ofNat (n : Nat) : Scalar S := fin (n : S)

end Scalar

/-! ## Points, distributions and the external collaborators -/

/-- A `Point`: a vector of scalars. -/
abbrev Point (S : Type) := List (Scalar S)

/-- A `Sample`: a list of points. -/
abbrev Sample (S : Type) := List (Point S)

namespace Point

variable {S : Type} [LinearOrderedField S]

/-- The unchecked access `p[i]` (`NaN` stands for a read past the end). -/
def get (p : Point S) (i : Nat) : Scalar S := p.getD i Scalar.nan

/-- The method `Point::resize`: the first entries are kept, new entries are zero. -/
def resize (p : Point S) (n : Nat) : Point S :=
  p.take n ++ List.replicate (n - p.length) (Scalar.fin 0)

/-- The constructor `Point(n, value)`. -/
def const (n : Nat) (value : Scalar S) : Point S := List.replicate n value

end Point

/-- The interface of a `Distribution` consumed by the sampler. -/
structure Distribution (S : Type) where
  /-- The method `getDimension()`. -/
  dimension : Nat
  /-- The point `getRange().getLowerBound()`. -/
  lowerBound : Point S
  /-- The point `getRange().getUpperBound()`. -/
  upperBound : Point S
  /-- The method `computeLogPDF`. -/
  computeLogPDF : Point S → Scalar S
  /-- The method `isContinuous()`. -/
  isContinuous : Bool

/-- The optimization problems solved by a calibration. -/
inductive Problem where
  | U : Problem
  | VSup (i : Nat) : Problem
  | VInf (i : Nat) : Problem
  deriving DecidableEq, Repr

/-- An `OptimizationAlgorithm`, reduced to what the sampler reads back: given the objective
(to be maximized), the bounds and the starting point, `run()` followed by
`getResult().getOptimalValue()[0]`. -/
abbrev OptimizationAlgorithm (S : Type) :=
  (Point S → Scalar S) → Point S → Point S → Point S → Scalar S

/-- The kinds of exception thrown by the sampler. -/
inductive ExceptionKind where
  | InvalidArgumentException : ExceptionKind
  | InternalException : ExceptionKind
  deriving DecidableEq, Repr

/-- The messages of the exceptions thrown by the sampler, by `MeixnerDistribution` and by
`GammaFunctions`. -/
inductive Message where
  | candidateNumberAtLeastOne : Message
  | rStrictlyPositive : Message
  | notInitialized : Message
  | onlyContinuous : Message
  | noFeasibleUSup : Message
  | noFeasibleVSup : Message
  | noFeasibleVInf : Message
  | betaMustBePositive : Message
  | alphaMustBeInRange : Message
  | deltaMustBePositive : Message
  | pointDimensionOne : Message
  | aMustBePositive : Message
  | quantileLevelInUnitInterval : Message
  | evaluationError : Message
  deriving DecidableEq, Repr

/-- An exception: its class and its message. -/
structure OTError where
  kind : ExceptionKind
  message : Message
  deriving DecidableEq, Repr

/-- The calls made to the external collaborators, in order. -/
inductive Event (S : Type) where
  /-- The call `sequence.generate()` that returns the point of index `k` of the sequence. -/
  | generate (k : Nat) : Event S
  /-- The call `distribution_.computeLogPDF(x)` of a feasible-point search. -/
  | computeLogPDF (x : Point S) : Event S
  /-- The call `optimizationAlgorithm_.run()` on a problem, its bounds and starting point. -/
  | run (problem : Problem) (lb ub start : Point S) : Event S

/-- What the code of the sampler takes from its environment. -/
structure Env (S : Type) where
  /-- The C math library. -/
  libm : Libm S
  /-- The constant `SpecFunc::LogMaxScalar`. -/
  LogMaxScalar : S
  /-- The points of `SobolSequence(dimension)`, in the order `generate()` returns them. -/
  SobolSequence : Nat → Nat → Point S

/-! ## The class `RatioOfUniforms` -/

/-- The attributes of a `RatioOfUniforms`. -/
structure RatioOfUniforms (S : Type) where
  distribution_ : Distribution S
  r_ : Scalar S
  supU_ : Scalar S
  infV_ : Point S
  supV_ : Point S
  optimizationAlgorithm_ : OptimizationAlgorithm S
  candidateNumber_ : Nat

/-- The effect of a call that may throw: the attributes after the call, the exception that
left it (if any) and the calls made to the collaborators. -/
structure Outcome (S : Type) where
  state : RatioOfUniforms S
  error : Option OTError
  trace : List (Event S)

section Calibration

variable {S : Type} [LinearOrderedField S]

/-- The objective `RatioOfUniformsUBoundEvaluation::operator()`. -/
def RatioOfUniformsUBoundEvaluation (env : Env S) (distribution : Distribution S)
    (r : Scalar S) (inP : Point S) : Point S :=
  let dimension := distribution.dimension
  let result := Scalar.div (distribution.computeLogPDF inP)
    (Scalar.add (Scalar.fin 1) (Scalar.mul r (Scalar.ofNat dimension)))
  let result := Scalar.max (Scalar.fin (-env.LogMaxScalar)) result
  [result]

/-- The objective `RatioOfUniformsVBoundEvaluation::operator()`. -/
def RatioOfUniformsVBoundEvaluation (env : Env S) (distribution : Distribution S)
    (r : Scalar S) (inP : Point S) : Point S :=
  let dimension := distribution.dimension
  let value := Scalar.div (Scalar.mul (distribution.computeLogPDF inP) r)
    (Scalar.add (Scalar.fin 1) (Scalar.mul r (Scalar.ofNat dimension)))
  (List.range dimension).map fun i =>
    Scalar.max (Scalar.fin (-env.LogMaxScalar))
      (Scalar.add value (Scalar.log env.libm (Scalar.abs (inP.get i))))

/-- The method `Function::getMarginal(i)` of an objective. -/
def getMarginal (objective : Point S → Point S) (i : Nat) (x : Point S) : Scalar S :=
  (objective x).get i

/-- The result of a feasible-point search: the starting point (empty when none was found),
the position reached in the sequence and the calls made. -/
structure Search (S : Type) where
  start : Point S
  pos : Nat
  trace : List (Event S)

/-- The loop `for (k = 0; k < candidateNumber_; ++k)` of a feasible-point search: the next
point of the sequence is mapped into the box by `toBox`, and the first candidate whose
log-density is normal is kept (`break`). -/
def feasibleStart (distribution : Distribution S) (sequence : Nat → Point S)
    (toBox : Point S → Point S) : Nat → Nat → Search S
  | 0, pos => { start := [], pos := pos, trace := [] }
  | k + 1, pos =>
    let candidate := toBox (sequence pos)
    if (distribution.computeLogPDF candidate).isNormal then
      { start := candidate, pos := pos + 1,
        trace := [Event.generate pos, Event.computeLogPDF candidate] }
    else
      let rest := feasibleStart distribution sequence toBox k (pos + 1)
      { rest with trace := Event.generate pos :: Event.computeLogPDF candidate :: rest.trace }

/-- The map `candidate[j] = lb[j] + candidate[j] * (ub[j] - lb[j])` of the U search. -/
def toRange (dimension : Nat) (lb ub candidate : Point S) : Point S :=
  (List.range dimension).map fun j =>
    Scalar.add (lb.get j) (Scalar.mul (candidate.get j) (Scalar.sub (ub.get j) (lb.get j)))

/-- The map `candidate[j] = candidate[j] * b[j]` of the V searches (`b` is `ub` or `lb`). -/
def toOrthant (dimension : Nat) (b candidate : Point S) : Point S :=
  (List.range dimension).map fun j => Scalar.mul (candidate.get j) (b.get j)

/-- The exception `InternalException` of a failed feasible-point search. -/
def infeasible (message : Message) : OTError :=
  { kind := ExceptionKind.InternalException, message := message }

/-- The state of the loop on `i` of a calibration: the two vectors it writes, the position
in the sequence, the calls made so far and the exception thrown (if any). -/
structure Calibration (S : Type) where
  infV_ : Point S
  supV_ : Point S
  pos : Nat
  trace : List (Event S)
  error : Option OTError

/-- The block `if (ub[i] > 0.0)` of a calibration (the same text in
`RatioOfUniforms::initialize` and in `RatioOfUniformsExperiment::setDistribution`);
`objectiveV` is the function `objectiveV` of the source. -/
def calibrateSupV (env : Env S) (distribution : Distribution S)
    (objectiveV : Point S → Point S)
    (optimizationAlgorithm : OptimizationAlgorithm S) (candidateNumber : Nat)
    (i : Nat) (c : Calibration S) : Calibration S :=
  let dimension := distribution.dimension
  let ub := distribution.upperBound
  let zero : Point S := Point.const dimension (Scalar.fin 0)
  if Scalar.lt (Scalar.fin 0) (ub.get i) then
    -- find a feasible starting point in [0, ub]
    let search := feasibleStart distribution (env.SobolSequence dimension)
      (toOrthant dimension ub) candidateNumber c.pos
    if search.start.length = 0 then
      { c with pos := search.pos, trace := c.trace ++ search.trace,
               error := some (infeasible Message.noFeasibleVSup) }
    else
      let objectiveVI := getMarginal objectiveV i
      let optimalValue := optimizationAlgorithm objectiveVI zero ub search.start
      { c with
        supV_ := c.supV_.set i (Scalar.exp env.libm optimalValue)
        pos := search.pos
        trace := c.trace ++ search.trace ++ [Event.run (Problem.VSup i) zero ub search.start] }
  else c

/-- The block `if (lb[i] < 0.0)` of a calibration (the same text in
`RatioOfUniforms::initialize` and in `RatioOfUniformsExperiment::setDistribution`). -/
def calibrateInfV (env : Env S) (distribution : Distribution S)
    (objectiveV : Point S → Point S)
    (optimizationAlgorithm : OptimizationAlgorithm S) (candidateNumber : Nat)
    (i : Nat) (c : Calibration S) : Calibration S :=
  let dimension := distribution.dimension
  let lb := distribution.lowerBound
  let zero : Point S := Point.const dimension (Scalar.fin 0)
  if Scalar.lt (lb.get i) (Scalar.fin 0) then
    -- find a feasible starting point in [lb, 0]
    let search := feasibleStart distribution (env.SobolSequence dimension)
      (toOrthant dimension lb) candidateNumber c.pos
    if search.start.length = 0 then
      { c with pos := search.pos, trace := c.trace ++ search.trace,
               error := some (infeasible Message.noFeasibleVInf) }
    else
      let objectiveVI := getMarginal objectiveV i
      let optimalValue := optimizationAlgorithm objectiveVI lb zero search.start
      { c with
        infV_ := c.infV_.set i (Scalar.neg (Scalar.exp env.libm optimalValue))
        pos := search.pos
        trace := c.trace ++ search.trace ++ [Event.run (Problem.VInf i) lb zero search.start] }
  else c

/-- The loop `for (i = 0; i < dimension; ++i)` of a calibration, over the indices still to
be visited; an exception leaves the loop. -/
def calibrateV (env : Env S) (distribution : Distribution S)
    (objectiveV : Point S → Point S)
    (optimizationAlgorithm : OptimizationAlgorithm S) (candidateNumber : Nat) :
    List Nat → Calibration S → Calibration S
  | [], c => c
  | i :: rest, c =>
    let c1 := calibrateSupV env distribution objectiveV optimizationAlgorithm candidateNumber i c
    match c1.error with
    | some _ => c1
    | none =>
      let c2 :=
        calibrateInfV env distribution objectiveV optimizationAlgorithm candidateNumber i c1
      match c2.error with
      | some _ => c2
      | none =>
        calibrateV env distribution objectiveV optimizationAlgorithm candidateNumber rest c2

/-- The method `RatioOfUniforms::initialize`. -/
def RatioOfUniforms.initialize (env : Env S) (self : RatioOfUniforms S) : Outcome S :=
  let distribution := self.distribution_
  let dimension := distribution.dimension
  let lb := distribution.lowerBound
  let ub := distribution.upperBound
  -- find a feasible starting point
  let search := feasibleStart distribution (env.SobolSequence dimension)
    (toRange dimension lb ub) self.candidateNumber_ 0
  if search.start.length = 0 then
    { state := self, error := some (infeasible Message.noFeasibleUSup), trace := search.trace }
  else
    -- First, the upper bound on U
    let objectiveU := getMarginal (RatioOfUniformsUBoundEvaluation env distribution self.r_) 0
    let optimalValue := self.optimizationAlgorithm_ objectiveU lb ub search.start
    let supU := Scalar.exp env.libm optimalValue
    -- Second, the lower and upper bounds on V
    let objectiveV := RatioOfUniformsVBoundEvaluation env distribution self.r_
    let c := calibrateV env distribution objectiveV self.optimizationAlgorithm_
      self.candidateNumber_ (List.range dimension)
      { infV_ := self.infV_.resize dimension, supV_ := self.supV_.resize dimension,
        pos := search.pos,
        trace := search.trace ++ [Event.run Problem.U lb ub search.start], error := none }
    { state := { self with supU_ := supU, infV_ := c.infV_, supV_ := c.supV_ },
      error := c.error, trace := c.trace }

/-- The method `RatioOfUniforms::setDistribution`. -/
def RatioOfUniforms.setDistribution (env : Env S) (self : RatioOfUniforms S)
    (distribution : Distribution S) : Outcome S :=
  if !distribution.isContinuous then
    { state := self,
      error := some { kind := ExceptionKind.InvalidArgumentException,
                      message := Message.onlyContinuous },
      trace := [] }
  else
    RatioOfUniforms.initialize env { self with distribution_ := distribution }

/-- The method `RatioOfUniforms::setR`. -/
def RatioOfUniforms.setR (env : Env S) (self : RatioOfUniforms S) (r : Scalar S) :
    Outcome S :=
  if !(Scalar.lt (Scalar.fin 0) r) then
    { state := self,
      error := some { kind := ExceptionKind.InvalidArgumentException,
                      message := Message.rStrictlyPositive },
      trace := [] }
  else
    RatioOfUniforms.initialize env { self with r_ := r }

/-- The method `RatioOfUniforms::getR`. -/
def RatioOfUniforms.getR (self : RatioOfUniforms S) : Scalar S := self.r_

/-- The method `RatioOfUniforms::setCandidateNumber`. -/
def RatioOfUniforms.setCandidateNumber (self : RatioOfUniforms S) (candidateNumber : Nat) :
    Outcome S :=
  if candidateNumber = 0 then
    { state := self,
      error := some { kind := ExceptionKind.InvalidArgumentException,
                      message := Message.candidateNumberAtLeastOne },
      trace := [] }
  else
    { state := { self with candidateNumber_ := candidateNumber }, error := none, trace := [] }

/-- The method `RatioOfUniforms::getCandidateNumber`. -/
def RatioOfUniforms.getCandidateNumber (self : RatioOfUniforms S) : Nat :=
  self.candidateNumber_

/-- The method `RatioOfUniforms::setOptimizationAlgorithm`. -/
def RatioOfUniforms.setOptimizationAlgorithm (self : RatioOfUniforms S)
    (optimizationAlgorithm : OptimizationAlgorithm S) : Outcome S :=
  { state := { self with optimizationAlgorithm_ := optimizationAlgorithm },
    error := none, trace := [] }

/-- The method `RatioOfUniforms::isInitialized`. -/
def RatioOfUniforms.isInitialized (self : RatioOfUniforms S) : Bool :=
  decide (self.infV_.length > 0)

/-- What the constructors read outside of the source file: the entries
`RatioOfUniforms-CandidateNumber` and `RatioOfUniforms-OptimizationAlgorithm` of the
`ResourceMap`, the default-constructed `Distribution`, and the in-class initial values of
`r_` and `supU_` (the header `RatioOfUniforms.hxx` is not among the sources at hand). -/
structure Defaults (S : Type) where
  distribution : Distribution S
  r : Scalar S
  supU : Scalar S
  candidateNumber : Nat
  optimizationAlgorithm : OptimizationAlgorithm S

/-- The default constructor `RatioOfUniforms::RatioOfUniforms()`. -/
def RatioOfUniforms.new (defaults : Defaults S) : RatioOfUniforms S :=
  { distribution_ := defaults.distribution
    r_ := defaults.r
    supU_ := defaults.supU
    infV_ := []
    supV_ := []
    optimizationAlgorithm_ := defaults.optimizationAlgorithm
    candidateNumber_ := defaults.candidateNumber }

/-- The constructor `RatioOfUniforms::RatioOfUniforms(const Distribution &)`. -/
def RatioOfUniforms.newWithDistribution (env : Env S) (defaults : Defaults S)
    (distribution : Distribution S) : Outcome S :=
  RatioOfUniforms.setDistribution env (RatioOfUniforms.new defaults) distribution

end Calibration

/-! ## The rejection loop -/

/-- The result of a call that may throw or loop: `running` stands for a loop that has not
ended within the number of iterations allowed. -/
inductive Run (α : Type) where
  | returned (value : α) : Run α
  | thrown (error : OTError) : Run α
  | running : Run α

section Sampling

variable {S : Type} [LinearOrderedField S]

/-- One pass through the body of the loop `while (!accepted)`. -/
structure Trial (S : Type) where
  u : Scalar S
  ur : Scalar S
  result : Point S
  accepted : Bool

/-- The body of the loop `while (!accepted)` of `RatioOfUniforms::getSample`, when the next
value returned by `RandomGenerator::Generate()` is `RandomGenerator pos`. -/
def RatioOfUniforms.trial (env : Env S) (self : RatioOfUniforms S)
    (RandomGenerator : Nat → Scalar S) (pos : Nat) : Trial S :=
  let dimension := self.distribution_.dimension
  let u := Scalar.mul self.supU_ (RandomGenerator pos)
  let ur := Scalar.pow env.libm u self.r_
  let result : Point S := (List.range dimension).map fun i =>
    Scalar.div
      (Scalar.add (self.infV_.get i)
        (Scalar.mul (Scalar.sub (self.supV_.get i) (self.infV_.get i))
          (RandomGenerator (pos + 1 + i))))
      ur
  let accepted :=
    Scalar.le
      (Scalar.mul (Scalar.add (Scalar.fin 1) (Scalar.mul self.r_ (Scalar.ofNat dimension)))
        (Scalar.log env.libm u))
      (self.distribution_.computeLogPDF result)
  { u := u, ur := ur, result := result, accepted := accepted }

/-- The loop `while (!accepted)` of `RatioOfUniforms::getSample`, cut after `fuel` passes:
the accepted point and the position reached in the stream of uniform draws. -/
def RatioOfUniforms.rejection (env : Env S) (self : RatioOfUniforms S)
    (RandomGenerator : Nat → Scalar S) : Nat → Nat → Option (Point S × Nat)
  | 0, _ => none
  | fuel + 1, pos =>
    let t := RatioOfUniforms.trial env self RandomGenerator pos
    if t.accepted then some (t.result, pos + 1 + self.distribution_.dimension)
    else RatioOfUniforms.rejection env self RandomGenerator fuel
      (pos + 1 + self.distribution_.dimension)

/-- The loop `for (n = 0; n < size; ++n)` of `RatioOfUniforms::getSample`; each inner loop
is cut after `fuel` passes. -/
def RatioOfUniforms.sampleLoop (env : Env S) (self : RatioOfUniforms S)
    (RandomGenerator : Nat → Scalar S) (fuel : Nat) : Nat → Nat → Option (Sample S)
  | 0, _ => some []
  | size + 1, pos =>
    match RatioOfUniforms.rejection env self RandomGenerator fuel pos with
    | none => none
    | some (result, next) =>
      match RatioOfUniforms.sampleLoop env self RandomGenerator fuel size next with
      | none => none
      | some sample => some (result :: sample)

/-- The exception thrown by `RatioOfUniforms` when it is used before a calibration. -/
def notInitialized : OTError :=
  { kind := ExceptionKind.InternalException, message := Message.notInitialized }

/-- The method `RatioOfUniforms::getSample`. -/
def RatioOfUniforms.getSample (env : Env S) (self : RatioOfUniforms S)
    (RandomGenerator : Nat → Scalar S) (fuel : Nat) (size : Nat) : Run (Sample S) :=
  if self.infV_.length = 0 then Run.thrown notInitialized
  else
    match RatioOfUniforms.sampleLoop env self RandomGenerator fuel size 0 with
    | none => Run.running
    | some sample => Run.returned sample

/-- The method `RatioOfUniforms::getRealization`. -/
def RatioOfUniforms.getRealization (env : Env S) (self : RatioOfUniforms S)
    (RandomGenerator : Nat → Scalar S) (fuel : Nat) : Run (Point S) :=
  match RatioOfUniforms.getSample env self RandomGenerator fuel 1 with
  | Run.returned sample => Run.returned (sample.getD 0 [])
  | Run.thrown error => Run.thrown error
  | Run.running => Run.running

/-- The pass of index `k` (from 0) through the body of `while (!accepted)` during one call
of `getSample`: each pass takes `1 + dimension` values from the stream of uniform draws. -/
def RatioOfUniforms.trialAt (env : Env S) (self : RatioOfUniforms S)
    (RandomGenerator : Nat → Scalar S) (k : Nat) : Trial S :=
  RatioOfUniforms.trial env self RandomGenerator (k * (1 + self.distribution_.dimension))

/-- The pass of index `k` is the first accepted one among the passes of index `start` and
above, and it comes fewer than `fuel` passes after `start`. -/
def RatioOfUniforms.FirstAccepted (env : Env S) (self : RatioOfUniforms S)
    (RandomGenerator : Nat → Scalar S) (fuel start k : Nat) : Prop :=
  start ≤ k ∧ k < start + fuel ∧
    (RatioOfUniforms.trialAt env self RandomGenerator k).accepted = true ∧
    ∀ j, start ≤ j → j < k →
      (RatioOfUniforms.trialAt env self RandomGenerator j).accepted = false

/-- The list `ks` holds the indices of successive accepted passes: each one is the first
accepted pass after the previous one (after `start` for the head of the list). -/
def RatioOfUniforms.AcceptedChain (env : Env S) (self : RatioOfUniforms S)
    (RandomGenerator : Nat → Scalar S) (fuel : Nat) : Nat → List Nat → Prop
  | _, [] => True
  | start, k :: ks =>
    RatioOfUniforms.FirstAccepted env self RandomGenerator fuel start k ∧
      RatioOfUniforms.AcceptedChain env self RandomGenerator fuel (k + 1) ks

end Sampling

/-! ## The acceptance ratio -/

/-- The effect of a call of a `const` method: the attributes after the call and what the
call returns or throws. -/
structure Query (S : Type) (α : Type) where
  state : RatioOfUniforms S
  result : Run α

section AcceptanceRatio

variable {S : Type} [LinearOrderedField S]

/-- The method `RatioOfUniforms::getAcceptanceRatio`. -/
def RatioOfUniforms.getAcceptanceRatio (self : RatioOfUniforms S) : Query S (Scalar S) :=
  if !self.isInitialized then
    { state := self, result := Run.thrown notInitialized }
  else
    let dimension := self.distribution_.dimension
    let ratio := Scalar.div (Scalar.fin 1)
      (Scalar.mul (Scalar.add (Scalar.fin 1) (Scalar.mul self.r_ (Scalar.ofNat dimension)))
        self.supU_)
    let ratio := (List.range dimension).foldl
      (fun ratio i => Scalar.div ratio (Scalar.sub (self.supV_.get i) (self.infV_.get i)))
      ratio
    { state := self, result := Run.returned ratio }

end AcceptanceRatio

/-! ## The class `RatioOfUniformsExperiment` -/

/-- The attributes of a `RatioOfUniformsExperiment`; `distribution_` and `size_` are those
of the base class `WeightedExperimentImplementation`. -/
structure RatioOfUniformsExperiment (S : Type) where
  distribution_ : Distribution S
  size_ : Nat
  r_ : Scalar S
  supU_ : Scalar S
  infV_ : Point S
  supV_ : Point S
  optimizationAlgorithm_ : OptimizationAlgorithm S
  candidateNumber_ : Nat

/-- The effect of a call on a `RatioOfUniformsExperiment` that may throw. -/
structure ExperimentOutcome (S : Type) where
  state : RatioOfUniformsExperiment S
  error : Option OTError
  trace : List (Event S)

section Experiment

variable {S : Type} [LinearOrderedField S]

/-- The objective `RatioOfUniformsExperimentUBoundEvaluation::operator()`. -/
def RatioOfUniformsExperimentUBoundEvaluation (env : Env S) (distribution : Distribution S)
    (r : Scalar S) (inP : Point S) : Point S :=
  let dimension := distribution.dimension
  let result := Scalar.div (distribution.computeLogPDF inP)
    (Scalar.add (Scalar.fin 1) (Scalar.mul r (Scalar.ofNat dimension)))
  let result := Scalar.max (Scalar.fin (-env.LogMaxScalar)) result
  [result]

/-- The objective `RatioOfUniformsExperimentVBoundEvaluation::operator()`. -/
def RatioOfUniformsExperimentVBoundEvaluation (env : Env S) (distribution : Distribution S)
    (r : Scalar S) (inP : Point S) : Point S :=
  let dimension := distribution.dimension
  let value := Scalar.div (Scalar.mul (distribution.computeLogPDF inP) r)
    (Scalar.add (Scalar.fin 1) (Scalar.mul r (Scalar.ofNat dimension)))
  (List.range dimension).map fun i =>
    Scalar.max (Scalar.fin (-env.LogMaxScalar))
      (Scalar.add value (Scalar.log env.libm (Scalar.abs (inP.get i))))

/-- Modelled from the spec: `WeightedExperimentImplementation::setDistribution`, the setter
of the base class (its source file is not at hand), stores the target distribution in
`distribution_`. -/
def WeightedExperimentImplementation.setDistribution (self : RatioOfUniformsExperiment S)
    (distribution : Distribution S) : RatioOfUniformsExperiment S :=
  { self with distribution_ := distribution }

/-- The method `RatioOfUniformsExperiment::setDistribution`. -/
def RatioOfUniformsExperiment.setDistribution (env : Env S)
    (self : RatioOfUniformsExperiment S) (distribution : Distribution S) :
    ExperimentOutcome S :=
  if !distribution.isContinuous then
    { state := self,
      error := some { kind := ExceptionKind.InvalidArgumentException,
                      message := Message.onlyContinuous },
      trace := [] }
  else
    let dimension := distribution.dimension
    let lb := distribution.lowerBound
    let ub := distribution.upperBound
    -- find a feasible starting point
    let search := feasibleStart distribution (env.SobolSequence dimension)
      (toRange dimension lb ub) self.candidateNumber_ 0
    if search.start.length = 0 then
      { state := self, error := some (infeasible Message.noFeasibleUSup),
        trace := search.trace }
    else
      -- First, the upper bound on U
      let objectiveU :=
        getMarginal (RatioOfUniformsExperimentUBoundEvaluation env distribution self.r_) 0
      let optimalValue := self.optimizationAlgorithm_ objectiveU lb ub search.start
      let supU := Scalar.exp env.libm optimalValue
      -- Second, the lower and upper bounds on V
      let objectiveV := RatioOfUniformsExperimentVBoundEvaluation env distribution self.r_
      let c := calibrateV env distribution objectiveV self.optimizationAlgorithm_
        self.candidateNumber_ (List.range dimension)
        { infV_ := self.infV_.resize dimension, supV_ := self.supV_.resize dimension,
          pos := search.pos,
          trace := search.trace ++ [Event.run Problem.U lb ub search.start], error := none }
      match c.error with
      | some error =>
        { state := { self with supU_ := supU, infV_ := c.infV_, supV_ := c.supV_ },
          error := some error, trace := c.trace }
      | none =>
        { state := WeightedExperimentImplementation.setDistribution
            { self with supU_ := supU, infV_ := c.infV_, supV_ := c.supV_ } distribution,
          error := none, trace := c.trace }

/-- The method `RatioOfUniformsExperiment::setCandidateNumber`. -/
def RatioOfUniformsExperiment.setCandidateNumber (self : RatioOfUniformsExperiment S)
    (candidateNumber : Nat) : ExperimentOutcome S :=
  if candidateNumber = 0 then
    { state := self,
      error := some { kind := ExceptionKind.InvalidArgumentException,
                      message := Message.candidateNumberAtLeastOne },
      trace := [] }
  else
    { state := { self with candidateNumber_ := candidateNumber }, error := none, trace := [] }

/-- The method `RatioOfUniformsExperiment::getCandidateNumber`. -/
def RatioOfUniformsExperiment.getCandidateNumber (self : RatioOfUniformsExperiment S) : Nat :=
  self.candidateNumber_

/-- The attributes that the rejection loop of `generateWithWeights` reads; the loop has
the same text as the one of `RatioOfUniforms::getSample`. -/
def RatioOfUniformsExperiment.sampler (self : RatioOfUniformsExperiment S) :
    RatioOfUniforms S :=
  { distribution_ := self.distribution_
    r_ := self.r_
    supU_ := self.supU_
    infV_ := self.infV_
    supV_ := self.supV_
    optimizationAlgorithm_ := self.optimizationAlgorithm_
    candidateNumber_ := self.candidateNumber_ }

/-- The result of `generateWithWeights`: the output argument `weights` and the sample. -/
structure WeightedSample (S : Type) where
  weights : Point S
  sample : Run (Sample S)

/-- The method `RatioOfUniformsExperiment::generateWithWeights`. -/
def RatioOfUniformsExperiment.generateWithWeights (env : Env S)
    (self : RatioOfUniformsExperiment S) (RandomGenerator : Nat → Scalar S) (fuel : Nat) :
    WeightedSample S :=
  let weights := Point.const self.size_ (Scalar.div (Scalar.fin 1) (Scalar.ofNat self.size_))
  if self.infV_.length = 0 then
    { weights := weights,
      sample := Run.thrown { kind := ExceptionKind.InvalidArgumentException,
                             message := Message.notInitialized } }
  else
    match RatioOfUniforms.sampleLoop env self.sampler RandomGenerator fuel self.size_ 0 with
    | none => { weights := weights, sample := Run.running }
    | some sample => { weights := weights, sample := Run.returned sample }

end Experiment

/-! ## The rejection loop of `MeixnerDistribution` -/

/-- The attributes of a `MeixnerDistribution` read by `getRealization`: the bounds `b_`,
`c_`, `dc_` of the ratio-of-uniforms box, and the log-density `computeLogPDF` of the
distribution (a function of the parameters, of `logNormalizationFactor_` and of the
complex log-gamma function, taken as given here). -/
structure MeixnerDistribution (S : Type) where
  b_ : Scalar S
  c_ : Scalar S
  dc_ : Scalar S
  computeLogPDF : Scalar S → Scalar S

section Meixner

variable {S : Type} [LinearOrderedField S]

/-- The method `MeixnerDistribution::getRealization`: the loop `while (true)`, cut after
`fuel` passes; the realization and the position reached in the stream of uniform draws. -/
def MeixnerDistribution.getRealization (m : Libm S) (self : MeixnerDistribution S)
    (RandomGenerator : Nat → Scalar S) : Nat → Nat → Option (Point S × Nat)
  | 0, _ => none
  | fuel + 1, pos =>
    let u := Scalar.mul self.b_ (RandomGenerator pos)
    if Scalar.eq u (Scalar.fin 0) then
      MeixnerDistribution.getRealization m self RandomGenerator fuel (pos + 1)
    else
      let v := Scalar.add self.c_ (Scalar.mul self.dc_ (RandomGenerator (pos + 1)))
      let rho := Scalar.div v u
      if Scalar.le (Scalar.mul (Scalar.fin 2) (Scalar.log m u)) (self.computeLogPDF rho) then
        some ([rho], pos + 2)
      else MeixnerDistribution.getRealization m self RandomGenerator fuel (pos + 2)

end Meixner

/-! ## The functions of `GammaFunctions` -/

/-- The numerical kernels called by `GammaFunctions`, which are not in the sources at hand:
`boost::math::gamma_p` and `gamma_q` (or `incgam`), and their inverses
`boost::math::gamma_p_inv` and `gamma_q_inv` (or `invincgam`); `none` stands for the
exception `boost::math::evaluation_error` of an inverse. -/
structure GammaKernels (S : Type) where
  gamma_p : Scalar S → Scalar S → Scalar S
  gamma_q : Scalar S → Scalar S → Scalar S
  gamma_p_inv : Scalar S → Scalar S → Option (Scalar S)
  gamma_q_inv : Scalar S → Scalar S → Option (Scalar S)

section GammaFunctions

variable {S : Type} [LinearOrderedField S]

/-- The function `std::isinf`. -/
def Scalar.isinf : Scalar S → Bool
  | Scalar.pinf => true
  | Scalar.ninf => true
  | _ => false

/-- Modelled from the spec: the constant `SpecFunc::Infinity` (declared in a header that is
not part of the sources at hand), the value `+inf`. -/
def SpecFunc.Infinity : Scalar S := Scalar.pinf

/-- The function `GammaFunctions::RegularizedIncompleteGamma`. -/
def GammaFunctions.RegularizedIncompleteGamma (kernels : GammaKernels S) (a x : Scalar S)
    (tail : Bool) : Run (Scalar S) :=
  if !(Scalar.lt (Scalar.fin 0) a) then
    Run.thrown { kind := ExceptionKind.InvalidArgumentException,
                 message := Message.aMustBePositive }
  else if Scalar.le x (Scalar.fin 0) then
    Run.returned (if tail then Scalar.fin 1 else Scalar.fin 0)
  -- for incgam or old boost versions
  else if Scalar.isinf x then
    Run.returned (if tail then Scalar.fin 0 else Scalar.fin 1)
  else
    Run.returned (if tail then kernels.gamma_q a x else kernels.gamma_p a x)

/-- The function `GammaFunctions::RegularizedIncompleteGammaInverse`. -/
def GammaFunctions.RegularizedIncompleteGammaInverse (kernels : GammaKernels S)
    (a x : Scalar S) (tail : Bool) : Run (Scalar S) :=
  if !(Scalar.lt (Scalar.fin 0) a) then
    Run.thrown { kind := ExceptionKind.InvalidArgumentException,
                 message := Message.aMustBePositive }
  else if !(Scalar.le (Scalar.fin 0) x) || !(Scalar.le x (Scalar.fin 1)) then
    Run.thrown { kind := ExceptionKind.InvalidArgumentException,
                 message := Message.quantileLevelInUnitInterval }
  else if (!tail && Scalar.le (Scalar.fin 1) x) || (tail && Scalar.le x (Scalar.fin 0)) then
    Run.returned SpecFunc.Infinity
  else
    match (if tail then kernels.gamma_q_inv a x else kernels.gamma_p_inv a x) with
    | some value => Run.returned value
    | none =>
      Run.thrown { kind := ExceptionKind.InvalidArgumentException,
                   message := Message.evaluationError }

end GammaFunctions

/-! ## The class `MeixnerDistribution`: parameters, derived attributes and CDF -/

/-- The attributes of a `MeixnerDistribution`: the parameters `beta_`, `alpha_`, `delta_`,
`gamma_`, and the attributes derived from them (`range_`, `mean_` and the two flags are
those of the base class `DistributionImplementation`). -/
structure MeixnerAttributes (S : Type) where
  beta_ : Scalar S
  alpha_ : Scalar S
  delta_ : Scalar S
  gamma_ : Scalar S
  logNormalizationFactor_ : Scalar S
  range_ : Point S × Point S
  mean_ : Point S
  isAlreadyComputedMean_ : Bool
  isAlreadyComputedCovariance_ : Bool
  cdfApproximation_ : Point S → Point S
  ccdfApproximation_ : Point S → Point S
  b_ : Scalar S
  c_ : Scalar S
  dc_ : Scalar S

/-- What `MeixnerDistribution` takes from outside of its methods embedded here: the C math
library (with `std::sqrt`, `std::cos`, `std::tan` and the constant `M_PI`), the function
`SpecFunc::LogGamma` (on a real argument, and the real part of its value on the complex
argument `Complex(re, im)`), the entry `MeixnerDistribution-CDFDiscretization` of the
`ResourceMap`, the numerical procedures `computeRange()` and `interpolateCDF(n)` (a
quadrature by `GaussKronrod`), and the optimization solver: `solver minimization bounds
objective start` is the value `getResult().getOptimalValue()[0]` after `run()`. -/
structure MeixnerCollaborators (S : Type) where
  libm : Libm S
  sqrt : S → S
  cos : S → S
  tan : S → S
  M_PI : S
  LogGamma : Scalar S → Scalar S
  LogGammaComplexReal : Scalar S → Scalar S → Scalar S
  CDFDiscretization : Nat
  computeRange : MeixnerAttributes S → Point S × Point S
  interpolateCDF : MeixnerAttributes S → Nat → (Point S → Point S) × (Point S → Point S)
  solver : Bool → Option (Point S × Point S) → (Point S → Point S) → Point S → Scalar S

/-- The effect of a call on a `MeixnerDistribution` that may throw. -/
structure MeixnerOutcome (S : Type) where
  state : MeixnerAttributes S
  error : Option OTError

section MeixnerMethods

variable {S : Type} [LinearOrderedField S]

/-- The function `std::sqrt`. -/
def Scalar.sqrt (sqrt : S → S) : Scalar S → Scalar S
  | Scalar.nan => Scalar.nan
  | Scalar.ninf => Scalar.nan
  | Scalar.fin x => if x < 0 then Scalar.nan else Scalar.fin (sqrt x)
  | Scalar.pinf => Scalar.pinf

/-- The functions `std::cos` and `std::tan`: `NaN` at an infinite argument. -/
def Scalar.trig (f : S → S) : Scalar S → Scalar S
  | Scalar.fin x => Scalar.fin (f x)
  | _ => Scalar.nan

/-- The value returned by `MeixnerDistribution::computeLogPDF` on the point `(x)` of
dimension 1. -/
def MeixnerAttributes.logPDFValue (collab : MeixnerCollaborators S)
    (self : MeixnerAttributes S) (x : Scalar S) : Scalar S :=
  let z := Scalar.div (Scalar.sub x self.gamma_) self.beta_
  Scalar.add (Scalar.add self.logNormalizationFactor_ (Scalar.mul self.alpha_ z))
    (Scalar.mul (Scalar.fin 2) (collab.LogGammaComplexReal self.delta_ z))

/-- The exception thrown on a point whose dimension is not 1. -/
def dimensionNotOne : OTError :=
  { kind := ExceptionKind.InvalidArgumentException, message := Message.pointDimensionOne }

/-- The method `MeixnerDistribution::computeLogPDF`. -/
def MeixnerAttributes.computeLogPDF (collab : MeixnerCollaborators S)
    (self : MeixnerAttributes S) (point : Point S) : Run (Scalar S) :=
  if point.length ≠ 1 then Run.thrown dimensionNotOne
  else Run.returned (MeixnerAttributes.logPDFValue collab self (point.get 0))

/-- The method `MeixnerDistribution::computePDF`. -/
def MeixnerAttributes.computePDF (collab : MeixnerCollaborators S)
    (self : MeixnerAttributes S) (point : Point S) : Run (Scalar S) :=
  if point.length ≠ 1 then Run.thrown dimensionNotOne
  else
    Run.returned
      (Scalar.exp collab.libm (MeixnerAttributes.logPDFValue collab self (point.get 0)))

/-- The attributes read by the loop of `getRealization` and by the objectives of
`update()`; the call `computeLogPDF(rho)` on a scalar is the call of `computeLogPDF` on the
point `(rho)`. -/
def MeixnerAttributes.sampler (collab : MeixnerCollaborators S) (self : MeixnerAttributes S) :
    MeixnerDistribution S :=
  { b_ := self.b_
    c_ := self.c_
    dc_ := self.dc_
    computeLogPDF := MeixnerAttributes.logPDFValue collab self }

/-- The objective `MeixnerBoundB::operator()`, on a point of dimension 1 (the input
dimension of the objective): `Point(1, computePDF(point))`, where `computePDF` is
`std::exp(computeLogPDF(point))`. -/
def MeixnerBoundB (m : Libm S) (p_distribution : MeixnerDistribution S) (point : Point S) :
    Point S :=
  [Scalar.exp m (p_distribution.computeLogPDF (point.get 0))]

/-- The objective `MeixnerBoundCD::operator()`, on a point of dimension 1:
`Point(1, point[0] * std::sqrt(pdf))`. -/
def MeixnerBoundCD (m : Libm S) (sqrt : S → S) (p_distribution : MeixnerDistribution S)
    (point : Point S) : Point S :=
  let pdf := Scalar.exp m (p_distribution.computeLogPDF (point.get 0))
  [Scalar.mul (point.get 0) (Scalar.sqrt sqrt pdf)]

/-- The value computed by `MeixnerDistribution::computeMean`:
`beta_ * delta_ * std::tan(0.5 * alpha_) + gamma_`. -/
def MeixnerAttributes.computeMean (collab : MeixnerCollaborators S)
    (self : MeixnerAttributes S) : Point S :=
  [Scalar.add
    (Scalar.mul (Scalar.mul self.beta_ self.delta_)
      (Scalar.trig collab.tan (Scalar.mul (Scalar.fin (1 / 2)) self.alpha_)))
    self.gamma_]

/-- Modelled from the spec: `DistributionImplementation::getMean` (a method of the base
class, whose source file is not at hand) returns `mean_`, after a call of `computeMean()`
when `isAlreadyComputedMean_` is false. -/
def MeixnerAttributes.getMean (collab : MeixnerCollaborators S)
    (self : MeixnerAttributes S) : Point S :=
  if self.isAlreadyComputedMean_ then self.mean_
  else MeixnerAttributes.computeMean collab self

/-- The method `MeixnerDistribution::update`. -/
def MeixnerAttributes.update (collab : MeixnerCollaborators S)
    (self : MeixnerAttributes S) : MeixnerAttributes S :=
  -- First, the parameters of the distribution
  let logNormalizationFactor :=
    Scalar.sub
      (Scalar.sub
        (Scalar.mul (Scalar.mul (Scalar.fin 2) self.delta_)
          (Scalar.log collab.libm
            (Scalar.mul (Scalar.fin 2)
              (Scalar.trig collab.cos (Scalar.mul (Scalar.fin (1 / 2)) self.alpha_)))))
        (Scalar.log collab.libm
          (Scalar.mul (Scalar.mul (Scalar.fin 2) (Scalar.fin collab.M_PI)) self.beta_)))
      (collab.LogGamma (Scalar.mul (Scalar.fin 2) self.delta_))
  let self1 := { self with logNormalizationFactor_ := logNormalizationFactor }
  let self2 := { self1 with range_ := collab.computeRange self1 }
  -- Second, the moments
  let self3 :=
    { self2 with isAlreadyComputedMean_ := false, isAlreadyComputedCovariance_ := false }
  -- Third, the CDF and complementary CDF
  let CDFCCDF := collab.interpolateCDF self3 collab.CDFDiscretization
  let self4 :=
    { self3 with
      mean_ := MeixnerAttributes.getMean collab self3
      isAlreadyComputedMean_ := true
      cdfApproximation_ := CDFCCDF.1
      ccdfApproximation_ := CDFCCDF.2 }
  -- Fourth, the random generator
  let fB := MeixnerBoundB collab.libm (MeixnerAttributes.sampler collab self4)
  let fCD := MeixnerBoundCD collab.libm collab.sqrt (MeixnerAttributes.sampler collab self4)
  let start := MeixnerAttributes.getMean collab self4
  let b := Scalar.sqrt collab.sqrt (collab.solver false (some self4.range_) fB start)
  let c := collab.solver true none fCD start
  let dc := Scalar.sub (collab.solver false none fCD start) c
  { self4 with b_ := b, c_ := c, dc_ := dc }

/-- The method `MeixnerDistribution::setBeta`. -/
def MeixnerAttributes.setBeta (collab : MeixnerCollaborators S)
    (self : MeixnerAttributes S) (beta : Scalar S) : MeixnerOutcome S :=
  if !(Scalar.lt (Scalar.fin 0) beta) then
    { state := self,
      error := some { kind := ExceptionKind.InvalidArgumentException,
                      message := Message.betaMustBePositive } }
  else if !(Scalar.eq beta self.beta_) then
    { state := MeixnerAttributes.update collab { self with beta_ := beta }, error := none }
  else { state := self, error := none }

/-- The method `MeixnerDistribution::getBeta`. -/
def MeixnerAttributes.getBeta (self : MeixnerAttributes S) : Scalar S := self.beta_

/-- The method `MeixnerDistribution::setAlpha`. -/
def MeixnerAttributes.setAlpha (collab : MeixnerCollaborators S)
    (self : MeixnerAttributes S) (alpha : Scalar S) : MeixnerOutcome S :=
  if Scalar.le (Scalar.fin collab.M_PI) (Scalar.abs alpha) then
    { state := self,
      error := some { kind := ExceptionKind.InvalidArgumentException,
                      message := Message.alphaMustBeInRange } }
  else if !(Scalar.eq alpha self.alpha_) then
    { state := MeixnerAttributes.update collab { self with alpha_ := alpha }, error := none }
  else { state := self, error := none }

/-- The method `MeixnerDistribution::getAlpha`. -/
def MeixnerAttributes.getAlpha (self : MeixnerAttributes S) : Scalar S := self.alpha_

/-- The method `MeixnerDistribution::setDelta`. -/
def MeixnerAttributes.setDelta (collab : MeixnerCollaborators S)
    (self : MeixnerAttributes S) (delta : Scalar S) : MeixnerOutcome S :=
  if !(Scalar.lt (Scalar.fin 0) delta) then
    { state := self,
      error := some { kind := ExceptionKind.InvalidArgumentException,
                      message := Message.deltaMustBePositive } }
  else if !(Scalar.eq delta self.delta_) then
    { state := MeixnerAttributes.update collab { self with delta_ := delta }, error := none }
  else { state := self, error := none }

/-- The method `MeixnerDistribution::getDelta`. -/
def MeixnerAttributes.getDelta (self : MeixnerAttributes S) : Scalar S := self.delta_

/-- The method `MeixnerDistribution::setBetaAlphaDelta`. -/
def MeixnerAttributes.setBetaAlphaDelta (collab : MeixnerCollaborators S)
    (self : MeixnerAttributes S) (beta alpha delta : Scalar S) : MeixnerOutcome S :=
  if !(Scalar.lt (Scalar.fin 0) beta) then
    { state := self,
      error := some { kind := ExceptionKind.InvalidArgumentException,
                      message := Message.betaMustBePositive } }
  else if Scalar.le (Scalar.fin collab.M_PI) (Scalar.abs alpha) then
    { state := self,
      error := some { kind := ExceptionKind.InvalidArgumentException,
                      message := Message.alphaMustBeInRange } }
  else if !(Scalar.lt (Scalar.fin 0) delta) then
    { state := self,
      error := some { kind := ExceptionKind.InvalidArgumentException,
                      message := Message.deltaMustBePositive } }
  else if !(Scalar.eq beta self.beta_) || !(Scalar.eq alpha self.alpha_)
      || !(Scalar.eq delta self.delta_) then
    { state := MeixnerAttributes.update collab
        { self with beta_ := beta, alpha_ := alpha, delta_ := delta },
      error := none }
  else { state := self, error := none }

/-- The method `MeixnerDistribution::computeCDF`. -/
def MeixnerAttributes.computeCDF (collab : MeixnerCollaborators S)
    (self : MeixnerAttributes S) (point : Point S) : Run (Scalar S) :=
  if point.length ≠ 1 then Run.thrown dimensionNotOne
  else if Scalar.le (point.get 0) ((MeixnerAttributes.getMean collab self).get 0) then
    Run.returned ((self.cdfApproximation_ point).get 0)
  else Run.returned (Scalar.sub (Scalar.fin 1) ((self.ccdfApproximation_ point).get 0))

/-- The method `MeixnerDistribution::computeComplementaryCDF`. -/
def MeixnerAttributes.computeComplementaryCDF (collab : MeixnerCollaborators S)
    (self : MeixnerAttributes S) (point : Point S) : Run (Scalar S) :=
  if point.length ≠ 1 then Run.thrown dimensionNotOne
  else if Scalar.le (point.get 0) ((MeixnerAttributes.getMean collab self).get 0) then
    Run.returned (Scalar.sub (Scalar.fin 1) ((self.cdfApproximation_ point).get 0))
  else Run.returned ((self.ccdfApproximation_ point).get 0)

/-- The test `2.0 * std::log(u) <= computeLogPDF(rho)` of `getRealization`, with
`rho = v / u`. -/
def MeixnerDistribution.accepts (m : Libm S) (self : MeixnerDistribution S)
    (u v : Scalar S) : Bool :=
  Scalar.le (Scalar.mul (Scalar.fin 2) (Scalar.log m u)) (self.computeLogPDF (Scalar.div v u))

end MeixnerMethods

/-! ## Concrete targets and collaborators used to evaluate the code -/

section Examples

variable {S : Type} [LinearOrderedField S]

/-- The first points of the Sobol sequence: coordinate `j` of the point of index `k`. -/
def sobolCoordinate : Nat → Nat → S
  | _, 0 => 1 / 2
  | 0, 1 => 3 / 4
  | 0, 2 => 1 / 4
  | 0, 3 => 3 / 8
  | 0, 4 => 7 / 8
  | 0, 5 => 5 / 8
  | 0, 6 => 1 / 8
  | _, 1 => 1 / 4
  | _, 2 => 3 / 4
  | _, 3 => 3 / 8
  | _, 4 => 7 / 8
  | _, 5 => 1 / 8
  | _, 6 => 5 / 8
  | _, _ => 1 / 2

/-- A sequence that starts as the Sobol sequence does. -/
def sobolPoints (dimension k : Nat) : Point S :=
  (List.range dimension).map fun j => Scalar.fin (sobolCoordinate j k)

/-- An environment: the given math library, `LogMaxScalar = 709` and `sobolPoints`. -/
def exampleEnv (m : Libm S) : Env S :=
  { libm := m, LogMaxScalar := 709, SobolSequence := sobolPoints }

/-- The uniform distribution on `[0, 1]`: log-density 0 on the range, `-inf` outside. -/
def uniform01 : Distribution S :=
  { dimension := 1
    lowerBound := [Scalar.fin 0]
    upperBound := [Scalar.fin 1]
    computeLogPDF := fun x =>
      if Scalar.le (Scalar.fin 0) (x.get 0) && Scalar.le (x.get 0) (Scalar.fin 1)
      then Scalar.fin 0 else Scalar.ninf
    isContinuous := true }

/-- The mixture with equal weights of the uniform distributions on `[-1, -1/2]` and on
`[1/2, 1]`: range `[-1, 1]`, log-density 0 on the two intervals and `-inf` elsewhere. -/
def twoIntervals : Distribution S :=
  { dimension := 1
    lowerBound := [Scalar.fin (-1)]
    upperBound := [Scalar.fin 1]
    computeLogPDF := fun x =>
      if (Scalar.le (Scalar.fin (-1)) (x.get 0) && Scalar.le (x.get 0) (Scalar.fin (-1 / 2)))
          || (Scalar.le (Scalar.fin (1 / 2)) (x.get 0) && Scalar.le (x.get 0) (Scalar.fin 1))
      then Scalar.fin 0 else Scalar.ninf
    isContinuous := true }

/-- The distribution of two independent copies of `twoIntervals`: range `[-1, 1]^2`. -/
def twoIntervalsSquared : Distribution S :=
  { dimension := 2
    lowerBound := [Scalar.fin (-1), Scalar.fin (-1)]
    upperBound := [Scalar.fin 1, Scalar.fin 1]
    computeLogPDF := fun x =>
      Scalar.add (twoIntervals.computeLogPDF [x.get 0]) (twoIntervals.computeLogPDF [x.get 1])
    isContinuous := true }

/-- An optimizer that reports the optimal value 0: the exact maximum of the U and V
objectives of `uniform01` and of `twoIntervals` for `r = 1`. -/
def optimumZero : OptimizationAlgorithm S := fun _ _ _ _ => Scalar.fin 0

/-- The defaults of the examples: `r_ = 1`, `supU_ = 0`, one candidate, `optimumZero`. -/
def exampleDefaults : Defaults S :=
  { distribution := uniform01
    r := Scalar.fin 1
    supU := Scalar.fin 0
    candidateNumber := 1
    optimizationAlgorithm := optimumZero }

end Examples

section Scenarios

variable {S : Type} [LinearOrderedField S]

/-- A default-constructed sampler on which `setCandidateNumber(n)` has been called. -/
def freshSampler (n : Nat) : RatioOfUniforms S :=
  (RatioOfUniforms.setCandidateNumber (RatioOfUniforms.new exampleDefaults) n).state

/-- The values returned by `RandomGenerator::Generate()`: first 0, then 1/2 for ever. -/
def drawsFromZero : Nat → Scalar S
  | 0 => Scalar.fin 0
  | _ => Scalar.fin (1 / 2)

end Scenarios

section ExperimentScenarios

variable {S : Type} [LinearOrderedField S]

/-- An experiment built by `RatioOfUniformsExperiment(size)` (in-class initial values
`r_ = 1`, `supU_ = 0`, empty `infV_` and `supV_`), on which `setOptimizationAlgorithm` and
`setCandidateNumber(n)` have been called. -/
def freshExperiment (n size : Nat) : RatioOfUniformsExperiment S :=
  { distribution_ := uniform01
    size_ := size
    r_ := Scalar.fin 1
    supU_ := Scalar.fin 0
    infV_ := []
    supV_ := []
    optimizationAlgorithm_ := optimumZero
    candidateNumber_ := n }

end ExperimentScenarios

section OptimizerAssumptions

variable {S : Type} [LinearOrderedField S]

/-- The scalar is neither `NaN` nor `-inf`. -/
def Scalar.isBoundValue : Scalar S → Bool
  | Scalar.fin _ => true
  | Scalar.pinf => true
  | _ => false

/-- The optimal value reported for an objective that never takes the values `NaN` and
`-inf` is neither `NaN` nor `-inf`; this holds as soon as the optimizer reports the value
of the objective at the point it returns. -/
def OptimizationAlgorithm.ReportsBoundValues (opt : OptimizationAlgorithm S) : Prop :=
  ∀ (f : Point S → Scalar S) (lb ub start : Point S),
    (∀ x, (f x).isBoundValue = true) → (opt f lb ub start).isBoundValue = true

end OptimizerAssumptions

section EnclosingRegion

variable {S : Type} [LinearOrderedField S]

/-- The point `x` lies in the box `[lb, ub]`. -/
def InBox (lb ub x : Point S) : Prop :=
  x.length = lb.length ∧
    ∀ j, j < lb.length →
      Scalar.le (lb.get j) (x.get j) = true ∧ Scalar.le (x.get j) (ub.get j) = true

/-- The optimizer returns the exact maximum of the objective `f` over the box `[lb, ub]`,
whatever the starting point: the value it reports is reached in the box and no value of
`f` in the box is above it. -/
def OptimizationAlgorithm.IsExactOn (opt : OptimizationAlgorithm S)
    (f : Point S → Scalar S) (lb ub : Point S) : Prop :=
  ∀ start, (∃ x, InBox lb ub x ∧ f x = opt f lb ub start) ∧
    ∀ x, InBox lb ub x → Scalar.le (f x) (opt f lb ub start) = true

/-- A distribution on `[-1, 1]^2` whose log-density takes two values: `a` on the open
quadrant `x_0 > 0, x_1 < 0` and `b` on the rest of the range (`-inf` outside the range).
With `a = log(5/8)` and `b = log(1/8)` the density integrates to 1. -/
def twoLevels (a b : S) : Distribution S :=
  { dimension := 2
    lowerBound := [Scalar.fin (-1), Scalar.fin (-1)]
    upperBound := [Scalar.fin 1, Scalar.fin 1]
    computeLogPDF := fun x =>
      if Scalar.le (Scalar.fin (-1)) (x.get 0) && Scalar.le (x.get 0) (Scalar.fin 1)
          && Scalar.le (Scalar.fin (-1)) (x.get 1) && Scalar.le (x.get 1) (Scalar.fin 1) then
        if Scalar.lt (Scalar.fin 0) (x.get 0) && Scalar.lt (x.get 1) (Scalar.fin 0)
        then Scalar.fin a else Scalar.fin b
      else Scalar.ninf
    isContinuous := true }

/-- An optimizer that reports the value of the objective at a corner of the box: the
corner `(ub_0, lb_1)` when the box extends on both sides of 0, the corner `ub` when it
extends above 0 only, the corner `lb` otherwise. -/
def cornerOptimizer : OptimizationAlgorithm S := fun f lb ub _ =>
  if Scalar.lt (lb.get 0) (Scalar.fin 0) && Scalar.lt (Scalar.fin 0) (ub.get 0) then
    f [ub.get 0, lb.get 1]
  else if Scalar.lt (Scalar.fin 0) (ub.get 0) then f ub
  else f lb

/-- A sampler with `r = 1`, one candidate and the optimizer `cornerOptimizer`, before any
calibration, holding the target `twoLevels a b`. -/
def twoLevelsSampler (a b : S) : RatioOfUniforms S :=
  { distribution_ := twoLevels a b
    r_ := Scalar.fin 1
    supU_ := Scalar.fin 0
    infV_ := []
    supV_ := []
    optimizationAlgorithm_ := cornerOptimizer
    candidateNumber_ := 1 }

end EnclosingRegion

section MoreTargets

variable {S : Type} [LinearOrderedField S]

/-- The Dirac distribution at 0, a discrete distribution: log-density 0 at the point 0 and
`-inf` elsewhere, `isContinuous()` false. -/
def diracAtZero : Distribution S :=
  { dimension := 1
    lowerBound := [Scalar.fin 0]
    upperBound := [Scalar.fin 0]
    computeLogPDF := fun x =>
      if Scalar.eq (x.get 0) (Scalar.fin 0) then Scalar.fin 0 else Scalar.ninf
    isContinuous := false }

end MoreTargets

section CalibratedStates

variable {S : Type} [LinearOrderedField S]

/-- The attributes of the sampler calibrated on `uniform01` with `r = 1`, for a math
library with `exp(0) = 1`: `supU = 1`, `infV = [0]`, `supV = [1]`. -/
def uniform01Sampler : RatioOfUniforms S :=
  { distribution_ := uniform01
    r_ := Scalar.fin 1
    supU_ := Scalar.fin 1
    infV_ := [Scalar.fin 0]
    supV_ := [Scalar.fin 1]
    optimizationAlgorithm_ := optimumZero
    candidateNumber_ := 1 }

end CalibratedStates

section Traces

variable {S : Type} [LinearOrderedField S]

/-- The indices of the sequence points returned by the calls `sequence.generate()` of a
trace, in the order of the calls. -/
def generatedPoints : List (Event S) → List Nat
  | [] => []
  | Event.generate k :: rest => k :: generatedPoints rest
  | Event.computeLogPDF _ :: rest => generatedPoints rest
  | Event.run _ _ _ _ :: rest => generatedPoints rest

/-- The number of calls `computeLogPDF` of a trace. -/
def logPDFEvaluations : List (Event S) → Nat
  | [] => 0
  | Event.generate _ :: rest => logPDFEvaluations rest
  | Event.computeLogPDF _ :: rest => logPDFEvaluations rest + 1
  | Event.run _ _ _ _ :: rest => logPDFEvaluations rest

/-- The number of calls `optimizationAlgorithm_.run()` of a trace. -/
def optimizerRuns : List (Event S) → Nat
  | [] => 0
  | Event.generate _ :: rest => optimizerRuns rest
  | Event.computeLogPDF _ :: rest => optimizerRuns rest
  | Event.run _ _ _ _ :: rest => optimizerRuns rest + 1

/-- The point has `dimension` coordinates, all finite and in `[0, 1]`. -/
def InUnitCube (dimension : Nat) (p : Point S) : Prop :=
  p.length = dimension ∧
    ∀ j, j < dimension → ∃ s, p.get j = Scalar.fin s ∧ 0 ≤ s ∧ s ≤ 1

/-- The range of the distribution has finite bounds `lb[j] <= ub[j]` in each of the
`dimension` coordinates. -/
def Distribution.HasFiniteRange (distribution : Distribution S) : Prop :=
  distribution.lowerBound.length = distribution.dimension ∧
  distribution.upperBound.length = distribution.dimension ∧
    ∀ j, j < distribution.dimension →
      ∃ l u, distribution.lowerBound.get j = Scalar.fin l ∧
        distribution.upperBound.get j = Scalar.fin u ∧ l ≤ u

/-- A distribution with range `[0, 1]` whose log-density is `-inf` everywhere. -/
def nowhereDense : Distribution S :=
  { dimension := 1
    lowerBound := [Scalar.fin 0]
    upperBound := [Scalar.fin 1]
    computeLogPDF := fun _ => Scalar.ninf
    isContinuous := true }

end Traces

section StripTarget

variable {S : Type} [LinearOrderedField S]

/-- The uniform distribution on `[-1/2, 1/2] x [-3, -2]`: log-density 0 on the range; where
the density is zero, `computeLogPDF` returns the finite value `lowest` (as the
distributions of the library return `SpecFunc::LowestScalar`). -/
def sideStrip (lowest : S) : Distribution S :=
  { dimension := 2
    lowerBound := [Scalar.fin (-1 / 2), Scalar.fin (-3)]
    upperBound := [Scalar.fin (1 / 2), Scalar.fin (-2)]
    computeLogPDF := fun x =>
      if Scalar.le (Scalar.fin (-1 / 2)) (x.get 0) && Scalar.le (x.get 0) (Scalar.fin (1 / 2))
          && Scalar.le (Scalar.fin (-3)) (x.get 1) && Scalar.le (x.get 1) (Scalar.fin (-2))
      then Scalar.fin 0 else Scalar.fin lowest
    isContinuous := true }

/-- A sampler with `r = 1`, one candidate and the optimizer `optimumZero`, before any
calibration, holding the target `sideStrip lowest`. -/
def sideStripSampler (lowest : S) : RatioOfUniforms S :=
  { distribution_ := sideStrip lowest
    r_ := Scalar.fin 1
    supU_ := Scalar.fin 0
    infV_ := []
    supV_ := []
    optimizationAlgorithm_ := optimumZero
    candidateNumber_ := 1 }

end StripTarget

section SequenceConsumption

variable {S : Type} [LinearOrderedField S]

end SequenceConsumption

section RunTraces

variable {S : Type} [LinearOrderedField S]

/-- The problems solved by the calls `optimizationAlgorithm_.run()` of a trace, in the
order of the calls. -/
def runProblems : List (Event S) → List Problem
  | [] => []
  | Event.generate _ :: rest => runProblems rest
  | Event.computeLogPDF _ :: rest => runProblems rest
  | Event.run problem _ _ _ :: rest => problem :: runProblems rest

/-- The problems on V to be solved for the indices of a list, in order: for each index `i`
the problem of `supV[i]` when `ub[i] > 0`, then the problem of `infV[i]` when
`lb[i] < 0`. -/
def sidesToCalibrate (distribution : Distribution S) : List Nat → List Problem
  | [] => []
  | i :: rest =>
    (if Scalar.lt (Scalar.fin 0) (distribution.upperBound.get i) then [Problem.VSup i]
      else []) ++
    (if Scalar.lt (distribution.lowerBound.get i) (Scalar.fin 0) then [Problem.VInf i]
      else []) ++
    sidesToCalibrate distribution rest

end RunTraces

section WeightScenarios

variable {S : Type} [LinearOrderedField S]

/-- The sum of the entries of a point. -/
def Point.sum (p : Point S) : Scalar S := p.foldl Scalar.add (Scalar.fin 0)

/-- The attributes of the experiment of size `size` calibrated on `uniform01` (`r = 1`),
for a math library with `exp(0) = 1`: `supU = 1`, `infV = [0]`, `supV = [1]`. -/
def uniform01Experiment (size : Nat) : RatioOfUniformsExperiment S :=
  { distribution_ := uniform01
    size_ := size
    r_ := Scalar.fin 1
    supU_ := Scalar.fin 1
    infV_ := [Scalar.fin 0]
    supV_ := [Scalar.fin 1]
    optimizationAlgorithm_ := optimumZero
    candidateNumber_ := 1 }

/-- The values returned by `RandomGenerator::Generate()`: 1/2 for ever. -/
def drawsOneHalf : Nat → Scalar S := fun _ => Scalar.fin (1 / 2)

end WeightScenarios

section NumericalRange

variable {S : Type} [LinearOrderedField S]

end NumericalRange

section GammaScenarios

variable {S : Type} [LinearOrderedField S]

/-- Kernels that return `NaN` and an inverse that always fails: the boundary cases of
`GammaFunctions` do not reach them. -/
def unreachedKernels : GammaKernels S :=
  { gamma_p := fun _ _ => Scalar.nan
    gamma_q := fun _ _ => Scalar.nan
    gamma_p_inv := fun _ _ => none
    gamma_q_inv := fun _ _ => none }

end GammaScenarios

section MeixnerScenarios

variable {S : Type} [LinearOrderedField S]

/-- A stand-in for the attributes read by `MeixnerDistribution::getRealization`: the
log-density of the uniform distribution on `[-1/2, 1/2]` (density `p = 1` there), for
which `sup sqrt(p) = 1`, `inf x*sqrt(p) = -1/2` and `sup x*sqrt(p) = 1/2`. -/
def flatDensitySampler : MeixnerDistribution S :=
  { b_ := Scalar.fin 1
    c_ := Scalar.fin (-1 / 2)
    dc_ := Scalar.fin 1
    computeLogPDF := fun x =>
      if Scalar.le (Scalar.fin (-1 / 2)) x && Scalar.le x (Scalar.fin (1 / 2)) then Scalar.fin 0
      else Scalar.ninf }

end MeixnerScenarios

/-! ## Theorems -/

section Lemmas

variable {S : Type} [LinearOrderedField S]

theorem calibrateSupV_error (env : Env S) (distribution : Distribution S)
    (objectiveV : Point S → Point S) (opt : OptimizationAlgorithm S) (n i : Nat)
    (c : Calibration S) (e : OTError)
    (h : (calibrateSupV env distribution objectiveV opt n i c).error = some e) :
    c.error = some e ∨ e = infeasible Message.noFeasibleVSup := by
  unfold calibrateSupV at h
  simp only at h
  split at h
  · split at h
    · right; simpa using h.symm
    · left; exact h
  · left; exact h

theorem calibrateInfV_error (env : Env S) (distribution : Distribution S)
    (objectiveV : Point S → Point S) (opt : OptimizationAlgorithm S) (n i : Nat)
    (c : Calibration S) (e : OTError)
    (h : (calibrateInfV env distribution objectiveV opt n i c).error = some e) :
    c.error = some e ∨ e = infeasible Message.noFeasibleVInf := by
  unfold calibrateInfV at h
  simp only at h
  split at h
  · split at h
    · right; simpa using h.symm
    · left; exact h
  · left; exact h

theorem calibrateV_error (env : Env S) (distribution : Distribution S)
    (objectiveV : Point S → Point S) (opt : OptimizationAlgorithm S) (n : Nat)
    (is : List Nat) (c : Calibration S) (e : OTError)
    (h : (calibrateV env distribution objectiveV opt n is c).error = some e) :
    c.error = some e ∨ e = infeasible Message.noFeasibleVSup ∨
      e = infeasible Message.noFeasibleVInf := by
  induction is generalizing c with
  | nil => left; simpa [calibrateV] using h
  | cons i rest ih =>
    simp only [calibrateV] at h
    split at h
    · rename_i e1 h1
      cases calibrateSupV_error env distribution objectiveV opt n i c e h with
      | inl h2 => left; exact h2
      | inr h2 => right; left; exact h2
    · rename_i h1
      split at h
      · rename_i e2 h2
        cases calibrateInfV_error env distribution objectiveV opt n i _ e h with
        | inl h3 => rw [h1] at h3; exact absurd h3 (by simp)
        | inr h3 => right; right; exact h3
      · rename_i h2
        cases ih _ h with
        | inl h3 => rw [h2] at h3; exact absurd h3 (by simp)
        | inr h3 => right; exact h3

theorem initialize_error (env : Env S) (self : RatioOfUniforms S) (e : OTError)
    (h : ( RatioOfUniforms.initialize env self).error = some e) :
    e = infeasible Message.noFeasibleUSup ∨ e = infeasible Message.noFeasibleVSup ∨
      e = infeasible Message.noFeasibleVInf := by
  unfold RatioOfUniforms.initialize at h
  simp only at h
  split at h
  · left; simpa using h.symm
  · cases calibrateV_error _ _ _ _ _ _ _ e h with
    | inl h1 => simp at h1
    | inr h1 => right; exact h1

theorem initialize_error_kind (env : Env S) (self : RatioOfUniforms S) (e : OTError)
    (h : ( RatioOfUniforms.initialize env self).error = some e) :
    e.kind = ExceptionKind.InternalException := by
  rcases initialize_error env self e h with h1 | h1 | h1 <;> rw [h1] <;> rfl

theorem Scalar.lt_zero_eq_false_iff (r : Scalar S) :
    Scalar.lt (Scalar.fin 0) r = false ↔
      r = Scalar.nan ∨ r = Scalar.ninf ∨ ∃ x, r = Scalar.fin x ∧ x ≤ 0 := by
  cases r <;> simp [Scalar.lt]

theorem calibrateSupV_infV (env : Env S) (distribution : Distribution S)
    (objectiveV : Point S → Point S) (opt : OptimizationAlgorithm S) (n i : Nat)
    (c : Calibration S) :
    (calibrateSupV env distribution objectiveV opt n i c).infV_ = c.infV_ := by
  unfold calibrateSupV
  simp only
  split
  · split <;> rfl
  · rfl

theorem calibrateInfV_supV (env : Env S) (distribution : Distribution S)
    (objectiveV : Point S → Point S) (opt : OptimizationAlgorithm S) (n i : Nat)
    (c : Calibration S) :
    (calibrateInfV env distribution objectiveV opt n i c).supV_ = c.supV_ := by
  unfold calibrateInfV
  simp only
  split
  · split <;> rfl
  · rfl

theorem calibrateSupV_supV_length (env : Env S) (distribution : Distribution S)
    (objectiveV : Point S → Point S) (opt : OptimizationAlgorithm S) (n i : Nat)
    (c : Calibration S) :
    (calibrateSupV env distribution objectiveV opt n i c).supV_.length = c.supV_.length := by
  unfold calibrateSupV
  simp only
  split
  · split
    · rfl
    · simp
  · rfl

theorem calibrateInfV_infV_length (env : Env S) (distribution : Distribution S)
    (objectiveV : Point S → Point S) (opt : OptimizationAlgorithm S) (n i : Nat)
    (c : Calibration S) :
    (calibrateInfV env distribution objectiveV opt n i c).infV_.length = c.infV_.length := by
  unfold calibrateInfV
  simp only
  split
  · split
    · rfl
    · simp
  · rfl

theorem calibrateV_length (env : Env S) (distribution : Distribution S)
    (objectiveV : Point S → Point S) (opt : OptimizationAlgorithm S) (n : Nat)
    (is : List Nat) (c : Calibration S) :
    (calibrateV env distribution objectiveV opt n is c).infV_.length = c.infV_.length ∧
    (calibrateV env distribution objectiveV opt n is c).supV_.length = c.supV_.length := by
  induction is generalizing c with
  | nil => exact ⟨rfl, rfl⟩
  | cons i rest ih =>
    have h1 := calibrateSupV_infV env distribution objectiveV opt n i c
    have h2 := calibrateSupV_supV_length env distribution objectiveV opt n i c
    have h3 := calibrateInfV_supV env distribution objectiveV opt n i
      (calibrateSupV env distribution objectiveV opt n i c)
    have h4 := calibrateInfV_infV_length env distribution objectiveV opt n i
      (calibrateSupV env distribution objectiveV opt n i c)
    simp only [calibrateV]
    split
    · exact ⟨by rw [h1], h2⟩
    · split
      · exact ⟨by rw [h4, h1], by rw [h3, h2]⟩
      · have := ih (calibrateInfV env distribution objectiveV opt n i
          (calibrateSupV env distribution objectiveV opt n i c))
        exact ⟨by rw [this.1, h4, h1], by rw [this.2, h3, h2]⟩

theorem Point.resize_length (p : Point S) (n : Nat) : (Point.resize p n).length = n := by
  unfold Point.resize
  simp only [List.length_append, List.length_take, List.length_replicate]
  omega

end Lemmas

section Claims

variable {S : Type} [LinearOrderedField S]

/-- C10: `RatioOfUniforms::setR(r)` throws an `InvalidArgumentException` if and only if the
test `r > 0.0` fails, that is when `r` is a finite value `<= 0`, `-inf` or `NaN`; in that
case the attributes (`r_`, `supU_`, `infV_`, `supV_`, `distribution_`, ...) are unchanged
and no call is made to the sequence, the log-density or the optimizer. -/
theorem C10_setR_invalid_argument (env : Env S) (self : RatioOfUniforms S) (r : Scalar S) :
    ((∃ e, (RatioOfUniforms.setR env self r).error = some e ∧
        e.kind = ExceptionKind.InvalidArgumentException) ↔
      Scalar.lt (Scalar.fin 0) r = false) ∧
    (Scalar.lt (Scalar.fin 0) r = false ↔
      r = Scalar.nan ∨ r = Scalar.ninf ∨ ∃ x, r = Scalar.fin x ∧ x ≤ 0) ∧
    (Scalar.lt (Scalar.fin 0) r = false →
      (RatioOfUniforms.setR env self r).state = self ∧
      (RatioOfUniforms.setR env self r).trace = [] ∧
      (RatioOfUniforms.setR env self r).error =
        some { kind := ExceptionKind.InvalidArgumentException,
               message := Message.rStrictlyPositive }) := by
  refine ⟨⟨?_, ?_⟩, Scalar.lt_zero_eq_false_iff r, ?_⟩
  · rintro ⟨e, he, hk⟩
    by_contra hr
    have hr1 : Scalar.lt (Scalar.fin 0) r = true := by simpa using hr
    simp only [RatioOfUniforms.setR, hr1, Bool.not_true] at he
    have := initialize_error_kind _ _ e he
    rw [this] at hk
    exact absurd hk (by decide)
  · intro hr
    exact ⟨{ kind := ExceptionKind.InvalidArgumentException,
             message := Message.rStrictlyPositive },
      by simp [RatioOfUniforms.setR, hr], rfl⟩
  · intro hr
    simp [RatioOfUniforms.setR, hr]

end Claims

section SamplingLemmas

variable {S : Type} [LinearOrderedField S]

theorem rejection_iff (env : Env S) (self : RatioOfUniforms S)
    (RandomGenerator : Nat → Scalar S) (fuel start : Nat) (x : Point S) (next : Nat) :
    RatioOfUniforms.rejection env self RandomGenerator fuel
        (start * (1 + self.distribution_.dimension)) = some (x, next) ↔
      ∃ k, RatioOfUniforms.FirstAccepted env self RandomGenerator fuel start k ∧
        x = (RatioOfUniforms.trialAt env self RandomGenerator k).result ∧
        next = (k + 1) * (1 + self.distribution_.dimension) := by
  induction fuel generalizing start with
  | zero =>
    simp only [RatioOfUniforms.rejection, RatioOfUniforms.FirstAccepted]
    constructor
    · intro h; cases h
    · rintro ⟨k, ⟨h1, h2, _⟩, _⟩; omega
  | succ fuel ih =>
    have hnext : start * (1 + self.distribution_.dimension) + 1 + self.distribution_.dimension
        = (start + 1) * (1 + self.distribution_.dimension) := by ring
    simp only [RatioOfUniforms.rejection]
    by_cases hacc : (RatioOfUniforms.trial env self RandomGenerator
        (start * (1 + self.distribution_.dimension))).accepted = true
    · rw [if_pos hacc]
      constructor
      · intro h
        simp only [Option.some.injEq, Prod.mk.injEq] at h
        refine ⟨start, ⟨le_refl _, by omega, hacc, fun j h1 h2 => by omega⟩, h.1.symm, ?_⟩
        rw [← h.2, hnext]
      · rintro ⟨k, ⟨h1, h2, h3, h4⟩, hx, hn⟩
        have hk : k = start := by
          by_contra hne
          have := h4 start (le_refl _) (by omega)
          simp only [RatioOfUniforms.trialAt] at this
          rw [this] at hacc
          cases hacc
        subst hk
        simp only [Option.some.injEq, Prod.mk.injEq]
        exact ⟨hx.symm, by rw [hn, hnext]⟩
    · rw [if_neg hacc, hnext, ih (start + 1)]
      have hacc1 : (RatioOfUniforms.trialAt env self RandomGenerator start).accepted = false := by
        simpa [RatioOfUniforms.trialAt] using hacc
      constructor
      · rintro ⟨k, ⟨h1, h2, h3, h4⟩, hx, hn⟩
        refine ⟨k, ⟨by omega, by omega, h3, fun j hj1 hj2 => ?_⟩, hx, hn⟩
        by_cases hj : j = start
        · subst hj; exact hacc1
        · exact h4 j (by omega) hj2
      · rintro ⟨k, ⟨h1, h2, h3, h4⟩, hx, hn⟩
        have hk : k ≠ start := by
          intro hk
          subst hk
          rw [hacc1] at h3
          cases h3
        exact ⟨k, ⟨by omega, by omega, h3, fun j hj1 hj2 => h4 j (by omega) hj2⟩, hx, hn⟩

theorem sampleLoop_iff (env : Env S) (self : RatioOfUniforms S)
    (RandomGenerator : Nat → Scalar S) (fuel size start : Nat) (sample : Sample S) :
    RatioOfUniforms.sampleLoop env self RandomGenerator fuel size
        (start * (1 + self.distribution_.dimension)) = some sample ↔
      ∃ ks : List Nat, ks.length = size ∧
        RatioOfUniforms.AcceptedChain env self RandomGenerator fuel start ks ∧
        sample = ks.map fun k => (RatioOfUniforms.trialAt env self RandomGenerator k).result := by
  induction size generalizing start sample with
  | zero =>
    simp only [RatioOfUniforms.sampleLoop, Option.some.injEq]
    constructor
    · intro h
      exact ⟨[], rfl, trivial, by simp [← h]⟩
    · rintro ⟨ks, hlen, _, hs⟩
      have : ks = [] := List.length_eq_zero.mp hlen
      subst this
      simp [hs]
  | succ size ih =>
    simp only [RatioOfUniforms.sampleLoop]
    constructor
    · intro h
      split at h
      · cases h
      · rename_i result next hrej
        split at h
        · cases h
        · rename_i rest hrest
          obtain ⟨k, hk, hx, hn⟩ := (rejection_iff env self RandomGenerator fuel start _ _).mp hrej
          subst hn
          obtain ⟨ks, hlen, hchain, hs⟩ := (ih (k + 1) rest).mp hrest
          simp only [Option.some.injEq] at h
          refine ⟨k :: ks, by simp [hlen], ⟨hk, hchain⟩, ?_⟩
          rw [← h, hx, hs]
          rfl
    · rintro ⟨ks, hlen, hchain, hs⟩
      cases ks with
      | nil => simp at hlen
      | cons k ks =>
        obtain ⟨hk, hchain⟩ := hchain
        have hrej := (rejection_iff env self RandomGenerator fuel start _ _).mpr
          ⟨k, hk, rfl, rfl⟩
        have hrest := (ih (k + 1) _).mpr ⟨ks, by simpa using hlen, hchain, rfl⟩
        rw [hrej]
        simp only [hrest, hs, List.map_cons]

end SamplingLemmas

section ClaimC2

variable {S : Type} [LinearOrderedField S]

/-- C2: in `RatioOfUniforms::getSample`, a pass through the rejection loop that starts at
the draw `pos` of the uniform source takes `u = supU * U(pos)`, builds the candidate
`((infV[i] + (supV[i] - infV[i]) * U(pos + 1 + i)) / pow(u, r))_i` and accepts it if and only
if `(1 + r * d) * log(u) <= logPDF(candidate)`; and `getSample` returns a sample if and only
if the sampler is initialized and the sample is made of the candidates of accepted passes
`k_1 < k_2 < ...`, where `k_n` is the first accepted pass after `k_(n-1)` (reached within
the allowed number of passes). -/
theorem C2_acceptance_test (env : Env S) (self : RatioOfUniforms S)
    (RandomGenerator : Nat → Scalar S) :
    (∀ pos : Nat,
      let t := RatioOfUniforms.trial env self RandomGenerator pos
      let d := self.distribution_.dimension
      t.u = Scalar.mul self.supU_ (RandomGenerator pos) ∧
      t.result = (List.range d).map (fun i =>
        Scalar.div
          (Scalar.add (self.infV_.get i)
            (Scalar.mul (Scalar.sub (self.supV_.get i) (self.infV_.get i))
              (RandomGenerator (pos + 1 + i))))
          (Scalar.pow env.libm t.u self.r_)) ∧
      (t.accepted = true ↔
        Scalar.le
          (Scalar.mul (Scalar.add (Scalar.fin 1) (Scalar.mul self.r_ (Scalar.ofNat d)))
            (Scalar.log env.libm t.u))
          (self.distribution_.computeLogPDF t.result) = true)) ∧
    (∀ (fuel size : Nat) (sample : Sample S),
      RatioOfUniforms.getSample env self RandomGenerator fuel size = Run.returned sample ↔
        self.infV_.length ≠ 0 ∧
        ∃ ks : List Nat, ks.length = size ∧
          RatioOfUniforms.AcceptedChain env self RandomGenerator fuel 0 ks ∧
          sample = ks.map fun k =>
            (RatioOfUniforms.trialAt env self RandomGenerator k).result) := by
  constructor
  · intro pos
    exact ⟨rfl, rfl, Iff.rfl⟩
  · intro fuel size sample
    have key := sampleLoop_iff env self RandomGenerator fuel size 0 sample
    rw [Nat.zero_mul] at key
    unfold RatioOfUniforms.getSample
    by_cases hinit : self.infV_.length = 0
    · simp [hinit]
    · rw [if_neg hinit, ← key]
      cases hloop : RatioOfUniforms.sampleLoop env self RandomGenerator fuel size 0 with
      | none => simp [hinit]
      | some s => simp [hinit]

end ClaimC2

section Evaluation

variable {S : Type} [LinearOrderedField S]

theorem range_one : List.range 1 = [0] := rfl

theorem range_two : List.range 2 = [0, 1] := rfl

omit [LinearOrderedField S] in
theorem Point.get_cons_zero (a : Scalar S) (l : Point S) : Point.get (a :: l) 0 = a := rfl

omit [LinearOrderedField S] in
theorem Point.get_cons_succ (a : Scalar S) (l : Point S) (i : Nat) :
    Point.get (a :: l) (i + 1) = Point.get l i := rfl

omit [LinearOrderedField S] in
theorem Point.get_cons_one (a : Scalar S) (l : Point S) :
    Point.get (a :: l) 1 = Point.get l 0 := rfl

theorem uniform01_dimension : (uniform01 (S := S)).dimension = 1 := rfl

theorem uniform01_lowerBound : (uniform01 (S := S)).lowerBound = [Scalar.fin 0] := rfl

theorem uniform01_upperBound : (uniform01 (S := S)).upperBound = [Scalar.fin 1] := rfl

theorem uniform01_isContinuous : (uniform01 (S := S)).isContinuous = true := rfl

theorem uniform01_logPDF_fin (x : S) :
    (uniform01 (S := S)).computeLogPDF [Scalar.fin x] =
      if 0 ≤ x ∧ x ≤ 1 then Scalar.fin 0 else Scalar.ninf := by
  simp [uniform01, Point.get, Scalar.le]

theorem twoIntervals_dimension : (twoIntervals (S := S)).dimension = 1 := rfl

theorem twoIntervals_lowerBound : (twoIntervals (S := S)).lowerBound = [Scalar.fin (-1)] := rfl

theorem twoIntervals_upperBound : (twoIntervals (S := S)).upperBound = [Scalar.fin 1] := rfl

theorem twoIntervals_isContinuous : (twoIntervals (S := S)).isContinuous = true := rfl

theorem twoIntervals_logPDF_fin (x : S) :
    (twoIntervals (S := S)).computeLogPDF [Scalar.fin x] =
      if (-1 ≤ x ∧ x ≤ -1 / 2) ∨ (1 / 2 ≤ x ∧ x ≤ 1) then Scalar.fin 0 else Scalar.ninf := by
  simp [twoIntervals, Point.get, Scalar.le]

theorem twoIntervalsSquared_dimension : (twoIntervalsSquared (S := S)).dimension = 2 := rfl

theorem twoIntervalsSquared_lowerBound :
    (twoIntervalsSquared (S := S)).lowerBound = [Scalar.fin (-1), Scalar.fin (-1)] := rfl

theorem twoIntervalsSquared_upperBound :
    (twoIntervalsSquared (S := S)).upperBound = [Scalar.fin 1, Scalar.fin 1] := rfl

theorem twoIntervalsSquared_isContinuous :
    (twoIntervalsSquared (S := S)).isContinuous = true := rfl

theorem twoIntervalsSquared_logPDF_zero :
    (twoIntervalsSquared (S := S)).computeLogPDF [Scalar.fin 0, Scalar.fin 0] = Scalar.ninf := by
  norm_num [twoIntervalsSquared, twoIntervals_logPDF_fin, Point.get_cons_zero,
    Point.get_cons_one, Scalar.add]

theorem freshSampler_eq (n : Nat) (hn : n ≠ 0) :
    freshSampler n =
      ({ distribution_ := uniform01, r_ := Scalar.fin 1, supU_ := Scalar.fin 0,
         infV_ := [], supV_ := [], optimizationAlgorithm_ := optimumZero,
         candidateNumber_ := n } : RatioOfUniforms S) := by
  simp [freshSampler, RatioOfUniforms.setCandidateNumber, hn, RatioOfUniforms.new,
    exampleDefaults]

/-- Calibration of a fresh sampler (one candidate) on `uniform01`: it succeeds. -/
theorem eval_uniform01 (m : Libm S) :
    RatioOfUniforms.setDistribution (exampleEnv m) (freshSampler 1) uniform01 =
      { state :=
          { distribution_ := uniform01, r_ := Scalar.fin 1, supU_ := Scalar.fin (m.exp 0),
            infV_ := [Scalar.fin 0], supV_ := [Scalar.fin (m.exp 0)],
            optimizationAlgorithm_ := optimumZero, candidateNumber_ := 1 }
        error := none
        trace :=
          [Event.generate 0, Event.computeLogPDF [Scalar.fin (1 / 2)],
           Event.run Problem.U [Scalar.fin 0] [Scalar.fin 1] [Scalar.fin (1 / 2)],
           Event.generate 1, Event.computeLogPDF [Scalar.fin (3 / 4)],
           Event.run (Problem.VSup 0) [Scalar.fin 0] [Scalar.fin 1] [Scalar.fin (3 / 4)]] } := by
  rw [freshSampler_eq 1 (by decide)]
  norm_num [RatioOfUniforms.setDistribution, RatioOfUniforms.initialize, optimumZero,
    feasibleStart, exampleEnv, sobolPoints, sobolCoordinate, range_one, toRange, toOrthant,
    uniform01_logPDF_fin, uniform01_dimension, uniform01_lowerBound, uniform01_upperBound,
    uniform01_isContinuous, Point.get_cons_zero, Point.get_cons_succ,
    Scalar.add, Scalar.mul, Scalar.sub, Scalar.neg, Scalar.isNormal, Scalar.lt, Scalar.exp,
    Point.resize, calibrateV, calibrateSupV, calibrateInfV, Point.const]

end Evaluation

section Evaluation2

variable {S : Type} [LinearOrderedField S]

/-- Calibration of a fresh sampler (three candidates) on `twoIntervals`: it succeeds. -/
theorem eval_twoIntervals_three (m : Libm S) :
    RatioOfUniforms.setDistribution (exampleEnv m) (freshSampler 3) twoIntervals =
      { state :=
          { distribution_ := twoIntervals, r_ := Scalar.fin 1, supU_ := Scalar.fin (m.exp 0),
            infV_ := [Scalar.fin (-(m.exp 0))], supV_ := [Scalar.fin (m.exp 0)],
            optimizationAlgorithm_ := optimumZero, candidateNumber_ := 3 }
        error := none
        trace :=
          [Event.generate 0, Event.computeLogPDF [Scalar.fin 0],
           Event.generate 1, Event.computeLogPDF [Scalar.fin (1 / 2)],
           Event.run Problem.U [Scalar.fin (-1)] [Scalar.fin 1] [Scalar.fin (1 / 2)],
           Event.generate 2, Event.computeLogPDF [Scalar.fin (1 / 4)],
           Event.generate 3, Event.computeLogPDF [Scalar.fin (3 / 8)],
           Event.generate 4, Event.computeLogPDF [Scalar.fin (7 / 8)],
           Event.run (Problem.VSup 0) [Scalar.fin 0] [Scalar.fin 1] [Scalar.fin (7 / 8)],
           Event.generate 5, Event.computeLogPDF [Scalar.fin (-(5 / 8))],
           Event.run (Problem.VInf 0) [Scalar.fin (-1)] [Scalar.fin 0]
             [Scalar.fin (-(5 / 8))]] } := by
  rw [freshSampler_eq 3 (by decide)]
  norm_num [RatioOfUniforms.setDistribution, RatioOfUniforms.initialize, optimumZero,
    feasibleStart, exampleEnv, sobolPoints, sobolCoordinate, range_one, toRange, toOrthant,
    twoIntervals_logPDF_fin, twoIntervals_dimension, twoIntervals_lowerBound,
    twoIntervals_upperBound, twoIntervals_isContinuous, Point.get_cons_zero,
    Point.get_cons_succ, Scalar.add, Scalar.mul, Scalar.sub, Scalar.neg, Scalar.isNormal,
    Scalar.lt, Scalar.exp, Point.resize, calibrateV, calibrateSupV, calibrateInfV, Point.const]

/-- Calibration of a fresh sampler (two candidates) on `twoIntervals`: the search of a
starting point for `supV_[0]` fails, after `supU_` was written and the vectors resized. -/
theorem eval_twoIntervals_two (m : Libm S) :
    RatioOfUniforms.setDistribution (exampleEnv m) (freshSampler 2) twoIntervals =
      { state :=
          { distribution_ := twoIntervals, r_ := Scalar.fin 1, supU_ := Scalar.fin (m.exp 0),
            infV_ := [Scalar.fin 0], supV_ := [Scalar.fin 0],
            optimizationAlgorithm_ := optimumZero, candidateNumber_ := 2 }
        error := some (infeasible Message.noFeasibleVSup)
        trace :=
          [Event.generate 0, Event.computeLogPDF [Scalar.fin 0],
           Event.generate 1, Event.computeLogPDF [Scalar.fin (1 / 2)],
           Event.run Problem.U [Scalar.fin (-1)] [Scalar.fin 1] [Scalar.fin (1 / 2)],
           Event.generate 2, Event.computeLogPDF [Scalar.fin (1 / 4)],
           Event.generate 3, Event.computeLogPDF [Scalar.fin (3 / 8)]] } := by
  rw [freshSampler_eq 2 (by decide)]
  norm_num [RatioOfUniforms.setDistribution, RatioOfUniforms.initialize, optimumZero,
    feasibleStart, exampleEnv, sobolPoints, sobolCoordinate, range_one, toRange, toOrthant,
    twoIntervals_logPDF_fin, twoIntervals_dimension, twoIntervals_lowerBound,
    twoIntervals_upperBound, twoIntervals_isContinuous, Point.get_cons_zero,
    Point.get_cons_succ, Scalar.add, Scalar.mul, Scalar.sub, Scalar.neg, Scalar.isNormal,
    Scalar.lt, Scalar.exp, Point.resize, calibrateV, calibrateSupV, calibrateInfV, Point.const]

/-- Calibration on `uniform01` of the sampler calibrated on `twoIntervals`: it succeeds and
the entry `infV_[0]` of the former calibration is still there. -/
theorem eval_recalibration (m : Libm S) :
    RatioOfUniforms.setDistribution (exampleEnv m)
        (RatioOfUniforms.setDistribution (exampleEnv m) (freshSampler 3) twoIntervals).state
        uniform01 =
      { state :=
          { distribution_ := uniform01, r_ := Scalar.fin 1, supU_ := Scalar.fin (m.exp 0),
            infV_ := [Scalar.fin (-(m.exp 0))], supV_ := [Scalar.fin (m.exp 0)],
            optimizationAlgorithm_ := optimumZero, candidateNumber_ := 3 }
        error := none
        trace :=
          [Event.generate 0, Event.computeLogPDF [Scalar.fin (1 / 2)],
           Event.run Problem.U [Scalar.fin 0] [Scalar.fin 1] [Scalar.fin (1 / 2)],
           Event.generate 1, Event.computeLogPDF [Scalar.fin (3 / 4)],
           Event.run (Problem.VSup 0) [Scalar.fin 0] [Scalar.fin 1] [Scalar.fin (3 / 4)]] } := by
  rw [eval_twoIntervals_three]
  norm_num [RatioOfUniforms.setDistribution, RatioOfUniforms.initialize, optimumZero,
    feasibleStart, exampleEnv, sobolPoints, sobolCoordinate, range_one, toRange, toOrthant,
    uniform01_logPDF_fin, uniform01_dimension, uniform01_lowerBound, uniform01_upperBound,
    uniform01_isContinuous, Point.get_cons_zero, Point.get_cons_succ,
    Scalar.add, Scalar.mul, Scalar.sub, Scalar.neg, Scalar.isNormal, Scalar.lt, Scalar.exp,
    Point.resize, calibrateV, calibrateSupV, calibrateInfV, Point.const]

/-- The call `setDistribution(twoIntervalsSquared)` on the sampler calibrated on `uniform01`
(one candidate): the search of a starting point for `supU_` fails. -/
theorem eval_dimension_change (m : Libm S) :
    RatioOfUniforms.setDistribution (exampleEnv m)
        (RatioOfUniforms.setDistribution (exampleEnv m) (freshSampler 1) uniform01).state
        twoIntervalsSquared =
      { state :=
          { distribution_ := twoIntervalsSquared, r_ := Scalar.fin 1,
            supU_ := Scalar.fin (m.exp 0),
            infV_ := [Scalar.fin 0], supV_ := [Scalar.fin (m.exp 0)],
            optimizationAlgorithm_ := optimumZero, candidateNumber_ := 1 }
        error := some (infeasible Message.noFeasibleUSup)
        trace := [Event.generate 0, Event.computeLogPDF [Scalar.fin 0, Scalar.fin 0]] } := by
  rw [eval_uniform01]
  norm_num [RatioOfUniforms.setDistribution, RatioOfUniforms.initialize, optimumZero,
    feasibleStart, exampleEnv, sobolPoints, sobolCoordinate, range_two, toRange, toOrthant,
    twoIntervalsSquared_logPDF_zero, twoIntervalsSquared_dimension,
    twoIntervalsSquared_lowerBound, twoIntervalsSquared_upperBound,
    twoIntervalsSquared_isContinuous, Point.get_cons_zero, Point.get_cons_one,
    Point.get_cons_succ, Scalar.add, Scalar.mul, Scalar.sub, Scalar.neg, Scalar.isNormal]

end Evaluation2

section ClaimC5

variable {S : Type} [LinearOrderedField S]

theorem experiment_setDistribution_error (env : Env S) (self : RatioOfUniformsExperiment S)
    (distribution : Distribution S) (e : OTError)
    (h : (RatioOfUniformsExperiment.setDistribution env self distribution).error = some e) :
    (e = { kind := ExceptionKind.InvalidArgumentException, message := Message.onlyContinuous }
        ∧ (RatioOfUniformsExperiment.setDistribution env self distribution).state = self) ∨
    (e = infeasible Message.noFeasibleUSup
        ∧ (RatioOfUniformsExperiment.setDistribution env self distribution).state = self) ∨
    ((e = infeasible Message.noFeasibleVSup ∨ e = infeasible Message.noFeasibleVInf)
        ∧ (RatioOfUniformsExperiment.setDistribution env self distribution).state.distribution_
            = self.distribution_) := by
  unfold RatioOfUniformsExperiment.setDistribution at h ⊢
  simp only at h ⊢
  split at h
  · rename_i hc
    rw [if_pos hc]
    left
    exact ⟨by simpa using h.symm, rfl⟩
  · rename_i hc
    rw [if_neg hc]
    split at h
    · rename_i hs
      rw [if_pos hs]
      right; left
      exact ⟨by simpa using h.symm, rfl⟩
    · rename_i hs
      rw [if_neg hs]
      right; right
      split at h
      · rename_i e1 he1
        simp only [Option.some.injEq] at h
        subst h
        rcases calibrateV_error _ _ _ _ _ _ _ e1 he1 with h1 | h1
        · simp at h1
        · exact ⟨h1, rfl⟩
      · simp at h

/-- C5 (amended): when a calibration aborts in the search of a starting point for `supU`,
`RatioOfUniforms::initialize` leaves every attribute as it was, so that after
`RatioOfUniforms::setDistribution` the attributes `supU_`, `infV_` and `supV_` are those of
before the call, and `RatioOfUniformsExperiment::setDistribution` leaves every attribute
as it was; whichever search aborts, `RatioOfUniformsExperiment::setDistribution` leaves
`distribution_` as it was; and when `initialize` aborts in a search for `supV` or `infV`,
`supU_` has been overwritten with the new bound and `infV_` and `supV_` have been resized
to the dimension. -/
theorem C5_abort_in_U_search (env : Env S) (self : RatioOfUniforms S)
    (experiment : RatioOfUniformsExperiment S) (distribution : Distribution S) :
    (( RatioOfUniforms.initialize env self).error = some (infeasible Message.noFeasibleUSup) →
      ( RatioOfUniforms.initialize env self).state = self) ∧
    ((RatioOfUniforms.setDistribution env self distribution).error =
        some (infeasible Message.noFeasibleUSup) →
      (RatioOfUniforms.setDistribution env self distribution).state.supU_ = self.supU_ ∧
      (RatioOfUniforms.setDistribution env self distribution).state.infV_ = self.infV_ ∧
      (RatioOfUniforms.setDistribution env self distribution).state.supV_ = self.supV_) ∧
    ((RatioOfUniformsExperiment.setDistribution env experiment distribution).error =
        some (infeasible Message.noFeasibleUSup) →
      (RatioOfUniformsExperiment.setDistribution env experiment distribution).state
        = experiment) ∧
    (∀ e, (RatioOfUniformsExperiment.setDistribution env experiment distribution).error
        = some e →
      (RatioOfUniformsExperiment.setDistribution env experiment distribution).state.distribution_
        = experiment.distribution_) ∧
    (∀ e, ( RatioOfUniforms.initialize env self).error = some e →
      e ≠ infeasible Message.noFeasibleUSup →
      (∃ start, ( RatioOfUniforms.initialize env self).state.supU_ =
        Scalar.exp env.libm (self.optimizationAlgorithm_
          (getMarginal (RatioOfUniformsUBoundEvaluation env self.distribution_ self.r_) 0)
          self.distribution_.lowerBound self.distribution_.upperBound start)) ∧
      ( RatioOfUniforms.initialize env self).state.infV_.length = self.distribution_.dimension ∧
      ( RatioOfUniforms.initialize env self).state.supV_.length
        = self.distribution_.dimension) := by
  have hinit : ∀ st : RatioOfUniforms S,
      ( RatioOfUniforms.initialize env st).error = some (infeasible Message.noFeasibleUSup) →
      ( RatioOfUniforms.initialize env st).state = st := by
    intro st h
    unfold RatioOfUniforms.initialize at h ⊢
    simp only at h ⊢
    split at h
    · rename_i hs
      rw [if_pos hs]
    · rcases calibrateV_error _ _ _ _ _ _ _ _ h with h1 | h1 | h1
      · simp at h1
      · exact absurd h1 (by decide)
      · exact absurd h1 (by decide)
  refine ⟨hinit self, ?_, ?_, ?_, ?_⟩
  · intro h
    unfold RatioOfUniforms.setDistribution at h ⊢
    split at h
    · simp [infeasible] at h
    · rename_i hc
      rw [if_neg hc, hinit _ h]
      exact ⟨rfl, rfl, rfl⟩
  · intro h
    rcases experiment_setDistribution_error env experiment distribution _ h with h1 | h1 | h1
    · exact absurd h1.1 (by decide)
    · exact h1.2
    · rcases h1.1 with h2 | h2 <;> exact absurd h2 (by decide)
  · intro e h
    rcases experiment_setDistribution_error env experiment distribution _ h with h1 | h1 | h1
    · rw [h1.2]
    · rw [h1.2]
    · exact h1.2
  · intro e h hne
    unfold RatioOfUniforms.initialize at h ⊢
    simp only at h ⊢
    split at h
    · simp only [Option.some.injEq] at h
      exact absurd h.symm hne
    · rename_i hs
      rw [if_neg hs]
      simp only
      have := calibrateV_length env self.distribution_
        (RatioOfUniformsVBoundEvaluation env self.distribution_ self.r_)
        self.optimizationAlgorithm_ self.candidateNumber_
        (List.range self.distribution_.dimension)
        { infV_ := self.infV_.resize self.distribution_.dimension,
          supV_ := self.supV_.resize self.distribution_.dimension,
          pos := (feasibleStart self.distribution_
            (env.SobolSequence self.distribution_.dimension)
            (toRange self.distribution_.dimension self.distribution_.lowerBound
              self.distribution_.upperBound) self.candidateNumber_ 0).pos,
          trace := (feasibleStart self.distribution_
            (env.SobolSequence self.distribution_.dimension)
            (toRange self.distribution_.dimension self.distribution_.lowerBound
              self.distribution_.upperBound) self.candidateNumber_ 0).trace ++
            [Event.run Problem.U self.distribution_.lowerBound self.distribution_.upperBound
              (feasibleStart self.distribution_
                (env.SobolSequence self.distribution_.dimension)
                (toRange self.distribution_.dimension self.distribution_.lowerBound
                  self.distribution_.upperBound) self.candidateNumber_ 0).start],
          error := none }
      simp only [Point.resize_length] at this
      exact ⟨⟨_, rfl⟩, this⟩

end ClaimC5

section ClaimC5Concrete

variable {S : Type} [LinearOrderedField S]

theorem setDistribution_eq_initialize (env : Env S) (self : RatioOfUniforms S)
    (distribution : Distribution S) (h : distribution.isContinuous = true) :
    RatioOfUniforms.setDistribution env self distribution =
      RatioOfUniforms.initialize env { self with distribution_ := distribution } := by
  simp [RatioOfUniforms.setDistribution, h]

/-- The call `setDistribution(twoIntervalsSquared)` on a fresh experiment (one candidate):
the search of a starting point for `supU_` fails. -/
theorem eval_experiment_abort (m : Libm S) (size : Nat) :
    RatioOfUniformsExperiment.setDistribution (exampleEnv m) (freshExperiment 1 size)
        twoIntervalsSquared =
      { state := freshExperiment 1 size
        error := some (infeasible Message.noFeasibleUSup)
        trace := [Event.generate 0, Event.computeLogPDF [Scalar.fin 0, Scalar.fin 0]] } := by
  norm_num [RatioOfUniformsExperiment.setDistribution, freshExperiment,
    feasibleStart, exampleEnv, sobolPoints, sobolCoordinate, range_two, toRange, toOrthant,
    twoIntervalsSquared_logPDF_zero, twoIntervalsSquared_dimension,
    twoIntervalsSquared_lowerBound, twoIntervalsSquared_upperBound,
    twoIntervalsSquared_isContinuous, Point.get_cons_zero, Point.get_cons_one,
    Point.get_cons_succ, Scalar.add, Scalar.mul, Scalar.sub, Scalar.neg, Scalar.isNormal]

end ClaimC5Concrete

/-- C5 (counterexample): `setDistribution(twoIntervals)` on a fresh sampler with two
candidates aborts with the feasible-point `InternalException` in the search for `supV_[0]`,
and `supU_`, `infV_`, `supV_` and `distribution_` are not what they were before the call:
`supU_` went from 0 to 1, `infV_` and `supV_` from empty to `[0]`, and the dimension-one
range of `distribution_` from `[0, 1]` to `[-1, 1]`. -/
theorem C5_counterexample :
    (RatioOfUniforms.setDistribution
        (exampleEnv (⟨Real.exp, Real.log, fun x y => x ^ y⟩ : Libm ℝ))
        (freshSampler 2) twoIntervals).error = some (infeasible Message.noFeasibleVSup) ∧
    (freshSampler 2 : RatioOfUniforms ℝ).supU_ = Scalar.fin 0 ∧
    (freshSampler 2 : RatioOfUniforms ℝ).infV_ = [] ∧
    (freshSampler 2 : RatioOfUniforms ℝ).supV_ = [] ∧
    (freshSampler 2 : RatioOfUniforms ℝ).distribution_.lowerBound = [Scalar.fin 0] ∧
    (RatioOfUniforms.setDistribution
        (exampleEnv (⟨Real.exp, Real.log, fun x y => x ^ y⟩ : Libm ℝ))
        (freshSampler 2) twoIntervals).state.supU_ = Scalar.fin 1 ∧
    (RatioOfUniforms.setDistribution
        (exampleEnv (⟨Real.exp, Real.log, fun x y => x ^ y⟩ : Libm ℝ))
        (freshSampler 2) twoIntervals).state.infV_ = [Scalar.fin 0] ∧
    (RatioOfUniforms.setDistribution
        (exampleEnv (⟨Real.exp, Real.log, fun x y => x ^ y⟩ : Libm ℝ))
        (freshSampler 2) twoIntervals).state.supV_ = [Scalar.fin 0] ∧
    (RatioOfUniforms.setDistribution
        (exampleEnv (⟨Real.exp, Real.log, fun x y => x ^ y⟩ : Libm ℝ))
        (freshSampler 2) twoIntervals).state.distribution_.lowerBound = [Scalar.fin (-1)] := by
  rw [eval_twoIntervals_two, freshSampler_eq 2 (by decide)]
  simp [Real.exp_zero, uniform01_lowerBound, twoIntervals_lowerBound]

/-- C5 (witness): the hypotheses are met by concrete calls.  On the sampler
calibrated on `uniform01`, `setDistribution(twoIntervalsSquared)` aborts in the search for
`supU` and leaves `supU_`, `infV_`, `supV_` as they were; the same call on a fresh
experiment leaves the experiment as it was; and `initialize` on a sampler with two
candidates and the target `twoIntervals` aborts in the search for `supV_[0]`, the two
vectors having one entry; and `initialize` on a fresh sampler holding the target
`twoIntervalsSquared` aborts in the search for `supU` and leaves the sampler as it was. -/
theorem C5_abort_in_U_search_witness :
    ((RatioOfUniforms.setDistribution
        (exampleEnv (⟨Real.exp, Real.log, fun x y => x ^ y⟩ : Libm ℝ))
        (RatioOfUniforms.setDistribution
          (exampleEnv (⟨Real.exp, Real.log, fun x y => x ^ y⟩ : Libm ℝ))
          (freshSampler 1) uniform01).state
        twoIntervalsSquared).error = some (infeasible Message.noFeasibleUSup) ∧
      (RatioOfUniforms.setDistribution
        (exampleEnv (⟨Real.exp, Real.log, fun x y => x ^ y⟩ : Libm ℝ))
        (RatioOfUniforms.setDistribution
          (exampleEnv (⟨Real.exp, Real.log, fun x y => x ^ y⟩ : Libm ℝ))
          (freshSampler 1) uniform01).state
        twoIntervalsSquared).state.supV_ =
      (RatioOfUniforms.setDistribution
          (exampleEnv (⟨Real.exp, Real.log, fun x y => x ^ y⟩ : Libm ℝ))
          (freshSampler 1) uniform01).state.supV_) ∧
    ((RatioOfUniformsExperiment.setDistribution
        (exampleEnv (⟨Real.exp, Real.log, fun x y => x ^ y⟩ : Libm ℝ))
        (freshExperiment 1 1) twoIntervalsSquared).error
        = some (infeasible Message.noFeasibleUSup) ∧
      (RatioOfUniformsExperiment.setDistribution
        (exampleEnv (⟨Real.exp, Real.log, fun x y => x ^ y⟩ : Libm ℝ))
        (freshExperiment 1 1) twoIntervalsSquared).state = freshExperiment 1 1) ∧
    (( RatioOfUniforms.initialize
        (exampleEnv (⟨Real.exp, Real.log, fun x y => x ^ y⟩ : Libm ℝ))
        { freshSampler 2 with distribution_ := twoIntervals }).error
        = some (infeasible Message.noFeasibleVSup) ∧
      ( RatioOfUniforms.initialize
        (exampleEnv (⟨Real.exp, Real.log, fun x y => x ^ y⟩ : Libm ℝ))
        { freshSampler 2 with distribution_ := twoIntervals }).state.infV_.length = 1) ∧
    (( RatioOfUniforms.initialize
        (exampleEnv (⟨Real.exp, Real.log, fun x y => x ^ y⟩ : Libm ℝ))
        { freshSampler 1 with distribution_ := twoIntervalsSquared }).error
        = some (infeasible Message.noFeasibleUSup) ∧
      ( RatioOfUniforms.initialize
        (exampleEnv (⟨Real.exp, Real.log, fun x y => x ^ y⟩ : Libm ℝ))
        { freshSampler 1 with distribution_ := twoIntervalsSquared }).state
        = { freshSampler 1 with distribution_ := twoIntervalsSquared }) ∧
    (RatioOfUniformsExperiment.setDistribution
        (exampleEnv (⟨Real.exp, Real.log, fun x y => x ^ y⟩ : Libm ℝ))
        (freshExperiment 1 1) twoIntervalsSquared).state.distribution_
      = (freshExperiment 1 1 : RatioOfUniformsExperiment ℝ).distribution_ := by
  have h1 : (RatioOfUniforms.setDistribution
        (exampleEnv (⟨Real.exp, Real.log, fun x y => x ^ y⟩ : Libm ℝ))
        (RatioOfUniforms.setDistribution
          (exampleEnv (⟨Real.exp, Real.log, fun x y => x ^ y⟩ : Libm ℝ))
          (freshSampler 1) uniform01).state
        twoIntervalsSquared).error = some (infeasible Message.noFeasibleUSup) := by
    rw [eval_dimension_change]
  have h2 : (RatioOfUniformsExperiment.setDistribution
        (exampleEnv (⟨Real.exp, Real.log, fun x y => x ^ y⟩ : Libm ℝ))
        (freshExperiment 1 1) twoIntervalsSquared).error
        = some (infeasible Message.noFeasibleUSup) := by
    rw [eval_experiment_abort]
  have h3 : ( RatioOfUniforms.initialize
        (exampleEnv (⟨Real.exp, Real.log, fun x y => x ^ y⟩ : Libm ℝ))
        { freshSampler 2 with distribution_ := twoIntervals }).error
        = some (infeasible Message.noFeasibleVSup) := by
    rw [← setDistribution_eq_initialize _ _ _ twoIntervals_isContinuous,
      eval_twoIntervals_two]
  have h4 : ( RatioOfUniforms.initialize
        (exampleEnv (⟨Real.exp, Real.log, fun x y => x ^ y⟩ : Libm ℝ))
        { freshSampler 1 with distribution_ := twoIntervalsSquared }).error
        = some (infeasible Message.noFeasibleUSup) := by
    rw [freshSampler_eq 1 (by decide)]
    norm_num [ RatioOfUniforms.initialize, feasibleStart, exampleEnv, sobolPoints,
      sobolCoordinate, range_two, toRange, twoIntervalsSquared_logPDF_zero,
      twoIntervalsSquared_dimension, twoIntervalsSquared_lowerBound,
      twoIntervalsSquared_upperBound, Point.get_cons_zero, Point.get_cons_one,
      Scalar.add, Scalar.mul, Scalar.sub, Scalar.neg, Scalar.isNormal]
  exact ⟨⟨h1, ((C5_abort_in_U_search _ _ (freshExperiment 1 1) twoIntervalsSquared).2.1
      h1).2.2⟩,
    ⟨h2, (C5_abort_in_U_search _ (freshSampler 1) (freshExperiment 1 1)
      twoIntervalsSquared).2.2.1 h2⟩,
    ⟨h3, ((C5_abort_in_U_search _ { freshSampler 2 with distribution_ := twoIntervals }
      (freshExperiment 1 1) twoIntervalsSquared).2.2.2.2 _ h3 (by decide)).2.1⟩,
    ⟨h4, (C5_abort_in_U_search _ { freshSampler 1 with distribution_ := twoIntervalsSquared }
      (freshExperiment 1 1) twoIntervalsSquared).1 h4⟩,
    (C5_abort_in_U_search _ (freshSampler 1) (freshExperiment 1 1)
      twoIntervalsSquared).2.2.2.1 _ h2⟩

section BoundLemmas

variable {S : Type} [LinearOrderedField S]

omit [LinearOrderedField S] in
theorem Point.get_set (p : Point S) (i k : Nat) (v : Scalar S) :
    Point.get (p.set i v) k = if i = k ∧ k < p.length then v else Point.get p k := by
  unfold Point.get
  rw [List.getD_eq_getElem?_getD, List.getD_eq_getElem?_getD, List.getElem?_set]
  by_cases h : i = k
  · subst h
    by_cases hl : i < p.length
    · simp [hl]
    · simp [hl, List.getElem?_eq_none (by omega : p.length ≤ i)]
  · simp [h]

theorem calibrateSupV_get (env : Env S) (distribution : Distribution S)
    (objectiveV : Point S → Point S) (opt : OptimizationAlgorithm S) (n i k : Nat)
    (c : Calibration S) :
    (calibrateSupV env distribution objectiveV opt n i c).supV_.get k = c.supV_.get k ∨
    (k = i ∧ ∃ start, (calibrateSupV env distribution objectiveV opt n i c).supV_.get k =
      Scalar.exp env.libm (opt (getMarginal objectiveV i)
        (Point.const distribution.dimension (Scalar.fin 0)) distribution.upperBound start)) := by
  unfold calibrateSupV
  simp only
  split
  · split
    · left; rfl
    · simp only [Point.get_set]
      by_cases h : i = k ∧ k < c.supV_.length
      · right
        rw [if_pos h]
        exact ⟨h.1.symm, _, rfl⟩
      · left
        rw [if_neg h]
  · left; rfl

theorem calibrateSupV_sets (env : Env S) (distribution : Distribution S)
    (objectiveV : Point S → Point S) (opt : OptimizationAlgorithm S) (n i : Nat)
    (c : Calibration S)
    (hub : Scalar.lt (Scalar.fin 0) (distribution.upperBound.get i) = true)
    (hi : i < c.supV_.length)
    (h : (calibrateSupV env distribution objectiveV opt n i c).error = none) :
    ∃ start, (calibrateSupV env distribution objectiveV opt n i c).supV_.get i =
      Scalar.exp env.libm (opt (getMarginal objectiveV i)
        (Point.const distribution.dimension (Scalar.fin 0)) distribution.upperBound start) := by
  unfold calibrateSupV at h ⊢
  simp only at h ⊢
  rw [if_pos hub] at h ⊢
  split at h
  · simp at h
  · rename_i hs
    rw [if_neg hs]
    simp only [Point.get_set]
    rw [if_pos ⟨trivial, hi⟩]
    exact ⟨_, rfl⟩

theorem calibrateInfV_get (env : Env S) (distribution : Distribution S)
    (objectiveV : Point S → Point S) (opt : OptimizationAlgorithm S) (n i k : Nat)
    (c : Calibration S) :
    (calibrateInfV env distribution objectiveV opt n i c).infV_.get k = c.infV_.get k ∨
    (k = i ∧ ∃ start, (calibrateInfV env distribution objectiveV opt n i c).infV_.get k =
      Scalar.neg (Scalar.exp env.libm (opt (getMarginal objectiveV i)
        distribution.lowerBound (Point.const distribution.dimension (Scalar.fin 0)) start))) := by
  unfold calibrateInfV
  simp only
  split
  · split
    · left; rfl
    · simp only [Point.get_set]
      by_cases h : i = k ∧ k < c.infV_.length
      · right
        rw [if_pos h]
        exact ⟨h.1.symm, _, rfl⟩
      · left
        rw [if_neg h]
  · left; rfl

theorem calibrateInfV_sets (env : Env S) (distribution : Distribution S)
    (objectiveV : Point S → Point S) (opt : OptimizationAlgorithm S) (n i : Nat)
    (c : Calibration S)
    (hlb : Scalar.lt (distribution.lowerBound.get i) (Scalar.fin 0) = true)
    (hi : i < c.infV_.length)
    (h : (calibrateInfV env distribution objectiveV opt n i c).error = none) :
    ∃ start, (calibrateInfV env distribution objectiveV opt n i c).infV_.get i =
      Scalar.neg (Scalar.exp env.libm (opt (getMarginal objectiveV i)
        distribution.lowerBound (Point.const distribution.dimension (Scalar.fin 0)) start)) := by
  unfold calibrateInfV at h ⊢
  simp only at h ⊢
  rw [if_pos hlb] at h ⊢
  split at h
  · simp at h
  · rename_i hs
    rw [if_neg hs]
    simp only [Point.get_set]
    rw [if_pos ⟨trivial, hi⟩]
    exact ⟨_, rfl⟩

/-- An entry of `supV_` after the loop on `i` is the entry of before the loop, or the
exponential of an optimal value of the objective of its index over `[0, ub]`; the same
for `infV_`, with the opposite of the exponential and the box `[lb, 0]`. -/
theorem calibrateV_get (env : Env S) (distribution : Distribution S)
    (objectiveV : Point S → Point S) (opt : OptimizationAlgorithm S) (n : Nat)
    (is : List Nat) (k : Nat) (c : Calibration S) :
    ((calibrateV env distribution objectiveV opt n is c).supV_.get k = c.supV_.get k ∨
      ∃ start, (calibrateV env distribution objectiveV opt n is c).supV_.get k =
        Scalar.exp env.libm (opt (getMarginal objectiveV k)
          (Point.const distribution.dimension (Scalar.fin 0))
          distribution.upperBound start)) ∧
    ((calibrateV env distribution objectiveV opt n is c).infV_.get k = c.infV_.get k ∨
      ∃ start, (calibrateV env distribution objectiveV opt n is c).infV_.get k =
        Scalar.neg (Scalar.exp env.libm (opt (getMarginal objectiveV k)
          distribution.lowerBound (Point.const distribution.dimension (Scalar.fin 0))
          start))) := by
  induction is generalizing c with
  | nil => exact ⟨Or.inl rfl, Or.inl rfl⟩
  | cons i rest ih =>
    have hs := calibrateSupV_get env distribution objectiveV opt n i k c
    have hs2 := calibrateSupV_infV env distribution objectiveV opt n i c
    have hi := calibrateInfV_get env distribution objectiveV opt n i k
      (calibrateSupV env distribution objectiveV opt n i c)
    have hi2 := calibrateInfV_supV env distribution objectiveV opt n i
      (calibrateSupV env distribution objectiveV opt n i c)
    have hsup : (calibrateInfV env distribution objectiveV opt n i
          (calibrateSupV env distribution objectiveV opt n i c)).supV_.get k = c.supV_.get k ∨
        ∃ start, (calibrateInfV env distribution objectiveV opt n i
          (calibrateSupV env distribution objectiveV opt n i c)).supV_.get k =
          Scalar.exp env.libm (opt (getMarginal objectiveV k)
            (Point.const distribution.dimension (Scalar.fin 0))
            distribution.upperBound start) := by
      rw [hi2]
      rcases hs with h | ⟨hk, start, h⟩
      · left; exact h
      · right; subst hk; exact ⟨start, h⟩
    have hinf : (calibrateInfV env distribution objectiveV opt n i
          (calibrateSupV env distribution objectiveV opt n i c)).infV_.get k = c.infV_.get k ∨
        ∃ start, (calibrateInfV env distribution objectiveV opt n i
          (calibrateSupV env distribution objectiveV opt n i c)).infV_.get k =
          Scalar.neg (Scalar.exp env.libm (opt (getMarginal objectiveV k)
            distribution.lowerBound (Point.const distribution.dimension (Scalar.fin 0))
            start)) := by
      rcases hi with h | ⟨hk, start, h⟩
      · left; rw [h, hs2]
      · right; subst hk; exact ⟨start, h⟩
    simp only [calibrateV]
    split
    · refine ⟨?_, Or.inl (by rw [hs2])⟩
      rcases hs with h | ⟨hk, start, h⟩
      · left; exact h
      · right; subst hk; exact ⟨start, h⟩
    · split
      · exact ⟨hsup, hinf⟩
      · obtain ⟨ih1, ih2⟩ := ih (calibrateInfV env distribution objectiveV opt n i
          (calibrateSupV env distribution objectiveV opt n i c))
        constructor
        · rcases ih1 with h | h
          · rw [h]; exact hsup
          · right; exact h
        · rcases ih2 with h | h
          · rw [h]; exact hinf
          · right; exact h

/-- After a loop on `i` that ends without exception, the entries of `supV_` whose index
was visited and has `ub[i] > 0` are exponentials of optimal values, and the entries of
`infV_` whose index was visited and has `lb[i] < 0` are opposites of exponentials. -/
theorem calibrateV_sets (env : Env S) (distribution : Distribution S)
    (objectiveV : Point S → Point S) (opt : OptimizationAlgorithm S) (n : Nat)
    (is : List Nat) (k : Nat) (c : Calibration S) (hc : c.error = none) (hk : k ∈ is)
    (h : (calibrateV env distribution objectiveV opt n is c).error = none) :
    (Scalar.lt (Scalar.fin 0) (distribution.upperBound.get k) = true → k < c.supV_.length →
      ∃ start, (calibrateV env distribution objectiveV opt n is c).supV_.get k =
        Scalar.exp env.libm (opt (getMarginal objectiveV k)
          (Point.const distribution.dimension (Scalar.fin 0))
          distribution.upperBound start)) ∧
    (Scalar.lt (distribution.lowerBound.get k) (Scalar.fin 0) = true → k < c.infV_.length →
      ∃ start, (calibrateV env distribution objectiveV opt n is c).infV_.get k =
        Scalar.neg (Scalar.exp env.libm (opt (getMarginal objectiveV k)
          distribution.lowerBound (Point.const distribution.dimension (Scalar.fin 0))
          start))) := by
  induction is generalizing c with
  | nil => simp at hk
  | cons i rest ih =>
    simp only [calibrateV] at h ⊢
    split at h
    · rename_i e he
      rw [he] at h
      simp at h
    · rename_i he1
      split at h
      · rename_i e he
        rw [he] at h
        simp at h
      · rename_i he2
        have hget := calibrateV_get env distribution objectiveV opt n rest k
          (calibrateInfV env distribution objectiveV opt n i
            (calibrateSupV env distribution objectiveV opt n i c))
        have hlen1 := calibrateSupV_supV_length env distribution objectiveV opt n i c
        have hlen2 := calibrateInfV_infV_length env distribution objectiveV opt n i
          (calibrateSupV env distribution objectiveV opt n i c)
        have hs2 := calibrateSupV_infV env distribution objectiveV opt n i c
        have hi2 := calibrateInfV_supV env distribution objectiveV opt n i
          (calibrateSupV env distribution objectiveV opt n i c)
        by_cases hki : k = i
        · subst hki
          constructor
          · intro hub hlen
            rcases hget.1 with hg | hg
            · rw [hg, hi2]
              exact calibrateSupV_sets env distribution objectiveV opt n k c hub hlen he1
            · exact hg
          · intro hlb hlen
            rcases hget.2 with hg | hg
            · rw [hg]
              exact calibrateInfV_sets env distribution objectiveV opt n k _ hlb
                (by rw [hs2]; exact hlen) he2
            · exact hg
        · have hk2 : k ∈ rest := by
            rcases List.mem_cons.mp hk with h1 | h1
            · exact absurd h1 hki
            · exact h1
          obtain ⟨ih1, ih2⟩ := ih _ he2 hk2 h
          exact ⟨fun hub hlen => ih1 hub (by rw [hi2, hlen1]; exact hlen),
            fun hlb hlen => ih2 hlb (by rw [hlen2, hs2]; exact hlen)⟩

end BoundLemmas

section ClaimC8

variable {S : Type} [LinearOrderedField S]

theorem Scalar.max_isBoundValue (a : S) (y : Scalar S) :
    (Scalar.max (Scalar.fin a) y).isBoundValue = true := by
  unfold Scalar.max
  cases y with
  | nan => simp [Scalar.lt, Scalar.isBoundValue]
  | ninf => simp [Scalar.lt, Scalar.isBoundValue]
  | pinf => simp [Scalar.lt, Scalar.isBoundValue]
  | fin b =>
    by_cases h : a < b
    · simp [Scalar.lt, Scalar.isBoundValue, h]
    · simp [Scalar.lt, Scalar.isBoundValue, h]

theorem UBound_isBoundValue (env : Env S) (distribution : Distribution S) (r : Scalar S)
    (x : Point S) :
    (getMarginal (RatioOfUniformsUBoundEvaluation env distribution r) 0 x).isBoundValue
      = true := by
  simp only [getMarginal, RatioOfUniformsUBoundEvaluation, Point.get_cons_zero]
  exact Scalar.max_isBoundValue _ _

theorem VBound_isBoundValue (env : Env S) (distribution : Distribution S) (r : Scalar S)
    (i : Nat) (hi : i < distribution.dimension) (x : Point S) :
    (getMarginal (RatioOfUniformsVBoundEvaluation env distribution r) i x).isBoundValue
      = true := by
  simp only [getMarginal, RatioOfUniformsVBoundEvaluation, Point.get]
  rw [List.getD_eq_getElem?_getD, List.getElem?_map, List.getElem?_range hi]
  simp only [Option.map_some', Option.getD_some]
  exact Scalar.max_isBoundValue _ _

theorem Scalar.exp_pos_of_isBoundValue (m : Libm S) (hexp : ∀ x, 0 < m.exp x) (v : Scalar S)
    (hv : v.isBoundValue = true) :
    Scalar.lt (Scalar.fin 0) (Scalar.exp m v) = true ∧
    Scalar.le (Scalar.fin 0) (Scalar.exp m v) = true ∧
    Scalar.le (Scalar.neg (Scalar.exp m v)) (Scalar.fin 0) = true := by
  cases v with
  | nan => simp [Scalar.isBoundValue] at hv
  | ninf => simp [Scalar.isBoundValue] at hv
  | fin x =>
    have := hexp x
    simp [Scalar.exp, Scalar.lt, Scalar.le, Scalar.neg, this, le_of_lt this]
  | pinf => simp [Scalar.exp, Scalar.lt, Scalar.le, Scalar.neg]

/-- C8: let the exponential of the math library be strictly positive (as the real
exponential is) and let the optimizer report optimal values that are neither `NaN` nor
`-inf` for the objectives of the sampler (which never take such values, being clamped at
`-LogMaxScalar`).  After `initialize()` has succeeded, `supU > 0` and, for every index
`i < d` with `lb[i] < 0 < ub[i]`, `infV[i] <= 0 <= supV[i]`. -/
theorem C8_sign_invariant (env : Env S) (self : RatioOfUniforms S)
    (hexp : ∀ x, 0 < env.libm.exp x)
    (hopt : OptimizationAlgorithm.ReportsBoundValues self.optimizationAlgorithm_)
    (hsucc : ( RatioOfUniforms.initialize env self).error = none) :
    Scalar.lt (Scalar.fin 0) ( RatioOfUniforms.initialize env self).state.supU_ = true ∧
    ∀ i, i < self.distribution_.dimension →
      Scalar.lt (self.distribution_.lowerBound.get i) (Scalar.fin 0) = true →
      Scalar.lt (Scalar.fin 0) (self.distribution_.upperBound.get i) = true →
      Scalar.le (( RatioOfUniforms.initialize env self).state.infV_.get i) (Scalar.fin 0) = true ∧
      Scalar.le (Scalar.fin 0) (( RatioOfUniforms.initialize env self).state.supV_.get i)
        = true := by
  unfold RatioOfUniforms.initialize at hsucc ⊢
  simp only at hsucc ⊢
  split at hsucc
  · simp at hsucc
  · rename_i hs
    rw [if_neg hs]
    simp only
    constructor
    · exact (Scalar.exp_pos_of_isBoundValue env.libm hexp _
        (hopt _ _ _ _ (UBound_isBoundValue env self.distribution_ self.r_))).1
    · intro i hi hlb hub
      obtain ⟨h1, h2⟩ := calibrateV_sets env self.distribution_
        (RatioOfUniformsVBoundEvaluation env self.distribution_ self.r_)
        self.optimizationAlgorithm_ self.candidateNumber_
        (List.range self.distribution_.dimension) i _ rfl (List.mem_range.mpr hi) hsucc
      obtain ⟨s1, hs1⟩ := h1 hub (by simp only [Point.resize_length]; exact hi)
      obtain ⟨s2, hs2⟩ := h2 hlb (by simp only [Point.resize_length]; exact hi)
      rw [hs1, hs2]
      exact ⟨(Scalar.exp_pos_of_isBoundValue env.libm hexp _
          (hopt _ _ _ _ (VBound_isBoundValue env self.distribution_ self.r_ i hi))).2.2,
        (Scalar.exp_pos_of_isBoundValue env.libm hexp _
          (hopt _ _ _ _ (VBound_isBoundValue env self.distribution_ self.r_ i hi))).2.1⟩

end ClaimC8

/-- C8 (witness): the calibration of a fresh sampler with three candidates on the target
`twoIntervals` (range `[-1, 1]`), with the real exponential, succeeds; it gives
`supU > 0` and `infV[0] <= 0 <= supV[0]`. -/
theorem C8_sign_invariant_witness :
    ( RatioOfUniforms.initialize
        (exampleEnv (⟨Real.exp, Real.log, fun x y => x ^ y⟩ : Libm ℝ))
        { freshSampler 3 with distribution_ := twoIntervals }).error = none ∧
    Scalar.lt (Scalar.fin 0) ( RatioOfUniforms.initialize
        (exampleEnv (⟨Real.exp, Real.log, fun x y => x ^ y⟩ : Libm ℝ))
        { freshSampler 3 with distribution_ := twoIntervals }).state.supU_ = true ∧
    Scalar.le (( RatioOfUniforms.initialize
        (exampleEnv (⟨Real.exp, Real.log, fun x y => x ^ y⟩ : Libm ℝ))
        { freshSampler 3 with distribution_ := twoIntervals }).state.infV_.get 0)
      (Scalar.fin 0) = true ∧
    Scalar.le (Scalar.fin 0) (( RatioOfUniforms.initialize
        (exampleEnv (⟨Real.exp, Real.log, fun x y => x ^ y⟩ : Libm ℝ))
        { freshSampler 3 with distribution_ := twoIntervals }).state.supV_.get 0) = true := by
  have hsucc : ( RatioOfUniforms.initialize
        (exampleEnv (⟨Real.exp, Real.log, fun x y => x ^ y⟩ : Libm ℝ))
        { freshSampler 3 with distribution_ := twoIntervals }).error = none := by
    rw [← setDistribution_eq_initialize _ _ _ twoIntervals_isContinuous,
      eval_twoIntervals_three]
  have hopt : OptimizationAlgorithm.ReportsBoundValues
      ({ freshSampler 3 with distribution_ := twoIntervals } :
        RatioOfUniforms ℝ).optimizationAlgorithm_ := by
    intro f lb ub start _
    rfl
  have key := C8_sign_invariant
    (exampleEnv (⟨Real.exp, Real.log, fun x y => x ^ y⟩ : Libm ℝ))
    { freshSampler 3 with distribution_ := twoIntervals }
    (fun x => Real.exp_pos x) hopt hsucc
  exact ⟨hsucc, key.1,
    key.2 0 (by decide) (by simp [twoIntervals_lowerBound, Point.get_cons_zero, Scalar.lt])
      (by simp [twoIntervals_upperBound, Point.get_cons_zero, Scalar.lt])⟩

section SamplingEvaluation

variable {S : Type} [LinearOrderedField S]

theorem uniform01_logPDF_pinf :
    (uniform01 (S := S)).computeLogPDF [Scalar.pinf] = Scalar.ninf := by
  simp [uniform01, Point.get, Scalar.le]

theorem twoIntervals_logPDF_nan :
    (twoIntervals (S := S)).computeLogPDF [Scalar.nan] = Scalar.ninf := by
  simp [twoIntervals, Point.get, Scalar.le]

/-- The first pass of the rejection loop on the sampler calibrated on `uniform01`, when
the uniform source returns 0 and then 1/2: `u = 0`, `pow(u, r) = 0`, the candidate is
`(1/2) / 0 = +inf` and it is accepted. -/
theorem eval_trial_zero (m : Libm S) (h : m.exp 0 = 1) :
    RatioOfUniforms.trial (exampleEnv m)
        (RatioOfUniforms.setDistribution (exampleEnv m) (freshSampler 1) uniform01).state
        drawsFromZero 0 =
      { u := Scalar.fin 0, ur := Scalar.fin 0, result := [Scalar.pinf], accepted := true } := by
  rw [eval_uniform01]
  norm_num [RatioOfUniforms.trial, exampleEnv, drawsFromZero, h, uniform01_dimension,
    range_one, Point.get_cons_zero, Scalar.mul, Scalar.pow, Scalar.add, Scalar.sub,
    Scalar.neg, Scalar.div, Scalar.signedInf, Scalar.log, Scalar.ofNat, Scalar.le,
    uniform01_logPDF_pinf]

theorem eval_getSample_zero (m : Libm S) (h : m.exp 0 = 1) :
    RatioOfUniforms.getSample (exampleEnv m)
        (RatioOfUniforms.setDistribution (exampleEnv m) (freshSampler 1) uniform01).state
        drawsFromZero 1 1 = Run.returned [[Scalar.pinf]] := by
  have ht := eval_trial_zero m h
  unfold RatioOfUniforms.getSample RatioOfUniforms.sampleLoop RatioOfUniforms.rejection
  rw [ht]
  rw [eval_uniform01]
  simp [RatioOfUniforms.sampleLoop]

/-- The first pass of the rejection loop on the sampler whose calibration on
`twoIntervals` was aborted, when the uniform source returns 0 and then 1/2: the candidate
is `0 / 0 = NaN` and it is accepted. -/
theorem eval_trial_aborted (m : Libm S) (h : m.exp 0 = 1) :
    RatioOfUniforms.trial (exampleEnv m)
        (RatioOfUniforms.setDistribution (exampleEnv m) (freshSampler 2) twoIntervals).state
        drawsFromZero 0 =
      { u := Scalar.fin 0, ur := Scalar.fin 0, result := [Scalar.nan], accepted := true } := by
  rw [eval_twoIntervals_two]
  norm_num [RatioOfUniforms.trial, exampleEnv, drawsFromZero, h, twoIntervals_dimension,
    range_one, Point.get_cons_zero, Scalar.mul, Scalar.pow, Scalar.add, Scalar.sub,
    Scalar.neg, Scalar.div, Scalar.signedInf, Scalar.log, Scalar.ofNat, Scalar.le,
    twoIntervals_logPDF_nan]

theorem eval_getSample_aborted (m : Libm S) (h : m.exp 0 = 1) :
    RatioOfUniforms.getSample (exampleEnv m)
        (RatioOfUniforms.setDistribution (exampleEnv m) (freshSampler 2) twoIntervals).state
        drawsFromZero 1 1 = Run.returned [[Scalar.nan]] := by
  have ht := eval_trial_aborted m h
  unfold RatioOfUniforms.getSample RatioOfUniforms.sampleLoop RatioOfUniforms.rejection
  rw [ht]
  rw [eval_twoIntervals_two]
  simp [RatioOfUniforms.sampleLoop]

end SamplingEvaluation

section ExperimentEvaluation

variable {S : Type} [LinearOrderedField S]

/-- Calibration of a fresh experiment of size 1 (one candidate) on `uniform01`. -/
theorem eval_experiment_uniform01 (m : Libm S) :
    RatioOfUniformsExperiment.setDistribution (exampleEnv m) (freshExperiment 1 1) uniform01 =
      { state :=
          { distribution_ := uniform01, size_ := 1, r_ := Scalar.fin 1,
            supU_ := Scalar.fin (m.exp 0),
            infV_ := [Scalar.fin 0], supV_ := [Scalar.fin (m.exp 0)],
            optimizationAlgorithm_ := optimumZero, candidateNumber_ := 1 }
        error := none
        trace :=
          [Event.generate 0, Event.computeLogPDF [Scalar.fin (1 / 2)],
           Event.run Problem.U [Scalar.fin 0] [Scalar.fin 1] [Scalar.fin (1 / 2)],
           Event.generate 1, Event.computeLogPDF [Scalar.fin (3 / 4)],
           Event.run (Problem.VSup 0) [Scalar.fin 0] [Scalar.fin 1] [Scalar.fin (3 / 4)]] } := by
  norm_num [RatioOfUniformsExperiment.setDistribution,
    WeightedExperimentImplementation.setDistribution, freshExperiment, optimumZero,
    feasibleStart, exampleEnv, sobolPoints, sobolCoordinate, range_one, toRange, toOrthant,
    uniform01_logPDF_fin, uniform01_dimension, uniform01_lowerBound, uniform01_upperBound,
    uniform01_isContinuous, Point.get_cons_zero, Point.get_cons_succ,
    Scalar.add, Scalar.mul, Scalar.sub, Scalar.neg, Scalar.isNormal, Scalar.lt, Scalar.exp,
    Point.resize, calibrateV, calibrateSupV, calibrateInfV, Point.const]

theorem experiment_sampler_eq (m : Libm S) :
    (RatioOfUniformsExperiment.setDistribution (exampleEnv m) (freshExperiment 1 1)
        uniform01).state.sampler =
      (RatioOfUniforms.setDistribution (exampleEnv m) (freshSampler 1) uniform01).state := by
  rw [eval_experiment_uniform01, eval_uniform01]
  rfl

theorem eval_generateWithWeights_zero (m : Libm S) (h : m.exp 0 = 1) :
    (RatioOfUniformsExperiment.generateWithWeights (exampleEnv m)
        (RatioOfUniformsExperiment.setDistribution (exampleEnv m) (freshExperiment 1 1)
          uniform01).state
        drawsFromZero 1).sample = Run.returned [[Scalar.pinf]] := by
  have hs := eval_getSample_zero m h
  rw [← experiment_sampler_eq m] at hs
  unfold RatioOfUniforms.getSample at hs
  unfold RatioOfUniformsExperiment.generateWithWeights
  have hsize : (RatioOfUniformsExperiment.setDistribution (exampleEnv m) (freshExperiment 1 1)
      uniform01).state.size_ = 1 := by rw [eval_experiment_uniform01]
  have hlen : (RatioOfUniformsExperiment.setDistribution (exampleEnv m) (freshExperiment 1 1)
      uniform01).state.infV_.length ≠ 0 := by rw [eval_experiment_uniform01]; simp
  have hlen2 : (RatioOfUniformsExperiment.setDistribution (exampleEnv m)
      (freshExperiment 1 1) uniform01).state.sampler.infV_.length ≠ 0 := hlen
  rw [if_neg hlen2] at hs
  simp only
  rw [if_neg hlen, hsize]
  split at hs
  · cases hs
  · exact hs

end ExperimentEvaluation

/-- C3 (what the code does): on the sampler calibrated on the uniform distribution
on `[0, 1]` (`supU = 1`, `infV = [0]`, `supV = [1]`, `r = 1`), when the uniform source
returns 0 and then 1/2, the first pass of the loop of `getSample` has `u = 0`; it is not
discarded: the candidate is built by dividing `v = 1/2` by `pow(u, r) = 0`, it is `+inf`,
it is accepted, and `getSample(1)` returns it.  The loop of
`RatioOfUniformsExperiment::generateWithWeights` returns the same point. -/
theorem C3_zero_draw_is_not_discarded :
    (RatioOfUniforms.setDistribution
        (exampleEnv (⟨Real.exp, Real.log, fun x y => x ^ y⟩ : Libm ℝ))
        (freshSampler 1) uniform01).error = none ∧
    (drawsFromZero 0 : Scalar ℝ) = Scalar.fin 0 ∧
    RatioOfUniforms.trial (exampleEnv (⟨Real.exp, Real.log, fun x y => x ^ y⟩ : Libm ℝ))
        (RatioOfUniforms.setDistribution
          (exampleEnv (⟨Real.exp, Real.log, fun x y => x ^ y⟩ : Libm ℝ))
          (freshSampler 1) uniform01).state
        drawsFromZero 0 =
      { u := Scalar.fin 0, ur := Scalar.fin 0, result := [Scalar.pinf], accepted := true } ∧
    RatioOfUniforms.getSample (exampleEnv (⟨Real.exp, Real.log, fun x y => x ^ y⟩ : Libm ℝ))
        (RatioOfUniforms.setDistribution
          (exampleEnv (⟨Real.exp, Real.log, fun x y => x ^ y⟩ : Libm ℝ))
          (freshSampler 1) uniform01).state
        drawsFromZero 1 1 = Run.returned [[Scalar.pinf]] ∧
    (RatioOfUniformsExperiment.generateWithWeights
        (exampleEnv (⟨Real.exp, Real.log, fun x y => x ^ y⟩ : Libm ℝ))
        (RatioOfUniformsExperiment.setDistribution
          (exampleEnv (⟨Real.exp, Real.log, fun x y => x ^ y⟩ : Libm ℝ))
          (freshExperiment 1 1) uniform01).state
        drawsFromZero 1).sample = Run.returned [[Scalar.pinf]] := by
  refine ⟨by rw [eval_uniform01], rfl, eval_trial_zero _ Real.exp_zero,
    eval_getSample_zero _ Real.exp_zero, eval_generateWithWeights_zero _ Real.exp_zero⟩

/-- C4 (what the code does): the sampler calibrated on the uniform distribution on
`[0, 1]` has `supU = 1 > 0`; the draws `0, 1/2, 1/2, ...` all lie in `[0, 1)`; and
`getSample(1)` returns the point `+inf`, whose log-density is `-inf`. -/
theorem C4_returned_point_of_log_density_minus_infinity :
    (RatioOfUniforms.setDistribution
        (exampleEnv (⟨Real.exp, Real.log, fun x y => x ^ y⟩ : Libm ℝ))
        (freshSampler 1) uniform01).error = none ∧
    (RatioOfUniforms.setDistribution
        (exampleEnv (⟨Real.exp, Real.log, fun x y => x ^ y⟩ : Libm ℝ))
        (freshSampler 1) uniform01).state.supU_ = Scalar.fin 1 ∧
    (∀ k, Scalar.le (Scalar.fin 0) (drawsFromZero k : Scalar ℝ) = true ∧
      Scalar.lt (drawsFromZero k : Scalar ℝ) (Scalar.fin 1) = true) ∧
    RatioOfUniforms.getSample (exampleEnv (⟨Real.exp, Real.log, fun x y => x ^ y⟩ : Libm ℝ))
        (RatioOfUniforms.setDistribution
          (exampleEnv (⟨Real.exp, Real.log, fun x y => x ^ y⟩ : Libm ℝ))
          (freshSampler 1) uniform01).state
        drawsFromZero 1 1 = Run.returned [[Scalar.pinf]] ∧
    (RatioOfUniforms.setDistribution
        (exampleEnv (⟨Real.exp, Real.log, fun x y => x ^ y⟩ : Libm ℝ))
        (freshSampler 1) uniform01).state.distribution_.computeLogPDF [Scalar.pinf]
      = Scalar.ninf := by
  refine ⟨by rw [eval_uniform01], by rw [eval_uniform01]; simp [Real.exp_zero], ?_,
    eval_getSample_zero _ Real.exp_zero, by rw [eval_uniform01]; exact uniform01_logPDF_pinf⟩
  intro k
  cases k with
  | zero => simp [drawsFromZero, Scalar.le, Scalar.lt]
  | succ k => norm_num [drawsFromZero, Scalar.le, Scalar.lt]

/-- C6 (what the code does): a default-constructed sampler with two candidates has
never been calibrated and `getSample` throws on it; `setDistribution(twoIntervals)` then
aborts with the feasible-point `InternalException` in the search for `supV_[0]`; after
that, `isInitialized()` is true and `getSample(1)` does not throw: it runs the rejection
loop on the partial state and, for the draws `0, 1/2, ...`, returns the point `NaN`, as
`getRealization()` does. -/
theorem C6_sampling_after_aborted_calibration :
    RatioOfUniforms.getSample (exampleEnv (⟨Real.exp, Real.log, fun x y => x ^ y⟩ : Libm ℝ))
        (freshSampler 2) drawsFromZero 1 1 = Run.thrown notInitialized ∧
    (RatioOfUniforms.setDistribution
        (exampleEnv (⟨Real.exp, Real.log, fun x y => x ^ y⟩ : Libm ℝ))
        (freshSampler 2) twoIntervals).error = some (infeasible Message.noFeasibleVSup) ∧
    RatioOfUniforms.isInitialized
        (RatioOfUniforms.setDistribution
          (exampleEnv (⟨Real.exp, Real.log, fun x y => x ^ y⟩ : Libm ℝ))
          (freshSampler 2) twoIntervals).state = true ∧
    RatioOfUniforms.getSample (exampleEnv (⟨Real.exp, Real.log, fun x y => x ^ y⟩ : Libm ℝ))
        (RatioOfUniforms.setDistribution
          (exampleEnv (⟨Real.exp, Real.log, fun x y => x ^ y⟩ : Libm ℝ))
          (freshSampler 2) twoIntervals).state
        drawsFromZero 1 1 = Run.returned [[Scalar.nan]] ∧
    RatioOfUniforms.getRealization
        (exampleEnv (⟨Real.exp, Real.log, fun x y => x ^ y⟩ : Libm ℝ))
        (RatioOfUniforms.setDistribution
          (exampleEnv (⟨Real.exp, Real.log, fun x y => x ^ y⟩ : Libm ℝ))
          (freshSampler 2) twoIntervals).state
        drawsFromZero 1 = Run.returned [Scalar.nan] := by
  refine ⟨?_, by rw [eval_twoIntervals_two], ?_, eval_getSample_aborted _ Real.exp_zero, ?_⟩
  · rw [freshSampler_eq 2 (by decide)]
    simp [RatioOfUniforms.getSample]
  · rw [eval_twoIntervals_two]
    simp [RatioOfUniforms.isInitialized]
  · unfold RatioOfUniforms.getRealization
    rw [eval_getSample_aborted _ Real.exp_zero]
    rfl

/-- C7 (what the code does): on the sampler calibrated on the one-dimensional
`uniform01`, `setDistribution(twoIntervalsSquared)` aborts in the search for `supU`; the
stored distribution then has dimension 2 while `infV_` and `supV_` have size 1. -/
theorem C7_size_differs_from_dimension :
    (RatioOfUniforms.setDistribution
        (exampleEnv (⟨Real.exp, Real.log, fun x y => x ^ y⟩ : Libm ℝ))
        (RatioOfUniforms.setDistribution
          (exampleEnv (⟨Real.exp, Real.log, fun x y => x ^ y⟩ : Libm ℝ))
          (freshSampler 1) uniform01).state
        twoIntervalsSquared).error = some (infeasible Message.noFeasibleUSup) ∧
    (RatioOfUniforms.setDistribution
        (exampleEnv (⟨Real.exp, Real.log, fun x y => x ^ y⟩ : Libm ℝ))
        (RatioOfUniforms.setDistribution
          (exampleEnv (⟨Real.exp, Real.log, fun x y => x ^ y⟩ : Libm ℝ))
          (freshSampler 1) uniform01).state
        twoIntervalsSquared).state.distribution_.dimension = 2 ∧
    (RatioOfUniforms.setDistribution
        (exampleEnv (⟨Real.exp, Real.log, fun x y => x ^ y⟩ : Libm ℝ))
        (RatioOfUniforms.setDistribution
          (exampleEnv (⟨Real.exp, Real.log, fun x y => x ^ y⟩ : Libm ℝ))
          (freshSampler 1) uniform01).state
        twoIntervalsSquared).state.infV_.length = 1 ∧
    (RatioOfUniforms.setDistribution
        (exampleEnv (⟨Real.exp, Real.log, fun x y => x ^ y⟩ : Libm ℝ))
        (RatioOfUniforms.setDistribution
          (exampleEnv (⟨Real.exp, Real.log, fun x y => x ^ y⟩ : Libm ℝ))
          (freshSampler 1) uniform01).state
        twoIntervalsSquared).state.supV_.length = 1 := by
  rw [eval_dimension_change]
  exact ⟨rfl, rfl, rfl, rfl⟩

/-- C9 (what the code does): the sampler calibrated on `twoIntervals` (range
`[-1, 1]`, `infV = [-1]`) is recalibrated by `setDistribution(uniform01)`, whose range
`[0, 1]` has `lb[0] = 0`; the call succeeds, the side `infV[0]` is skipped, and `infV[0]`
is still `-1`, not 0. -/
theorem C9_skipped_side_keeps_former_value :
    (RatioOfUniforms.setDistribution
        (exampleEnv (⟨Real.exp, Real.log, fun x y => x ^ y⟩ : Libm ℝ))
        (freshSampler 3) twoIntervals).error = none ∧
    (RatioOfUniforms.setDistribution
        (exampleEnv (⟨Real.exp, Real.log, fun x y => x ^ y⟩ : Libm ℝ))
        (RatioOfUniforms.setDistribution
          (exampleEnv (⟨Real.exp, Real.log, fun x y => x ^ y⟩ : Libm ℝ))
          (freshSampler 3) twoIntervals).state
        uniform01).error = none ∧
    (uniform01 : Distribution ℝ).lowerBound = [Scalar.fin 0] ∧
    (RatioOfUniforms.setDistribution
        (exampleEnv (⟨Real.exp, Real.log, fun x y => x ^ y⟩ : Libm ℝ))
        (RatioOfUniforms.setDistribution
          (exampleEnv (⟨Real.exp, Real.log, fun x y => x ^ y⟩ : Libm ℝ))
          (freshSampler 3) twoIntervals).state
        uniform01).state.infV_ = [Scalar.fin (-1)] := by
  refine ⟨by rw [eval_twoIntervals_three], by rw [eval_recalibration], rfl, ?_⟩
  rw [eval_recalibration]
  simp [Real.exp_zero]

section EnclosingEvaluation

variable {S : Type} [LinearOrderedField S]

omit [LinearOrderedField S] in
theorem Point.const_two (v : Scalar S) : Point.const 2 v = [v, v] := rfl

theorem twoLevels_dimension (a b : S) : (twoLevels a b).dimension = 2 := rfl

theorem twoLevels_lowerBound (a b : S) :
    (twoLevels a b).lowerBound = [Scalar.fin (-1), Scalar.fin (-1)] := rfl

theorem twoLevels_upperBound (a b : S) :
    (twoLevels a b).upperBound = [Scalar.fin 1, Scalar.fin 1] := rfl

theorem twoLevels_logPDF_fin (a b x y : S) :
    (twoLevels a b).computeLogPDF [Scalar.fin x, Scalar.fin y] =
      if -1 ≤ x ∧ x ≤ 1 ∧ -1 ≤ y ∧ y ≤ 1 then
        (if 0 < x ∧ y < 0 then Scalar.fin a else Scalar.fin b)
      else Scalar.ninf := by
  simp [twoLevels, Point.get, Scalar.le, Scalar.lt, and_assoc]

/-- The calibration of `twoLevelsSampler a b`. -/
theorem eval_twoLevels (m : Libm S) (a b : S) (ha : -709 < a / 3) (hb : -709 < b / 3)
    (hlog : m.log 1 = 0) :
    ( RatioOfUniforms.initialize (exampleEnv m) (twoLevelsSampler a b)).error = none ∧
    ( RatioOfUniforms.initialize (exampleEnv m) (twoLevelsSampler a b)).state.supU_ =
      Scalar.fin (m.exp (a / 3)) ∧
    ( RatioOfUniforms.initialize (exampleEnv m) (twoLevelsSampler a b)).state.supV_ =
      [Scalar.fin (m.exp (b / 3)), Scalar.fin (m.exp (b / 3))] ∧
    ( RatioOfUniforms.initialize (exampleEnv m) (twoLevelsSampler a b)).state.infV_ =
      [Scalar.fin (-(m.exp (b / 3))), Scalar.fin (-(m.exp (b / 3)))] := by
  norm_num [ RatioOfUniforms.initialize, twoLevelsSampler, cornerOptimizer,
    feasibleStart, exampleEnv, sobolPoints, sobolCoordinate, range_two, toRange, toOrthant,
    twoLevels_logPDF_fin, twoLevels_dimension, twoLevels_lowerBound, twoLevels_upperBound,
    Point.get_cons_zero, Point.get_cons_one, Point.get_cons_succ,
    Scalar.add, Scalar.mul, Scalar.sub, Scalar.neg, Scalar.isNormal, Scalar.lt, Scalar.exp,
    Scalar.div, Scalar.max, Scalar.abs, Scalar.log, Scalar.ofNat,
    Point.resize, calibrateV, calibrateSupV, calibrateInfV, Point.const_two,
    getMarginal, RatioOfUniformsUBoundEvaluation, RatioOfUniformsVBoundEvaluation,
    ha, hb, hlog]
  exact ⟨rfl, rfl⟩

theorem inBox_pair (l0 l1 u0 u1 : S) (x : Point S)
    (h : InBox [Scalar.fin l0, Scalar.fin l1] [Scalar.fin u0, Scalar.fin u1] x) :
    ∃ v0 v1, x = [Scalar.fin v0, Scalar.fin v1] ∧ l0 ≤ v0 ∧ v0 ≤ u0 ∧ l1 ≤ v1 ∧ v1 ≤ u1 := by
  obtain ⟨hlen, hx⟩ := h
  match x, hlen with
  | [x0, x1], _ =>
    have h0 := hx 0 (by simp)
    have h1 := hx 1 (by simp)
    simp only [Point.get_cons_zero, Point.get_cons_one] at h0 h1
    cases x0 with
    | nan => simp [Scalar.le] at h0
    | ninf => simp [Scalar.le] at h0
    | pinf => simp [Scalar.le] at h0
    | fin v0 =>
      cases x1 with
      | nan => simp [Scalar.le] at h1
      | ninf => simp [Scalar.le] at h1
      | pinf => simp [Scalar.le] at h1
      | fin v1 =>
        simp only [Scalar.le, decide_eq_true_eq] at h0 h1
        exact ⟨v0, v1, rfl, h0.1, h0.2, h1.1, h1.2⟩

theorem pair_inBox (l0 l1 u0 u1 v0 v1 : S) (h0 : l0 ≤ v0) (h0' : v0 ≤ u0) (h1 : l1 ≤ v1)
    (h1' : v1 ≤ u1) :
    InBox [Scalar.fin l0, Scalar.fin l1] [Scalar.fin u0, Scalar.fin u1]
      [Scalar.fin v0, Scalar.fin v1] := by
  refine ⟨rfl, ?_⟩
  intro j hj
  have hj2 : j < 2 := hj
  interval_cases j
  · simp [Point.get_cons_zero, Scalar.le, h0, h0']
  · simp [Point.get_cons_one, Point.get_cons_zero, Scalar.le, h1, h1']

/-- The value of the U objective of `twoLevels a b` (for `r = 1`) at a point of the range. -/
theorem twoLevels_UBound (m : Libm S) (a b v0 v1 : S) (ha : -709 < a / 3) (hb : -709 < b / 3)
    (h : -1 ≤ v0 ∧ v0 ≤ 1 ∧ -1 ≤ v1 ∧ v1 ≤ 1) :
    getMarginal (RatioOfUniformsUBoundEvaluation (exampleEnv m) (twoLevels a b) (Scalar.fin 1))
        0 [Scalar.fin v0, Scalar.fin v1] =
      if 0 < v0 ∧ v1 < 0 then Scalar.fin (a / 3) else Scalar.fin (b / 3) := by
  by_cases hq : 0 < v0 ∧ v1 < 0
  · norm_num [getMarginal, RatioOfUniformsUBoundEvaluation, exampleEnv, twoLevels_logPDF_fin,
      twoLevels_dimension, Point.get_cons_zero, Scalar.div, Scalar.add, Scalar.mul,
      Scalar.ofNat, Scalar.max, Scalar.lt, h, hq, ha]
  · norm_num [getMarginal, RatioOfUniformsUBoundEvaluation, exampleEnv, twoLevels_logPDF_fin,
      twoLevels_dimension, Point.get_cons_zero, Scalar.div, Scalar.add, Scalar.mul,
      Scalar.ofNat, Scalar.max, Scalar.lt, h, hq, hb]

end EnclosingEvaluation

section EnclosingExactness

variable {S : Type} [LinearOrderedField S]

/-- The V objectives of `twoLevels a b` (for `r = 1`) at a point of the range outside the
quadrant `x_0 > 0, x_1 < 0` are at most `b / 3`. -/
theorem twoLevels_VBound_le (m : Libm S) (a b v0 v1 : S) (hb : -709 < b / 3)
    (hlogle : ∀ v, 0 < v → v ≤ 1 → m.log v ≤ 0)
    (h : -1 ≤ v0 ∧ v0 ≤ 1 ∧ -1 ≤ v1 ∧ v1 ≤ 1) (hq : ¬(0 < v0 ∧ v1 < 0))
    (i : Nat) (hi : i < 2) :
    Scalar.le
      (getMarginal
        (RatioOfUniformsVBoundEvaluation (exampleEnv m) (twoLevels a b) (Scalar.fin 1)) i
        [Scalar.fin v0, Scalar.fin v1])
      (Scalar.fin (b / 3)) = true := by
  have key : ∀ v : S, -1 ≤ v → v ≤ 1 →
      Scalar.le (Scalar.max (Scalar.fin (-709))
        (Scalar.add (Scalar.fin (b / 3)) (Scalar.log m (Scalar.abs (Scalar.fin v)))))
        (Scalar.fin (b / 3)) = true := by
    intro v hv1 hv2
    by_cases hv : v = 0
    · subst hv
      simp [Scalar.abs, Scalar.log, Scalar.add, Scalar.max, Scalar.lt, Scalar.le, le_of_lt hb]
    · have habs : 0 < |v| := abs_pos.mpr hv
      have habs1 : |v| ≤ 1 := abs_le.mpr ⟨hv1, hv2⟩
      have hl := hlogle |v| habs habs1
      simp only [Scalar.abs, Scalar.log, not_lt.mpr (le_of_lt habs), if_false,
        ne_of_gt habs, Scalar.add, Scalar.max, Scalar.lt]
      by_cases hc : -709 < b / 3 + m.log |v|
      · simp only [hc, decide_True, if_true, Scalar.le, decide_eq_true_eq]
        linarith
      · simp [hc, Scalar.le, le_of_lt hb]
  have hval : Scalar.div (Scalar.mul ((twoLevels a b).computeLogPDF
        [Scalar.fin v0, Scalar.fin v1]) (Scalar.fin 1))
      (Scalar.add (Scalar.fin 1) (Scalar.mul (Scalar.fin 1) (Scalar.ofNat 2)))
      = Scalar.fin (b / 3) := by
    norm_num [twoLevels_logPDF_fin, h, hq, Scalar.mul, Scalar.div, Scalar.add, Scalar.ofNat]
  simp only [getMarginal, RatioOfUniformsVBoundEvaluation, twoLevels_dimension, range_two,
    List.map_cons, List.map_nil, exampleEnv, hval]
  interval_cases i
  · simp only [Point.get_cons_zero]
    exact key v0 h.1 h.2.1
  · simp only [Point.get_cons_one, Point.get_cons_zero]
    exact key v1 h.2.2.1 h.2.2.2

/-- The V objectives of `twoLevels a b` (for `r = 1`) at the corners `(1, 1)` and
`(-1, -1)` are `b / 3`. -/
theorem twoLevels_VBound_corner (m : Libm S) (a b : S) (hb : -709 < b / 3)
    (hlog : m.log 1 = 0) (i : Nat) (hi : i < 2) :
    getMarginal
        (RatioOfUniformsVBoundEvaluation (exampleEnv m) (twoLevels a b) (Scalar.fin 1)) i
        [Scalar.fin 1, Scalar.fin 1] = Scalar.fin (b / 3) ∧
    getMarginal
        (RatioOfUniformsVBoundEvaluation (exampleEnv m) (twoLevels a b) (Scalar.fin 1)) i
        [Scalar.fin (-1), Scalar.fin (-1)] = Scalar.fin (b / 3) := by
  interval_cases i <;>
  norm_num [getMarginal, RatioOfUniformsVBoundEvaluation, exampleEnv, twoLevels_logPDF_fin,
    twoLevels_dimension, range_two, Point.get_cons_zero, Point.get_cons_one, Scalar.div,
    Scalar.add, Scalar.mul, Scalar.ofNat, Scalar.max, Scalar.lt, Scalar.abs, Scalar.log,
    hlog, hb]

/-- The optimizer `cornerOptimizer` is exact on the five problems of the calibration of
`twoLevelsSampler a b`. -/
theorem cornerOptimizer_exact (m : Libm S) (a b : S) (ha : -709 < a / 3) (hb : -709 < b / 3)
    (hab : b ≤ a) (hlog : m.log 1 = 0) (hlogle : ∀ v, 0 < v → v ≤ 1 → m.log v ≤ 0) :
    OptimizationAlgorithm.IsExactOn cornerOptimizer
      (getMarginal
        (RatioOfUniformsUBoundEvaluation (exampleEnv m) (twoLevels a b) (Scalar.fin 1)) 0)
      [Scalar.fin (-1), Scalar.fin (-1)] [Scalar.fin 1, Scalar.fin 1] ∧
    ∀ i, i < 2 →
      OptimizationAlgorithm.IsExactOn cornerOptimizer
        (getMarginal
          (RatioOfUniformsVBoundEvaluation (exampleEnv m) (twoLevels a b) (Scalar.fin 1)) i)
        [Scalar.fin 0, Scalar.fin 0] [Scalar.fin 1, Scalar.fin 1] ∧
      OptimizationAlgorithm.IsExactOn cornerOptimizer
        (getMarginal
          (RatioOfUniformsVBoundEvaluation (exampleEnv m) (twoLevels a b) (Scalar.fin 1)) i)
        [Scalar.fin (-1), Scalar.fin (-1)] [Scalar.fin 0, Scalar.fin 0] := by
  refine ⟨?_, ?_⟩
  · intro start
    have hopt : cornerOptimizer
        (getMarginal
          (RatioOfUniformsUBoundEvaluation (exampleEnv m) (twoLevels a b) (Scalar.fin 1)) 0)
        [Scalar.fin (-1), Scalar.fin (-1)] [Scalar.fin 1, Scalar.fin 1] start
        = Scalar.fin (a / 3) := by
      have := twoLevels_UBound m a b 1 (-1) ha hb (by norm_num)
      norm_num at this
      norm_num [cornerOptimizer, Point.get_cons_zero, Point.get_cons_one, Scalar.lt, this]
    rw [hopt]
    constructor
    · refine ⟨[Scalar.fin 1, Scalar.fin (-1)], pair_inBox _ _ _ _ _ _ (by norm_num)
        (by norm_num) (by norm_num) (by norm_num), ?_⟩
      have := twoLevels_UBound m a b 1 (-1) ha hb (by norm_num)
      norm_num at this
      exact this
    · intro x hx
      obtain ⟨v0, v1, rfl, h0, h0', h1, h1'⟩ := inBox_pair _ _ _ _ x hx
      rw [twoLevels_UBound m a b v0 v1 ha hb ⟨h0, h0', h1, h1'⟩]
      split
      · simp [Scalar.le]
      · simp only [Scalar.le, decide_eq_true_eq]
        exact div_le_div_of_nonneg_right hab (by norm_num)
  · intro i hi
    obtain ⟨hc1, hc2⟩ := twoLevels_VBound_corner m a b hb hlog i hi
    constructor
    · intro start
      have hopt : cornerOptimizer
          (getMarginal
            (RatioOfUniformsVBoundEvaluation (exampleEnv m) (twoLevels a b) (Scalar.fin 1)) i)
          [Scalar.fin 0, Scalar.fin 0] [Scalar.fin 1, Scalar.fin 1] start
          = Scalar.fin (b / 3) := by
        norm_num [cornerOptimizer, Point.get_cons_zero, Point.get_cons_one, Scalar.lt, hc1]
      rw [hopt]
      constructor
      · exact ⟨[Scalar.fin 1, Scalar.fin 1], pair_inBox _ _ _ _ _ _ (by norm_num)
          (by norm_num) (by norm_num) (by norm_num), hc1⟩
      · intro x hx
        obtain ⟨v0, v1, rfl, h0, h0', h1, h1'⟩ := inBox_pair _ _ _ _ x hx
        exact twoLevels_VBound_le m a b v0 v1 hb hlogle
          ⟨by linarith, h0', by linarith, h1'⟩ (fun hq => by linarith [hq.2]) i hi
    · intro start
      have hopt : cornerOptimizer
          (getMarginal
            (RatioOfUniformsVBoundEvaluation (exampleEnv m) (twoLevels a b) (Scalar.fin 1)) i)
          [Scalar.fin (-1), Scalar.fin (-1)] [Scalar.fin 0, Scalar.fin 0] start
          = Scalar.fin (b / 3) := by
        norm_num [cornerOptimizer, Point.get_cons_zero, Point.get_cons_one, Scalar.lt, hc2]
      rw [hopt]
      constructor
      · exact ⟨[Scalar.fin (-1), Scalar.fin (-1)], pair_inBox _ _ _ _ _ _ (by norm_num)
          (by norm_num) (by norm_num) (by norm_num), hc2⟩
      · intro x hx
        obtain ⟨v0, v1, rfl, h0, h0', h1, h1'⟩ := inBox_pair _ _ _ _ x hx
        exact twoLevels_VBound_le m a b v0 v1 hb hlogle
          ⟨h0, by linarith, h1, by linarith⟩ (fun hq => by linarith [hq.1]) i hi

end EnclosingExactness

theorem real_log_facts :
    (-709 : ℝ) < Real.log (5 / 8) / 3 ∧ (-709 : ℝ) < Real.log (1 / 8) / 3 ∧
    Real.log (1 / 8) ≤ Real.log (5 / 8) ∧ Real.exp (Real.log (1 / 8) / 3) = 1 / 2 ∧
    3 * Real.log (4 / 5) ≤ Real.log (5 / 8) := by
  have h1 : (1 : ℝ) - (5 / 8)⁻¹ ≤ Real.log (5 / 8) :=
    Real.one_sub_inv_le_log_of_pos (by norm_num)
  have h2 : (1 : ℝ) - (1 / 8)⁻¹ ≤ Real.log (1 / 8) :=
    Real.one_sub_inv_le_log_of_pos (by norm_num)
  have h3 : Real.log (1 / 8) = 3 * Real.log (1 / 2) := by
    rw [show (1 / 8 : ℝ) = (1 / 2) ^ 3 by norm_num, Real.log_pow]
    norm_num
  have h4 : 3 * Real.log (4 / 5) = Real.log (64 / 125) := by
    rw [show (64 / 125 : ℝ) = (4 / 5) ^ 3 by norm_num, Real.log_pow]
    norm_num
  refine ⟨?_, ?_, ?_, ?_, ?_⟩
  · norm_num at h1
    linarith
  · norm_num at h2
    linarith
  · exact Real.log_le_log (by norm_num) (by norm_num)
  · rw [h3, mul_div_cancel_left₀ _ (by norm_num : (3 : ℝ) ≠ 0), Real.exp_log (by norm_num)]
  · rw [h4]
    exact Real.log_le_log (by norm_num) (by norm_num)

/-- C1 (what the code does): the target `twoLevels` on `[-1, 1]^2` has density
`5/8` on the quadrant `x_0 > 0, x_1 < 0` and `1/8` elsewhere; `r = 1`, one candidate.  The
optimizer `cornerOptimizer` returns the exact maximum of each of the five objectives over
the bounds it is given, and `initialize()` succeeds with `supV = [1/2, 1/2]` and
`infV = [-1/2, -1/2]`.  The point `x = (1, -1)` of the range and `u = 4/5 > 0` satisfy
`(1 + r*d) * log(u) <= logPDF(x)`, but `x_0 * u^r = 4/5` is not `<= supV[0] = 1/2`: the
bounds on `v_0` were maximized over `[0, 1]^2` and `[-1, 0]^2` only. -/
theorem C1_box_misses_the_acceptance_region :
    (OptimizationAlgorithm.IsExactOn cornerOptimizer
      (getMarginal
        (RatioOfUniformsUBoundEvaluation
          (exampleEnv (⟨Real.exp, Real.log, fun x y => x ^ y⟩ : Libm ℝ))
          (twoLevels (Real.log (5 / 8)) (Real.log (1 / 8))) (Scalar.fin 1)) 0)
      [Scalar.fin (-1), Scalar.fin (-1)] [Scalar.fin 1, Scalar.fin 1] ∧
    ∀ i, i < 2 →
      OptimizationAlgorithm.IsExactOn cornerOptimizer
        (getMarginal
          (RatioOfUniformsVBoundEvaluation
            (exampleEnv (⟨Real.exp, Real.log, fun x y => x ^ y⟩ : Libm ℝ))
            (twoLevels (Real.log (5 / 8)) (Real.log (1 / 8))) (Scalar.fin 1)) i)
        [Scalar.fin 0, Scalar.fin 0] [Scalar.fin 1, Scalar.fin 1] ∧
      OptimizationAlgorithm.IsExactOn cornerOptimizer
        (getMarginal
          (RatioOfUniformsVBoundEvaluation
            (exampleEnv (⟨Real.exp, Real.log, fun x y => x ^ y⟩ : Libm ℝ))
            (twoLevels (Real.log (5 / 8)) (Real.log (1 / 8))) (Scalar.fin 1)) i)
        [Scalar.fin (-1), Scalar.fin (-1)] [Scalar.fin 0, Scalar.fin 0]) ∧
    ( RatioOfUniforms.initialize
        (exampleEnv (⟨Real.exp, Real.log, fun x y => x ^ y⟩ : Libm ℝ))
        (twoLevelsSampler (Real.log (5 / 8)) (Real.log (1 / 8)))).error = none ∧
    ( RatioOfUniforms.initialize
        (exampleEnv (⟨Real.exp, Real.log, fun x y => x ^ y⟩ : Libm ℝ))
        (twoLevelsSampler (Real.log (5 / 8)) (Real.log (1 / 8)))).state.supV_
      = [Scalar.fin (1 / 2), Scalar.fin (1 / 2)] ∧
    ( RatioOfUniforms.initialize
        (exampleEnv (⟨Real.exp, Real.log, fun x y => x ^ y⟩ : Libm ℝ))
        (twoLevelsSampler (Real.log (5 / 8)) (Real.log (1 / 8)))).state.infV_
      = [Scalar.fin (-(1 / 2)), Scalar.fin (-(1 / 2))] ∧
    InBox (twoLevels (Real.log (5 / 8)) (Real.log (1 / 8))).lowerBound
      (twoLevels (Real.log (5 / 8)) (Real.log (1 / 8))).upperBound
      [Scalar.fin 1, Scalar.fin (-1)] ∧
    Scalar.lt (Scalar.fin 0) (Scalar.fin (4 / 5 : ℝ)) = true ∧
    Scalar.le
      (Scalar.mul (Scalar.add (Scalar.fin 1) (Scalar.mul (Scalar.fin 1) (Scalar.ofNat 2)))
        (Scalar.log (⟨Real.exp, Real.log, fun x y => x ^ y⟩ : Libm ℝ) (Scalar.fin (4 / 5))))
      ((twoLevels (Real.log (5 / 8)) (Real.log (1 / 8))).computeLogPDF
        [Scalar.fin 1, Scalar.fin (-1)]) = true ∧
    Scalar.le
      (Scalar.mul (Scalar.fin 1)
        (Scalar.pow (⟨Real.exp, Real.log, fun x y => x ^ y⟩ : Libm ℝ) (Scalar.fin (4 / 5))
          (Scalar.fin 1)))
      (( RatioOfUniforms.initialize
        (exampleEnv (⟨Real.exp, Real.log, fun x y => x ^ y⟩ : Libm ℝ))
        (twoLevelsSampler (Real.log (5 / 8)) (Real.log (1 / 8)))).state.supV_.get 0)
      = false := by
  obtain ⟨ha, hb, hab, hexp, hacc⟩ := real_log_facts
  obtain ⟨he, _, hsup, hinf⟩ := eval_twoLevels
    (⟨Real.exp, Real.log, fun x y => x ^ y⟩ : Libm ℝ) (Real.log (5 / 8)) (Real.log (1 / 8))
    ha hb Real.log_one
  have hsup2 : ( RatioOfUniforms.initialize
        (exampleEnv (⟨Real.exp, Real.log, fun x y => x ^ y⟩ : Libm ℝ))
        (twoLevelsSampler (Real.log (5 / 8)) (Real.log (1 / 8)))).state.supV_
      = [Scalar.fin (1 / 2), Scalar.fin (1 / 2)] := by
    rw [hsup]
    simp only [hexp]
  refine ⟨cornerOptimizer_exact _ _ _ ha hb hab Real.log_one
      (fun v hv hv1 => Real.log_nonpos (le_of_lt hv) hv1), he, hsup2, ?_, ?_, ?_, ?_, ?_⟩
  · rw [hinf]
    simp only [hexp]
  · exact pair_inBox _ _ _ _ _ _ (by norm_num) (by norm_num) (by norm_num) (by norm_num)
  · norm_num [Scalar.lt]
  · rw [twoLevels_logPDF_fin]
    have h45 : ¬ ((4 / 5 : ℝ) < 0) := by norm_num
    have h45' : (4 / 5 : ℝ) ≠ 0 := by norm_num
    simp only [Scalar.log, h45, h45', if_false, Scalar.ofNat, Scalar.mul, Scalar.add]
    norm_num [Scalar.le]
    linarith
  · rw [hsup2]
    have h45 : ¬ ((4 / 5 : ℝ) < 0) := by norm_num
    have h45' : (4 / 5 : ℝ) ≠ 0 := by norm_num
    simp only [Scalar.pow, h45, h45', if_false, one_ne_zero, Real.rpow_one, Scalar.mul,
      Point.get_cons_zero, Scalar.le]
    norm_num

section MeixnerGuard

variable {S : Type} [LinearOrderedField S]

/-- In `MeixnerDistribution::getRealization`, a pass with `u == 0` is discarded at once
(`if (u == 0.0) continue;`): it takes one value from the uniform source, builds no
candidate, and the loop goes on with the next draw. -/
theorem MeixnerDistribution.getRealization_zero_draw (m : Libm S)
    (self : MeixnerDistribution S) (RandomGenerator : Nat → Scalar S) (fuel pos : Nat)
    (h : Scalar.mul self.b_ (RandomGenerator pos) = Scalar.fin 0) :
    MeixnerDistribution.getRealization m self RandomGenerator (fuel + 1) pos =
      MeixnerDistribution.getRealization m self RandomGenerator fuel (pos + 1) := by
  simp [MeixnerDistribution.getRealization, h, Scalar.eq]

end MeixnerGuard

section PositiveDraw

variable {S : Type} [LinearOrderedField S]

end PositiveDraw

section ClaimC11

variable {S : Type}

/-- C11: `setCandidateNumber(n)`, on a `RatioOfUniforms` and on a
`RatioOfUniformsExperiment`, throws an `InvalidArgumentException` if and only if `n = 0`,
and then leaves every attribute (the candidate number among them) as it was; for every
`n >= 1` it throws nothing and `getCandidateNumber()` then returns `n`. -/
theorem C11_setCandidateNumber (self : RatioOfUniforms S)
    (experiment : RatioOfUniformsExperiment S) (n : Nat) :
    (((∃ e, (RatioOfUniforms.setCandidateNumber self n).error = some e ∧
          e.kind = ExceptionKind.InvalidArgumentException) ↔ n = 0) ∧
      (n = 0 → (RatioOfUniforms.setCandidateNumber self n).state = self ∧
        RatioOfUniforms.getCandidateNumber (RatioOfUniforms.setCandidateNumber self n).state
          = RatioOfUniforms.getCandidateNumber self) ∧
      (1 ≤ n → (RatioOfUniforms.setCandidateNumber self n).error = none ∧
        RatioOfUniforms.getCandidateNumber (RatioOfUniforms.setCandidateNumber self n).state
          = n)) ∧
    (((∃ e, (RatioOfUniformsExperiment.setCandidateNumber experiment n).error = some e ∧
          e.kind = ExceptionKind.InvalidArgumentException) ↔ n = 0) ∧
      (n = 0 → (RatioOfUniformsExperiment.setCandidateNumber experiment n).state = experiment ∧
        RatioOfUniformsExperiment.getCandidateNumber
          (RatioOfUniformsExperiment.setCandidateNumber experiment n).state
          = RatioOfUniformsExperiment.getCandidateNumber experiment) ∧
      (1 ≤ n → (RatioOfUniformsExperiment.setCandidateNumber experiment n).error = none ∧
        RatioOfUniformsExperiment.getCandidateNumber
          (RatioOfUniformsExperiment.setCandidateNumber experiment n).state = n)) := by
  by_cases hn : n = 0
  · subst hn
    simp [RatioOfUniforms.setCandidateNumber, RatioOfUniformsExperiment.setCandidateNumber]
  · have h1 : 1 ≤ n := Nat.one_le_iff_ne_zero.mpr hn
    simp [RatioOfUniforms.setCandidateNumber, RatioOfUniformsExperiment.setCandidateNumber,
      RatioOfUniforms.getCandidateNumber, RatioOfUniformsExperiment.getCandidateNumber, hn]

end ClaimC11

section ClaimC12

variable {S : Type} [LinearOrderedField S]

/-- C12: `setDistribution(target)` with a target whose `isContinuous()` is false throws an
`InvalidArgumentException`, in `RatioOfUniforms` and in `RatioOfUniformsExperiment`; no call
is made to the sequence, to the log-density or to the optimizer, and every attribute (the
stored distribution, `supU_`, `infV_`, `supV_`, ...) is left as it was. -/
theorem C12_discrete_target_rejected (env : Env S) (self : RatioOfUniforms S)
    (experiment : RatioOfUniformsExperiment S) (distribution : Distribution S)
    (h : distribution.isContinuous = false) :
    RatioOfUniforms.setDistribution env self distribution =
      { state := self
        error := some { kind := ExceptionKind.InvalidArgumentException,
                        message := Message.onlyContinuous }
        trace := [] } ∧
    RatioOfUniformsExperiment.setDistribution env experiment distribution =
      { state := experiment
        error := some { kind := ExceptionKind.InvalidArgumentException,
                        message := Message.onlyContinuous }
        trace := [] } := by
  simp [RatioOfUniforms.setDistribution, RatioOfUniformsExperiment.setDistribution, h]

end ClaimC12

/-- C12 (witness): the Dirac distribution at 0 is not continuous; `setDistribution` rejects
it on the sampler calibrated on `uniform01`, which keeps its attributes, and on a fresh
experiment. -/
theorem C12_discrete_target_rejected_witness :
    (diracAtZero : Distribution ℝ).isContinuous = false ∧
    RatioOfUniforms.setDistribution
        (exampleEnv (⟨Real.exp, Real.log, fun x y => x ^ y⟩ : Libm ℝ))
        (RatioOfUniforms.setDistribution
          (exampleEnv (⟨Real.exp, Real.log, fun x y => x ^ y⟩ : Libm ℝ))
          (freshSampler 1) uniform01).state
        diracAtZero =
      { state := (RatioOfUniforms.setDistribution
          (exampleEnv (⟨Real.exp, Real.log, fun x y => x ^ y⟩ : Libm ℝ))
          (freshSampler 1) uniform01).state
        error := some { kind := ExceptionKind.InvalidArgumentException,
                        message := Message.onlyContinuous }
        trace := [] } ∧
    RatioOfUniformsExperiment.setDistribution
        (exampleEnv (⟨Real.exp, Real.log, fun x y => x ^ y⟩ : Libm ℝ))
        (freshExperiment 1 1) diracAtZero =
      { state := freshExperiment 1 1
        error := some { kind := ExceptionKind.InvalidArgumentException,
                        message := Message.onlyContinuous }
        trace := [] } :=
  ⟨rfl, C12_discrete_target_rejected _ _ _ diracAtZero rfl⟩

section ClaimC13

variable {S : Type} [LinearOrderedField S]

/-- C13: `getAcceptanceRatio()` called on a `RatioOfUniforms` whose `infV_` is empty throws
the exception of an uninitialized use (`InternalException`, "RatioOfUniforms was not
initialized") and returns no value. -/
theorem C13_acceptance_ratio_uninitialized (self : RatioOfUniforms S)
    (h : self.infV_.length = 0) :
    (RatioOfUniforms.getAcceptanceRatio self).result = Run.thrown notInitialized ∧
    notInitialized.kind = ExceptionKind.InternalException ∧
    notInitialized.message = Message.notInitialized ∧
    ∀ value, (RatioOfUniforms.getAcceptanceRatio self).result ≠ Run.returned value := by
  have hr : (RatioOfUniforms.getAcceptanceRatio self).result = Run.thrown notInitialized := by
    simp [RatioOfUniforms.getAcceptanceRatio, RatioOfUniforms.isInitialized, h]
  refine ⟨hr, rfl, rfl, ?_⟩
  intro value hv
  rw [hr] at hv
  cases hv

end ClaimC13

/-- C13 (witness): a default-constructed sampler has an empty `infV_`, and
`getAcceptanceRatio()` throws on it. -/
theorem C13_acceptance_ratio_uninitialized_witness :
    (freshSampler 1 : RatioOfUniforms ℚ).infV_.length = 0 ∧
    (RatioOfUniforms.getAcceptanceRatio (freshSampler 1 : RatioOfUniforms ℚ)).result
      = Run.thrown notInitialized :=
  ⟨rfl, (C13_acceptance_ratio_uninitialized (freshSampler 1) rfl).1⟩

section ClaimC15

variable {S : Type} [LinearOrderedField S]

omit [LinearOrderedField S] in
theorem Point.get_map_fin [Zero S] (l : List S) (i : Nat) (hi : i < l.length) :
    Point.get (l.map Scalar.fin) i = Scalar.fin (l.getD i 0) := by
  unfold Point.get
  rw [List.getD_eq_getElem?_getD, List.getD_eq_getElem?_getD, List.getElem?_map,
    List.getElem?_eq_getElem hi]
  rfl

/-- The loop `for (i = 0; i < dimension; ++i) ratio /= supV_[i] - infV_[i]` on finite
values with non-zero differences. -/
theorem acceptanceRatio_loop (iv sv : List S) (n : Nat) (q : S) (hiv : n ≤ iv.length)
    (hsv : n ≤ sv.length) (hdiff : ∀ i, i < n → sv.getD i 0 - iv.getD i 0 ≠ 0) :
    (List.range n).foldl
        (fun ratio i => Scalar.div ratio
          (Scalar.sub (Point.get (sv.map Scalar.fin) i) (Point.get (iv.map Scalar.fin) i)))
        (Scalar.fin q) =
      Scalar.fin (q / Finset.prod (Finset.range n) (fun i => sv.getD i 0 - iv.getD i 0)) := by
  induction n with
  | zero => simp
  | succ n ih =>
    rw [List.range_succ, List.foldl_append, ih (by omega) (by omega)
      (fun i hi => hdiff i (by omega)), Finset.prod_range_succ]
    simp only [List.foldl_cons, List.foldl_nil]
    rw [Point.get_map_fin sv n (by omega), Point.get_map_fin iv n (by omega)]
    have hne := hdiff n (by omega)
    have hsub : sv.getD n 0 + -iv.getD n 0 ≠ 0 := by rwa [← sub_eq_add_neg]
    simp only [Scalar.sub, Scalar.neg, Scalar.add, Scalar.div, hsub, if_false]
    rw [← sub_eq_add_neg, div_div]

/-- C15: for an initialized sampler of dimension `d` whose attributes are finite, with
`(1 + r*d) * supU` and every `supV[i] - infV[i]` different from zero,
`getAcceptanceRatio()` returns `1 / [(1 + r*d) * supU * prod_(i<d) (supV[i] - infV[i])]`
(in exact arithmetic), and the attributes after the call are those of before. -/
theorem C15_acceptance_ratio_formula (self : RatioOfUniforms S) (r su : S) (iv sv : List S)
    (hr : self.r_ = Scalar.fin r) (hsu : self.supU_ = Scalar.fin su)
    (hiv : self.infV_ = iv.map Scalar.fin) (hsv : self.supV_ = sv.map Scalar.fin)
    (hleniv : iv.length = self.distribution_.dimension)
    (hlensv : sv.length = self.distribution_.dimension)
    (hd : 1 ≤ self.distribution_.dimension)
    (hden : (1 + r * (self.distribution_.dimension : S)) * su ≠ 0)
    (hdiff : ∀ i, i < self.distribution_.dimension → sv.getD i 0 - iv.getD i 0 ≠ 0) :
    (RatioOfUniforms.getAcceptanceRatio self).result =
      Run.returned (Scalar.fin (1 /
        ((1 + r * (self.distribution_.dimension : S)) * su *
          Finset.prod (Finset.range self.distribution_.dimension)
            (fun i => sv.getD i 0 - iv.getD i 0)))) ∧
    (RatioOfUniforms.getAcceptanceRatio self).state = self := by
  have hinit : self.isInitialized = true := by
    simp [RatioOfUniforms.isInitialized, hiv, hleniv]
    omega
  have hloop := acceptanceRatio_loop iv sv self.distribution_.dimension
    (1 / ((1 + r * (self.distribution_.dimension : S)) * su)) (by omega) (by omega) hdiff
  have h0 : Scalar.div (Scalar.fin 1)
      (Scalar.mul
        (Scalar.add (Scalar.fin 1)
          (Scalar.mul self.r_ (Scalar.ofNat self.distribution_.dimension)))
        self.supU_) =
      Scalar.fin (1 / ((1 + r * (self.distribution_.dimension : S)) * su)) := by
    simp only [hr, hsu, Scalar.ofNat, Scalar.mul, Scalar.add, Scalar.div, hden, if_false]
  unfold RatioOfUniforms.getAcceptanceRatio
  simp only [hinit, Bool.not_true, Bool.false_eq_true, if_false]
  rw [h0, hiv, hsv, hloop, div_div]
  simp

end ClaimC15

/-- C15 (witness): on the sampler calibrated on `uniform01` (`d = 1`, `r = 1`, `supU = 1`,
`infV = [0]`, `supV = [1]`), `getAcceptanceRatio()` returns `1 / ((1 + 1*1) * 1 * (1 - 0))`,
that is `1/2`. -/
theorem C15_acceptance_ratio_formula_witness :
    (uniform01Sampler : RatioOfUniforms ℚ).r_ = Scalar.fin 1 ∧
    (uniform01Sampler : RatioOfUniforms ℚ).supU_ = Scalar.fin 1 ∧
    (uniform01Sampler : RatioOfUniforms ℚ).infV_ = [(0 : ℚ)].map Scalar.fin ∧
    (uniform01Sampler : RatioOfUniforms ℚ).supV_ = [(1 : ℚ)].map Scalar.fin ∧
    (RatioOfUniforms.getAcceptanceRatio (uniform01Sampler : RatioOfUniforms ℚ)).result =
      Run.returned (Scalar.fin (1 / 2)) := by
  refine ⟨rfl, rfl, rfl, rfl, ?_⟩
  have key := (C15_acceptance_ratio_formula (uniform01Sampler : RatioOfUniforms ℚ) 1 1
    [0] [1] rfl rfl rfl rfl rfl rfl (by decide)
    (by norm_num [uniform01Sampler, uniform01])
    (by
      intro i hi
      have hi1 : i < 1 := hi
      interval_cases i
      norm_num)).1
  rw [key]
  norm_num [uniform01Sampler, uniform01]

section StateFields

variable {S : Type} [LinearOrderedField S]

/-- The method `initialize` writes `supU_`, `infV_` and `supV_` only. -/
theorem initialize_state_fields (env : Env S) (self : RatioOfUniforms S) :
    ( RatioOfUniforms.initialize env self).state.distribution_ = self.distribution_ ∧
    ( RatioOfUniforms.initialize env self).state.r_ = self.r_ ∧
    ( RatioOfUniforms.initialize env self).state.optimizationAlgorithm_
      = self.optimizationAlgorithm_ ∧
    ( RatioOfUniforms.initialize env self).state.candidateNumber_ = self.candidateNumber_ := by
  unfold RatioOfUniforms.initialize
  simp only
  split <;> exact ⟨rfl, rfl, rfl, rfl⟩

end StateFields

theorem real_log_facts_sixty_four :
    (-709 : ℝ) < Real.log (61 / 64) / 3 ∧ (-709 : ℝ) < Real.log (1 / 64) / 3 ∧
    Real.log (1 / 64) ≤ Real.log (61 / 64) ∧ Real.exp (Real.log (1 / 64) / 3) = 1 / 4 ∧
    0 < Real.exp (Real.log (61 / 64) / 3) ∧ Real.exp (Real.log (61 / 64) / 3) ≤ 1 := by
  have h1 : (1 : ℝ) - (61 / 64)⁻¹ ≤ Real.log (61 / 64) :=
    Real.one_sub_inv_le_log_of_pos (by norm_num)
  have h2 : (1 : ℝ) - (1 / 64)⁻¹ ≤ Real.log (1 / 64) :=
    Real.one_sub_inv_le_log_of_pos (by norm_num)
  have h3 : Real.log (1 / 64) = 3 * Real.log (1 / 4) := by
    rw [show (1 / 64 : ℝ) = (1 / 4) ^ 3 by norm_num, Real.log_pow]
    norm_num
  have h4 : Real.log (61 / 64) ≤ 0 := Real.log_nonpos (by norm_num) (by norm_num)
  refine ⟨?_, ?_, ?_, ?_, Real.exp_pos _, ?_⟩
  · norm_num at h1
    linarith
  · norm_num at h2
    linarith
  · exact Real.log_le_log (by norm_num) (by norm_num)
  · rw [h3, mul_div_cancel_left₀ _ (by norm_num : (3 : ℝ) ≠ 0), Real.exp_log (by norm_num)]
  · rw [← Real.exp_zero]
    exact Real.exp_le_exp.mpr (by linarith)

/-- C14 (what the code does): the target `twoLevels` on `[-1, 1]^2` with density `61/64`
on the quadrant `x_0 > 0, x_1 < 0` and `1/64` elsewhere (it integrates to 1), `r = 1`, one
candidate, and the optimizer `cornerOptimizer`, which returns the exact maximum of each of
the five objectives over the bounds it is given.  `initialize()` succeeds with
`supV = [1/4, 1/4]` and `infV = [-1/4, -1/4]`, and `getAcceptanceRatio()` returns
`4 / (3 * supU)` with `supU = (61/64)^(1/3) <= 1`, a value above 1. -/
theorem C14_acceptance_ratio_above_one :
    (OptimizationAlgorithm.IsExactOn cornerOptimizer
      (getMarginal
        (RatioOfUniformsUBoundEvaluation
          (exampleEnv (⟨Real.exp, Real.log, fun x y => x ^ y⟩ : Libm ℝ))
          (twoLevels (Real.log (61 / 64)) (Real.log (1 / 64))) (Scalar.fin 1)) 0)
      [Scalar.fin (-1), Scalar.fin (-1)] [Scalar.fin 1, Scalar.fin 1] ∧
    ∀ i, i < 2 →
      OptimizationAlgorithm.IsExactOn cornerOptimizer
        (getMarginal
          (RatioOfUniformsVBoundEvaluation
            (exampleEnv (⟨Real.exp, Real.log, fun x y => x ^ y⟩ : Libm ℝ))
            (twoLevels (Real.log (61 / 64)) (Real.log (1 / 64))) (Scalar.fin 1)) i)
        [Scalar.fin 0, Scalar.fin 0] [Scalar.fin 1, Scalar.fin 1] ∧
      OptimizationAlgorithm.IsExactOn cornerOptimizer
        (getMarginal
          (RatioOfUniformsVBoundEvaluation
            (exampleEnv (⟨Real.exp, Real.log, fun x y => x ^ y⟩ : Libm ℝ))
            (twoLevels (Real.log (61 / 64)) (Real.log (1 / 64))) (Scalar.fin 1)) i)
        [Scalar.fin (-1), Scalar.fin (-1)] [Scalar.fin 0, Scalar.fin 0]) ∧
    ( RatioOfUniforms.initialize
        (exampleEnv (⟨Real.exp, Real.log, fun x y => x ^ y⟩ : Libm ℝ))
        (twoLevelsSampler (Real.log (61 / 64)) (Real.log (1 / 64)))).error = none ∧
    (RatioOfUniforms.getAcceptanceRatio
      ( RatioOfUniforms.initialize
        (exampleEnv (⟨Real.exp, Real.log, fun x y => x ^ y⟩ : Libm ℝ))
        (twoLevelsSampler (Real.log (61 / 64)) (Real.log (1 / 64)))).state).result =
      Run.returned (Scalar.fin (4 / (3 * Real.exp (Real.log (61 / 64) / 3)))) ∧
    Scalar.lt (Scalar.fin 1)
      (Scalar.fin (4 / (3 * Real.exp (Real.log (61 / 64) / 3)))) = true := by
  obtain ⟨ha, hb, hab, hexp, hpos, hle⟩ := real_log_facts_sixty_four
  obtain ⟨he, hsupU, hsupV, hinfV⟩ := eval_twoLevels
    (⟨Real.exp, Real.log, fun x y => x ^ y⟩ : Libm ℝ) (Real.log (61 / 64)) (Real.log (1 / 64))
    ha hb Real.log_one
  obtain ⟨hdist, hr, _, _⟩ := initialize_state_fields
    (exampleEnv (⟨Real.exp, Real.log, fun x y => x ^ y⟩ : Libm ℝ))
    (twoLevelsSampler (Real.log (61 / 64)) (Real.log (1 / 64)))
  refine ⟨cornerOptimizer_exact _ _ _ ha hb hab Real.log_one
      (fun v hv hv1 => Real.log_nonpos (le_of_lt hv) hv1), he, ?_, ?_⟩
  · unfold RatioOfUniforms.getAcceptanceRatio
    simp only [RatioOfUniforms.isInitialized, hinfV, hsupV, hsupU, hdist, hr, hexp]
    have hne : (3 : ℝ) * Real.exp (Real.log (61 / 64) / 3) ≠ 0 := by positivity
    norm_num [twoLevelsSampler, twoLevels_dimension, range_two, Point.get_cons_zero,
      Point.get_cons_one, Scalar.ofNat, Scalar.mul, Scalar.add, Scalar.sub, Scalar.neg,
      Scalar.div, hne, ne_of_gt hpos]
    field_simp
    ring
  · simp only [Scalar.lt, decide_eq_true_eq]
    rw [lt_div_iff₀ (by positivity)]
    linarith

section ClaimC16

variable {S : Type} [LinearOrderedField S]

theorem getSample_thrown (env : Env S) (self : RatioOfUniforms S)
    (RandomGenerator : Nat → Scalar S) (fuel size : Nat) (e : OTError)
    (h : RatioOfUniforms.getSample env self RandomGenerator fuel size = Run.thrown e) :
    e = notInitialized := by
  unfold RatioOfUniforms.getSample at h
  split at h
  · cases h; rfl
  · split at h <;> cases h

theorem getAcceptanceRatio_thrown (self : RatioOfUniforms S) (e : OTError)
    (h : (RatioOfUniforms.getAcceptanceRatio self).result = Run.thrown e) :
    e = notInitialized := by
  unfold RatioOfUniforms.getAcceptanceRatio at h
  split at h
  · cases h; rfl
  · cases h

/-- Every exception thrown by `RatioOfUniforms` for an uninitialized use (by `getSample` or
by `getAcceptanceRatio`) and every exception thrown by `initialize` for the lack of a
feasible starting point are of the kind `InternalException`; they differ by their message
only. -/
theorem uninitialized_and_infeasible_kind (env : Env S) (self calibrated : RatioOfUniforms S)
    (RandomGenerator : Nat → Scalar S) (fuel size : Nat) (e1 e2 : OTError)
    (h1 : RatioOfUniforms.getSample env self RandomGenerator fuel size = Run.thrown e1 ∨
      (RatioOfUniforms.getAcceptanceRatio self).result = Run.thrown e1)
    (h2 : ( RatioOfUniforms.initialize env calibrated).error = some e2) :
    e1.kind = ExceptionKind.InternalException ∧ e2.kind = ExceptionKind.InternalException ∧
      e1.message ≠ e2.message ∧ e1 ≠ e2 := by
  have he1 : e1 = notInitialized := by
    rcases h1 with h | h
    · exact getSample_thrown env self RandomGenerator fuel size e1 h
    · exact getAcceptanceRatio_thrown self e1 h
  subst he1
  rcases initialize_error env calibrated e2 h2 with h | h | h <;> subst h <;>
    exact ⟨rfl, rfl, by decide, by decide⟩

/-- Every exception thrown by `RatioOfUniformsExperiment::generateWithWeights` is the one of
an uninitialized use, of the kind `InvalidArgumentException`. -/
theorem generateWithWeights_thrown (env : Env S) (self : RatioOfUniformsExperiment S)
    (RandomGenerator : Nat → Scalar S) (fuel : Nat) (e : OTError)
    (h : (RatioOfUniformsExperiment.generateWithWeights env self RandomGenerator fuel).sample
      = Run.thrown e) :
    e = { kind := ExceptionKind.InvalidArgumentException, message := Message.notInitialized } := by
  unfold RatioOfUniformsExperiment.generateWithWeights at h
  simp only at h
  split at h
  · cases h; rfl
  · split at h <;> cases h

end ClaimC16

/-- C16 (code defect): in `RatioOfUniforms` the error of an uninitialized use and the error
of an infeasible calibration have the same kind. On a default-constructed sampler with two
candidates, `getSample(1)` and `getAcceptanceRatio()` throw `InternalException` ("was not
initialized"), and `setDistribution(twoIntervals)` throws `InternalException` ("could not
find a feasible starting point"): the kinds are equal, the messages differ. This holds for
every state: whatever `getSample` or `getAcceptanceRatio` throws and whatever `initialize`
throws are both `InternalException`. The sibling class tells the two errors apart by
their kind: on a default-constructed experiment `generateWithWeights` throws
`InvalidArgumentException` for the uninitialized use, and `setDistribution` throws
`InternalException` for the lack of a feasible starting point. -/
theorem C16_uninitialized_use_same_kind :
    (RatioOfUniforms.getSample (exampleEnv (⟨Real.exp, Real.log, fun x y => x ^ y⟩ : Libm ℝ))
        (freshSampler 2) drawsFromZero 1 1 = Run.thrown notInitialized ∧
      (RatioOfUniforms.getAcceptanceRatio (freshSampler 2 : RatioOfUniforms ℝ)).result
        = Run.thrown notInitialized ∧
      (RatioOfUniforms.setDistribution
        (exampleEnv (⟨Real.exp, Real.log, fun x y => x ^ y⟩ : Libm ℝ))
        (freshSampler 2) twoIntervals).error = some (infeasible Message.noFeasibleVSup) ∧
      notInitialized.kind = ExceptionKind.InternalException ∧
      (infeasible Message.noFeasibleVSup).kind = ExceptionKind.InternalException ∧
      notInitialized.kind = (infeasible Message.noFeasibleVSup).kind ∧
      notInitialized.message ≠ (infeasible Message.noFeasibleVSup).message) ∧
    (∀ (env : Env ℝ) (self calibrated : RatioOfUniforms ℝ) (RandomGenerator : Nat → Scalar ℝ)
        (fuel size : Nat) (e1 e2 : OTError),
      (RatioOfUniforms.getSample env self RandomGenerator fuel size = Run.thrown e1 ∨
        (RatioOfUniforms.getAcceptanceRatio self).result = Run.thrown e1) →
      ( RatioOfUniforms.initialize env calibrated).error = some e2 →
      e1.kind = e2.kind) ∧
    ((RatioOfUniformsExperiment.generateWithWeights
        (exampleEnv (⟨Real.exp, Real.log, fun x y => x ^ y⟩ : Libm ℝ))
        (freshExperiment 1 1) drawsFromZero 1).sample
        = Run.thrown { kind := ExceptionKind.InvalidArgumentException,
                       message := Message.notInitialized } ∧
      (RatioOfUniformsExperiment.setDistribution
        (exampleEnv (⟨Real.exp, Real.log, fun x y => x ^ y⟩ : Libm ℝ))
        (freshExperiment 1 1) twoIntervalsSquared).error
        = some (infeasible Message.noFeasibleUSup) ∧
      ExceptionKind.InvalidArgumentException ≠ (infeasible Message.noFeasibleUSup).kind) ∧
    (∀ (env : Env ℝ) (self : RatioOfUniformsExperiment ℝ) (RandomGenerator : Nat → Scalar ℝ)
        (fuel : Nat) (e : OTError),
      (RatioOfUniformsExperiment.generateWithWeights env self RandomGenerator fuel).sample
        = Run.thrown e →
      e.kind = ExceptionKind.InvalidArgumentException) := by
  refine ⟨⟨?_, ?_, by rw [eval_twoIntervals_two], rfl, rfl, rfl, by decide⟩, ?_,
    ⟨?_, by rw [eval_experiment_abort], by decide⟩, ?_⟩
  · rw [freshSampler_eq 2 (by decide)]
    simp [RatioOfUniforms.getSample]
  · rw [freshSampler_eq 2 (by decide)]
    simp [RatioOfUniforms.getAcceptanceRatio, RatioOfUniforms.isInitialized]
  · intro env self calibrated RandomGenerator fuel size e1 e2 h1 h2
    have h := uninitialized_and_infeasible_kind env self calibrated RandomGenerator fuel size
      e1 e2 h1 h2
    rw [h.1, h.2.1]
  · simp [RatioOfUniformsExperiment.generateWithWeights, freshExperiment]
  · intro env self RandomGenerator fuel e h
    rw [generateWithWeights_thrown env self RandomGenerator fuel e h]

section SearchLemmas

variable {S : Type} [LinearOrderedField S]

omit [LinearOrderedField S] in
/-- The result of a feasible-point search: either no candidate among the `n` examined has a
normal log-density and the search yields the empty point, or it yields the first candidate
whose log-density is normal and stops right after it. -/
theorem feasibleStart_spec (distribution : Distribution S) (sequence : Nat → Point S)
    (toBox : Point S → Point S) (n pos : Nat) :
    ((∀ k, k < n →
        (distribution.computeLogPDF (toBox (sequence (pos + k)))).isNormal = false) ∧
      (feasibleStart distribution sequence toBox n pos).start = [] ∧
      (feasibleStart distribution sequence toBox n pos).pos = pos + n) ∨
    (∃ k, k < n ∧
      (distribution.computeLogPDF (toBox (sequence (pos + k)))).isNormal = true ∧
      (∀ j, j < k →
        (distribution.computeLogPDF (toBox (sequence (pos + j)))).isNormal = false) ∧
      (feasibleStart distribution sequence toBox n pos).start = toBox (sequence (pos + k)) ∧
      (feasibleStart distribution sequence toBox n pos).pos = pos + k + 1) := by
  induction n generalizing pos with
  | zero =>
    left
    exact ⟨fun k hk => absurd hk (Nat.not_lt_zero k), rfl, rfl⟩
  | succ n ih =>
    by_cases h0 : (distribution.computeLogPDF (toBox (sequence pos))).isNormal = true
    · right
      refine ⟨0, Nat.succ_pos n, h0, fun j hj => absurd hj (Nat.not_lt_zero j), ?_, ?_⟩
      · simp [feasibleStart, h0]
      · simp [feasibleStart, h0]
    · have h0' : (distribution.computeLogPDF (toBox (sequence pos))).isNormal = false := by
        simpa using h0
      have hstep : (feasibleStart distribution sequence toBox (n + 1) pos).start =
            (feasibleStart distribution sequence toBox n (pos + 1)).start ∧
          (feasibleStart distribution sequence toBox (n + 1) pos).pos =
            (feasibleStart distribution sequence toBox n (pos + 1)).pos := by
        simp [feasibleStart, h0']
      rcases ih (pos + 1) with ⟨hall, hs, hp⟩ | ⟨k, hk, hnk, hprev, hs, hp⟩
      · left
        refine ⟨?_, by rw [hstep.1, hs], by rw [hstep.2, hp]; omega⟩
        intro k hk
        cases k with
        | zero => exact h0'
        | succ k =>
          have := hall k (by omega)
          rwa [show pos + 1 + k = pos + (k + 1) by omega] at this
      · right
        refine ⟨k + 1, by omega, ?_, ?_, ?_, ?_⟩
        · rwa [show pos + 1 + k = pos + (k + 1) by omega] at hnk
        · intro j hj
          cases j with
          | zero => exact h0'
          | succ j =>
            have := hprev j (by omega)
            rwa [show pos + 1 + j = pos + (j + 1) by omega] at this
        · rw [hstep.1, hs, show pos + 1 + k = pos + (k + 1) by omega]
        · rw [hstep.2, hp]; omega

omit [LinearOrderedField S] in
/-- The calls made by a feasible-point search: it takes the sequence points of index
`pos, pos + 1, ...` up to the position it reaches, at most `n` of them, evaluates the
log-density once per point and never runs the optimizer. -/
theorem feasibleStart_trace (distribution : Distribution S) (sequence : Nat → Point S)
    (toBox : Point S → Point S) (n pos : Nat) :
    pos ≤ (feasibleStart distribution sequence toBox n pos).pos ∧
    (feasibleStart distribution sequence toBox n pos).pos ≤ pos + n ∧
    generatedPoints (feasibleStart distribution sequence toBox n pos).trace =
      List.range' pos ((feasibleStart distribution sequence toBox n pos).pos - pos) ∧
    logPDFEvaluations (feasibleStart distribution sequence toBox n pos).trace =
      (feasibleStart distribution sequence toBox n pos).pos - pos ∧
    optimizerRuns (feasibleStart distribution sequence toBox n pos).trace = 0 := by
  induction n generalizing pos with
  | zero => simp [feasibleStart, generatedPoints, logPDFEvaluations, optimizerRuns]
  | succ n ih =>
    by_cases h0 : (distribution.computeLogPDF (toBox (sequence pos))).isNormal = true
    · simp [feasibleStart, h0, generatedPoints, logPDFEvaluations, optimizerRuns]
    · have h0' : (distribution.computeLogPDF (toBox (sequence pos))).isNormal = false := by
        simpa using h0
      obtain ⟨h1, h2, h3, h4, h5⟩ := ih (pos + 1)
      simp only [feasibleStart, h0', Bool.false_eq_true, if_false, generatedPoints,
        logPDFEvaluations, optimizerRuns]
      refine ⟨by omega, by omega, ?_, by omega, h5⟩
      rw [h3, show (feasibleStart distribution sequence toBox n (pos + 1)).pos - pos
        = ((feasibleStart distribution sequence toBox n (pos + 1)).pos - (pos + 1)) + 1
        by omega, List.range'_succ]

end SearchLemmas

section DegenerateLemmas

variable {S : Type} [LinearOrderedField S]

omit [LinearOrderedField S] in
theorem Point.get_map_range (f : Nat → Scalar S) (d j : Nat) (hj : j < d) :
    Point.get ((List.range d).map f) j = f j := by
  unfold Point.get
  rw [List.getD_eq_getElem?_getD, List.getElem?_map, List.getElem?_range hj]
  rfl

/-- A candidate of the search for `supU` lies in the range of the distribution. -/
theorem toRange_inBox (distribution : Distribution S) (s : Point S)
    (hrange : distribution.HasFiniteRange) (hs : InUnitCube distribution.dimension s) :
    InBox distribution.lowerBound distribution.upperBound
      (toRange distribution.dimension distribution.lowerBound distribution.upperBound s) := by
  obtain ⟨hlb, _, hb⟩ := hrange
  refine ⟨by simp [toRange, hlb], ?_⟩
  intro j hj
  rw [hlb] at hj
  obtain ⟨l, u, hl, hu, hlu⟩ := hb j hj
  obtain ⟨t, ht, ht0, ht1⟩ := hs.2 j hj
  simp only [toRange, Point.get_map_range _ _ _ hj, hl, hu, ht, Scalar.sub, Scalar.neg,
    Scalar.add, Scalar.mul, Scalar.le, decide_eq_true_eq]
  constructor
  · nlinarith [mul_nonneg ht0 (sub_nonneg.mpr hlu)]
  · nlinarith [mul_nonneg (sub_nonneg.mpr ht1) (sub_nonneg.mpr hlu)]

/-- On a target whose log-density is `-inf` on its whole range, `initialize` throws after
the search for `supU`: one evaluation of the log-density per candidate, no run of the
optimizer, and no attribute written. -/
theorem initialize_degenerate (env : Env S) (self : RatioOfUniforms S)
    (hrange : self.distribution_.HasFiniteRange)
    (hseq : ∀ k, InUnitCube self.distribution_.dimension
      (env.SobolSequence self.distribution_.dimension k))
    (hdeg : ∀ x, InBox self.distribution_.lowerBound self.distribution_.upperBound x →
      self.distribution_.computeLogPDF x = Scalar.ninf) :
    ( RatioOfUniforms.initialize env self).error = some (infeasible Message.noFeasibleUSup) ∧
    ( RatioOfUniforms.initialize env self).state = self ∧
    logPDFEvaluations ( RatioOfUniforms.initialize env self).trace = self.candidateNumber_ ∧
    optimizerRuns ( RatioOfUniforms.initialize env self).trace = 0 := by
  have hnone : ∀ k, k < self.candidateNumber_ →
      (self.distribution_.computeLogPDF
        (toRange self.distribution_.dimension self.distribution_.lowerBound
          self.distribution_.upperBound
          (env.SobolSequence self.distribution_.dimension (0 + k)))).isNormal = false := by
    intro k _
    rw [hdeg _ (toRange_inBox self.distribution_ _ hrange (hseq (0 + k)))]
    rfl
  have hstart : (feasibleStart self.distribution_
      (env.SobolSequence self.distribution_.dimension)
      (toRange self.distribution_.dimension self.distribution_.lowerBound
        self.distribution_.upperBound) self.candidateNumber_ 0).start = [] ∧
      (feasibleStart self.distribution_
      (env.SobolSequence self.distribution_.dimension)
      (toRange self.distribution_.dimension self.distribution_.lowerBound
        self.distribution_.upperBound) self.candidateNumber_ 0).pos
        = 0 + self.candidateNumber_ := by
    rcases feasibleStart_spec self.distribution_
      (env.SobolSequence self.distribution_.dimension)
      (toRange self.distribution_.dimension self.distribution_.lowerBound
        self.distribution_.upperBound) self.candidateNumber_ 0 with ⟨_, h1, h2⟩ | ⟨k, hk, hn, _⟩
    · exact ⟨h1, h2⟩
    · rw [hnone k hk] at hn
      cases hn
  obtain ⟨_, _, _, h4, h5⟩ := feasibleStart_trace self.distribution_
    (env.SobolSequence self.distribution_.dimension)
    (toRange self.distribution_.dimension self.distribution_.lowerBound
      self.distribution_.upperBound) self.candidateNumber_ 0
  unfold RatioOfUniforms.initialize
  simp only [hstart.1, List.length_nil, if_true]
  refine ⟨trivial, trivial, ?_, h5⟩
  rw [h4, hstart.2]
  omega

theorem sobolCoordinate_mem (j k : Nat) :
    (0 : S) ≤ sobolCoordinate j k ∧ (sobolCoordinate j k : S) ≤ 1 := by
  unfold sobolCoordinate
  split <;> norm_num

theorem sobolPoints_inUnitCube (d k : Nat) : InUnitCube d (sobolPoints d k : Point S) := by
  refine ⟨by simp [sobolPoints], ?_⟩
  intro j hj
  refine ⟨sobolCoordinate j k, ?_, (sobolCoordinate_mem j k).1, (sobolCoordinate_mem j k).2⟩
  simp only [sobolPoints, Point.get_map_range _ _ _ hj]

end DegenerateLemmas

section ClaimC17

variable {S : Type} [LinearOrderedField S]

/-- C17: let the target have a range with finite bounds `lb[j] <= ub[j]` and a log-density
equal to `-inf` at every point of this range, and let the sequence give points of
`[0, 1]^d`.  Then, whatever the candidate number `N`, `initialize()` ends by throwing the
`InternalException` of the search for `supU`, after exactly `N` evaluations of the
log-density and no run of the optimizer, and writes no attribute.  The constructor
`RatioOfUniforms(distribution)` thus throws, and on a default-constructed sampler
`setDistribution(distribution)` throws and `getRealization()` then throws the exception of
an uninitialized use instead of entering the rejection loop. -/
theorem C17_degenerate_target (env : Env S) (defaults : Defaults S)
    (distribution : Distribution S)
    (hrange : distribution.HasFiniteRange)
    (hseq : ∀ k, InUnitCube distribution.dimension
      (env.SobolSequence distribution.dimension k))
    (hdeg : ∀ x, InBox distribution.lowerBound distribution.upperBound x →
      distribution.computeLogPDF x = Scalar.ninf)
    (hcont : distribution.isContinuous = true) :
    (∀ self : RatioOfUniforms S, self.distribution_ = distribution →
      ( RatioOfUniforms.initialize env self).error
        = some (infeasible Message.noFeasibleUSup) ∧
      ( RatioOfUniforms.initialize env self).state = self ∧
      logPDFEvaluations ( RatioOfUniforms.initialize env self).trace
        = self.candidateNumber_ ∧
      optimizerRuns ( RatioOfUniforms.initialize env self).trace = 0) ∧
    (RatioOfUniforms.newWithDistribution env defaults distribution).error =
      some (infeasible Message.noFeasibleUSup) ∧
    logPDFEvaluations (RatioOfUniforms.newWithDistribution env defaults distribution).trace
      = defaults.candidateNumber ∧
    optimizerRuns (RatioOfUniforms.newWithDistribution env defaults distribution).trace = 0 ∧
    ∀ (RandomGenerator : Nat → Scalar S) (fuel : Nat),
      RatioOfUniforms.getRealization env
        (RatioOfUniforms.setDistribution env (RatioOfUniforms.new defaults) distribution).state
        RandomGenerator fuel = Run.thrown notInitialized := by
  have hall : ∀ self : RatioOfUniforms S, self.distribution_ = distribution →
      ( RatioOfUniforms.initialize env self).error
        = some (infeasible Message.noFeasibleUSup) ∧
      ( RatioOfUniforms.initialize env self).state = self ∧
      logPDFEvaluations ( RatioOfUniforms.initialize env self).trace
        = self.candidateNumber_ ∧
      optimizerRuns ( RatioOfUniforms.initialize env self).trace = 0 := by
    intro self hself
    subst hself
    exact initialize_degenerate env self hrange hseq hdeg
  have hnew := hall { RatioOfUniforms.new defaults with distribution_ := distribution } rfl
  have hset : RatioOfUniforms.setDistribution env (RatioOfUniforms.new defaults) distribution
      = RatioOfUniforms.initialize env
        { RatioOfUniforms.new defaults with distribution_ := distribution } :=
    setDistribution_eq_initialize env _ distribution hcont
  refine ⟨hall, ?_, ?_, ?_, ?_⟩
  · rw [RatioOfUniforms.newWithDistribution, hset]
    exact hnew.1
  · rw [RatioOfUniforms.newWithDistribution, hset]
    exact hnew.2.2.1
  · rw [RatioOfUniforms.newWithDistribution, hset]
    exact hnew.2.2.2
  · intro RandomGenerator fuel
    rw [hset, hnew.2.1]
    simp [RatioOfUniforms.getRealization, RatioOfUniforms.getSample, RatioOfUniforms.new]

end ClaimC17

/-- C17 (witness): the target `nowhereDense` has range `[0, 1]` and log-density `-inf`
everywhere; with the examples' environment and defaults (one candidate), the constructor
throws after one evaluation of the log-density and no run of the optimizer. -/
theorem C17_degenerate_target_witness :
    (nowhereDense : Distribution ℝ).HasFiniteRange ∧
    (∀ k, InUnitCube (nowhereDense : Distribution ℝ).dimension
      ((exampleEnv (⟨Real.exp, Real.log, fun x y => x ^ y⟩ : Libm ℝ)).SobolSequence
        (nowhereDense : Distribution ℝ).dimension k)) ∧
    (∀ x, InBox (nowhereDense : Distribution ℝ).lowerBound
        (nowhereDense : Distribution ℝ).upperBound x →
      (nowhereDense : Distribution ℝ).computeLogPDF x = Scalar.ninf) ∧
    (nowhereDense : Distribution ℝ).isContinuous = true ∧
    (RatioOfUniforms.newWithDistribution
      (exampleEnv (⟨Real.exp, Real.log, fun x y => x ^ y⟩ : Libm ℝ))
      exampleDefaults nowhereDense).error = some (infeasible Message.noFeasibleUSup) ∧
    logPDFEvaluations (RatioOfUniforms.newWithDistribution
      (exampleEnv (⟨Real.exp, Real.log, fun x y => x ^ y⟩ : Libm ℝ))
      exampleDefaults nowhereDense).trace = 1 ∧
    optimizerRuns (RatioOfUniforms.newWithDistribution
      (exampleEnv (⟨Real.exp, Real.log, fun x y => x ^ y⟩ : Libm ℝ))
      exampleDefaults nowhereDense).trace = 0 := by
  have hrange : (nowhereDense : Distribution ℝ).HasFiniteRange := by
    refine ⟨rfl, rfl, ?_⟩
    intro j hj
    have hj1 : j < 1 := hj
    interval_cases j
    exact ⟨0, 1, rfl, rfl, by norm_num⟩
  have hseq : ∀ k, InUnitCube (nowhereDense : Distribution ℝ).dimension
      ((exampleEnv (⟨Real.exp, Real.log, fun x y => x ^ y⟩ : Libm ℝ)).SobolSequence
        (nowhereDense : Distribution ℝ).dimension k) :=
    fun k => sobolPoints_inUnitCube _ k
  have hdeg : ∀ x, InBox (nowhereDense : Distribution ℝ).lowerBound
        (nowhereDense : Distribution ℝ).upperBound x →
      (nowhereDense : Distribution ℝ).computeLogPDF x = Scalar.ninf := fun _ _ => rfl
  have key := C17_degenerate_target
    (exampleEnv (⟨Real.exp, Real.log, fun x y => x ^ y⟩ : Libm ℝ))
    exampleDefaults nowhereDense hrange hseq hdeg rfl
  exact ⟨hrange, hseq, hdeg, rfl, key.2.1, key.2.2.1, key.2.2.2.1⟩

section ClaimC18

variable {S : Type} [LinearOrderedField S]

omit [LinearOrderedField S] in
theorem feasibleStart_fails_iff (distribution : Distribution S) (sequence : Nat → Point S)
    (toBox : Point S → Point S) (n pos : Nat) (hbox : ∀ p, (toBox p).length ≠ 0) :
    (feasibleStart distribution sequence toBox n pos).start.length = 0 ↔
      ∀ k, k < n →
        (distribution.computeLogPDF (toBox (sequence (pos + k)))).isNormal = false := by
  rcases feasibleStart_spec distribution sequence toBox n pos with
    ⟨hall, hs, _⟩ | ⟨k, hk, hn, _, hs, _⟩
  · rw [hs]
    exact ⟨fun _ => hall, fun _ => rfl⟩
  · rw [hs]
    constructor
    · intro h
      exact absurd h (hbox _)
    · intro h
      rw [h k hk] at hn
      cases hn

/-- C18: for a target of dimension `d >= 1`.  A feasible-point search over `N` candidates
yields either the empty point, when no candidate has a normal log-density, or the first
candidate, in the order of the sequence, whose log-density is normal; the candidates are
the images `lb[j] + s[j] * (ub[j] - lb[j])` (search for `supU`), `s[j] * ub[j]` (search for
`supV[i]`) and `s[j] * lb[j]` (search for `infV[i]`) of the sequence points `s`; and each
of the three searches of `initialize()` throws its `InternalException` if and only if no
candidate it examines has a normal log-density. -/
theorem C18_feasible_point_search (env : Env S) (self : RatioOfUniforms S)
    (hd : 1 ≤ self.distribution_.dimension) :
    (∀ (toBox : Point S → Point S) (pos : Nat),
      ((∀ k, k < self.candidateNumber_ →
          (self.distribution_.computeLogPDF
            (toBox (env.SobolSequence self.distribution_.dimension (pos + k)))).isNormal
            = false) ∧
        (feasibleStart self.distribution_ (env.SobolSequence self.distribution_.dimension)
          toBox self.candidateNumber_ pos).start = []) ∨
      (∃ k, k < self.candidateNumber_ ∧
        (self.distribution_.computeLogPDF
          (toBox (env.SobolSequence self.distribution_.dimension (pos + k)))).isNormal
          = true ∧
        (∀ j, j < k →
          (self.distribution_.computeLogPDF
            (toBox (env.SobolSequence self.distribution_.dimension (pos + j)))).isNormal
            = false) ∧
        (feasibleStart self.distribution_ (env.SobolSequence self.distribution_.dimension)
          toBox self.candidateNumber_ pos).start =
          toBox (env.SobolSequence self.distribution_.dimension (pos + k)))) ∧
    (∀ (s : Point S) (j : Nat), j < self.distribution_.dimension →
      (toRange self.distribution_.dimension self.distribution_.lowerBound
          self.distribution_.upperBound s).get j =
        Scalar.add (self.distribution_.lowerBound.get j)
          (Scalar.mul (s.get j)
            (Scalar.sub (self.distribution_.upperBound.get j)
              (self.distribution_.lowerBound.get j))) ∧
      (toOrthant self.distribution_.dimension self.distribution_.upperBound s).get j =
        Scalar.mul (s.get j) (self.distribution_.upperBound.get j) ∧
      (toOrthant self.distribution_.dimension self.distribution_.lowerBound s).get j =
        Scalar.mul (s.get j) (self.distribution_.lowerBound.get j)) ∧
    (( RatioOfUniforms.initialize env self).error = some (infeasible Message.noFeasibleUSup) ↔
      ∀ k, k < self.candidateNumber_ →
        (self.distribution_.computeLogPDF
          (toRange self.distribution_.dimension self.distribution_.lowerBound
            self.distribution_.upperBound
            (env.SobolSequence self.distribution_.dimension (0 + k)))).isNormal = false) ∧
    (∀ (i : Nat) (c : Calibration S), c.error = none →
      (Scalar.lt (Scalar.fin 0) (self.distribution_.upperBound.get i) = true →
        ((calibrateSupV env self.distribution_
            (RatioOfUniformsVBoundEvaluation env self.distribution_ self.r_)
            self.optimizationAlgorithm_ self.candidateNumber_ i c).error
            = some (infeasible Message.noFeasibleVSup) ↔
          ∀ k, k < self.candidateNumber_ →
            (self.distribution_.computeLogPDF
              (toOrthant self.distribution_.dimension self.distribution_.upperBound
                (env.SobolSequence self.distribution_.dimension (c.pos + k)))).isNormal
              = false)) ∧
      (Scalar.lt (self.distribution_.lowerBound.get i) (Scalar.fin 0) = true →
        ((calibrateInfV env self.distribution_
            (RatioOfUniformsVBoundEvaluation env self.distribution_ self.r_)
            self.optimizationAlgorithm_ self.candidateNumber_ i c).error
            = some (infeasible Message.noFeasibleVInf) ↔
          ∀ k, k < self.candidateNumber_ →
            (self.distribution_.computeLogPDF
              (toOrthant self.distribution_.dimension self.distribution_.lowerBound
                (env.SobolSequence self.distribution_.dimension (c.pos + k)))).isNormal
              = false))) := by
  have hrangeBox : ∀ p : Point S, (toRange self.distribution_.dimension
      self.distribution_.lowerBound self.distribution_.upperBound p).length ≠ 0 := by
    intro p
    simp only [toRange, List.length_map, List.length_range]
    omega
  have horthBox : ∀ (b p : Point S),
      (toOrthant self.distribution_.dimension b p).length ≠ 0 := by
    intro b p
    simp only [toOrthant, List.length_map, List.length_range]
    omega
  refine ⟨?_, ?_, ?_, ?_⟩
  · intro toBox pos
    rcases feasibleStart_spec self.distribution_
      (env.SobolSequence self.distribution_.dimension) toBox self.candidateNumber_ pos with
      ⟨hall, hs, _⟩ | ⟨k, hk, hn, hprev, hs, _⟩
    · exact Or.inl ⟨hall, hs⟩
    · exact Or.inr ⟨k, hk, hn, hprev, hs⟩
  · intro s j hj
    simp only [toRange, toOrthant, Point.get_map_range _ _ _ hj, and_self]
  · rw [← feasibleStart_fails_iff self.distribution_ _ _ _ _ hrangeBox]
    unfold RatioOfUniforms.initialize
    simp only
    split
    · rename_i hs
      simp [hs]
    · rename_i hs
      constructor
      · intro h
        rcases calibrateV_error _ _ _ _ _ _ _ _ h with h1 | h1 | h1
        · simp at h1
        · exact absurd h1 (by decide)
        · exact absurd h1 (by decide)
      · intro h
        exact absurd h hs
  · intro i c hc
    constructor
    · intro hub
      rw [← feasibleStart_fails_iff self.distribution_ _ _ _ _ (horthBox _)]
      unfold calibrateSupV
      simp only [hub, if_true]
      split
      · rename_i hs
        simp [hs]
      · rename_i hs
        simp [hs, hc]
    · intro hlb
      rw [← feasibleStart_fails_iff self.distribution_ _ _ _ _ (horthBox _)]
      unfold calibrateInfV
      simp only [hlb, if_true]
      split
      · rename_i hs
        simp [hs]
      · rename_i hs
        simp [hs, hc]

end ClaimC18

/-- C18 (witness): the target `twoIntervals` has dimension 1; on a sampler with three
candidates, the search for `supU` examines the candidates `0, 1/2, -1/2`, the log-density
of the second one is normal, and `initialize()` does not throw the exception of that
search. -/
theorem C18_feasible_point_search_witness :
    1 ≤ ({ freshSampler 3 with distribution_ := twoIntervals } :
      RatioOfUniforms ℝ).distribution_.dimension ∧
    ( RatioOfUniforms.initialize
        (exampleEnv (⟨Real.exp, Real.log, fun x y => x ^ y⟩ : Libm ℝ))
        { freshSampler 3 with distribution_ := twoIntervals }).error
      ≠ some (infeasible Message.noFeasibleUSup) ∧
    ¬ ∀ k, k < 3 →
      ((twoIntervals : Distribution ℝ).computeLogPDF
        (toRange 1 [Scalar.fin (-1)] [Scalar.fin 1]
          (sobolPoints 1 (0 + k)))).isNormal = false := by
  have key := (C18_feasible_point_search
    (exampleEnv (⟨Real.exp, Real.log, fun x y => x ^ y⟩ : Libm ℝ))
    { freshSampler 3 with distribution_ := twoIntervals } (by decide)).2.2.1
  have herr : ( RatioOfUniforms.initialize
        (exampleEnv (⟨Real.exp, Real.log, fun x y => x ^ y⟩ : Libm ℝ))
        { freshSampler 3 with distribution_ := twoIntervals }).error
      ≠ some (infeasible Message.noFeasibleUSup) := by
    rw [← setDistribution_eq_initialize _ _ _ twoIntervals_isContinuous,
      eval_twoIntervals_three]
    simp
  refine ⟨by decide, herr, ?_⟩
  intro h
  exact herr (key.mpr h)

section StripEvaluation

variable {S : Type} [LinearOrderedField S]

theorem sideStrip_dimension (lowest : S) : (sideStrip lowest).dimension = 2 := rfl

theorem sideStrip_lowerBound (lowest : S) :
    (sideStrip lowest).lowerBound = [Scalar.fin (-1 / 2), Scalar.fin (-3)] := rfl

theorem sideStrip_upperBound (lowest : S) :
    (sideStrip lowest).upperBound = [Scalar.fin (1 / 2), Scalar.fin (-2)] := rfl

theorem sideStrip_logPDF_isNormal (lowest : S) (x : Point S) :
    ((sideStrip lowest).computeLogPDF x).isNormal = true := by
  simp only [sideStrip]
  split <;> rfl

/-- The calibration of `sideStripSampler lowest`: it succeeds, after five searches. -/
theorem eval_sideStrip (m : Libm S) (lowest : S) :
    ( RatioOfUniforms.initialize (exampleEnv m) (sideStripSampler lowest)).error = none ∧
    ( RatioOfUniforms.initialize (exampleEnv m) (sideStripSampler lowest)).trace =
      [Event.generate 0, Event.computeLogPDF [Scalar.fin 0, Scalar.fin (-5 / 2)],
       Event.run Problem.U [Scalar.fin (-1 / 2), Scalar.fin (-3)]
         [Scalar.fin (1 / 2), Scalar.fin (-2)] [Scalar.fin 0, Scalar.fin (-5 / 2)],
       Event.generate 1, Event.computeLogPDF [Scalar.fin (3 / 8), Scalar.fin (-1 / 2)],
       Event.run (Problem.VSup 0) [Scalar.fin 0, Scalar.fin 0]
         [Scalar.fin (1 / 2), Scalar.fin (-2)] [Scalar.fin (3 / 8), Scalar.fin (-1 / 2)],
       Event.generate 2, Event.computeLogPDF [Scalar.fin (-1 / 8), Scalar.fin (-9 / 4)],
       Event.run (Problem.VInf 0) [Scalar.fin (-1 / 2), Scalar.fin (-3)]
         [Scalar.fin 0, Scalar.fin 0] [Scalar.fin (-1 / 8), Scalar.fin (-9 / 4)],
       Event.generate 3, Event.computeLogPDF [Scalar.fin (-3 / 16), Scalar.fin (-9 / 8)],
       Event.run (Problem.VInf 1) [Scalar.fin (-1 / 2), Scalar.fin (-3)]
         [Scalar.fin 0, Scalar.fin 0] [Scalar.fin (-3 / 16), Scalar.fin (-9 / 8)]] := by
  norm_num [ RatioOfUniforms.initialize, sideStripSampler, optimumZero,
    feasibleStart, exampleEnv, sobolPoints, sobolCoordinate, range_two, toRange, toOrthant,
    sideStrip_logPDF_isNormal, sideStrip_dimension, sideStrip_lowerBound,
    sideStrip_upperBound, Point.get_cons_zero, Point.get_cons_one, Point.get_cons_succ,
    Scalar.add, Scalar.mul, Scalar.sub, Scalar.neg, Scalar.lt, Scalar.exp,
    Point.resize, calibrateV, calibrateSupV, calibrateInfV, Point.const_two]

end StripEvaluation

/-- C19 (code defect): a starting point handed to the optimizer lies outside the bounds of
its problem. The target is uniform on `[-1/2, 1/2] x [-3, -2]` (dimension 2, `lb_j <= ub_j`)
with a finite log-density `lowest` where the density is zero; `r = 1`, one candidate, the
Sobol sequence. The calibration succeeds, and its second call `run()`, the problem of
`supV[0]`, receives the bounds `Interval(zero, ub) = [0, 1/2] x [0, -2]` with the starting
point `(3/8, -1/2)`, whose coordinate 1 is below the lower bound 0 and above the upper
bound -2. -/
theorem C19_start_outside_bounds (lowest : ℝ) :
    (sideStrip lowest).HasFiniteRange ∧
    1 ≤ (sideStrip lowest).dimension ∧
    ( RatioOfUniforms.initialize
        (exampleEnv (⟨Real.exp, Real.log, fun x y => x ^ y⟩ : Libm ℝ))
        (sideStripSampler lowest)).error = none ∧
    Event.run (Problem.VSup 0) [Scalar.fin 0, Scalar.fin 0]
        [Scalar.fin (1 / 2), Scalar.fin (-2)] [Scalar.fin (3 / 8), Scalar.fin (-1 / 2)] ∈
      ( RatioOfUniforms.initialize
        (exampleEnv (⟨Real.exp, Real.log, fun x y => x ^ y⟩ : Libm ℝ))
        (sideStripSampler lowest)).trace ∧
    ¬ InBox [Scalar.fin 0, Scalar.fin 0] [Scalar.fin (1 / 2), Scalar.fin (-2)]
        [Scalar.fin (3 / 8), Scalar.fin (-1 / 2 : ℝ)] := by
  obtain ⟨he, ht⟩ := eval_sideStrip (⟨Real.exp, Real.log, fun x y => x ^ y⟩ : Libm ℝ) lowest
  refine ⟨⟨rfl, rfl, ?_⟩, by simp [sideStrip_dimension], he, ?_, ?_⟩
  · intro j hj
    rw [sideStrip_dimension] at hj
    interval_cases j
    · exact ⟨-1 / 2, 1 / 2, rfl, rfl, by norm_num⟩
    · exact ⟨-3, -2, rfl, rfl, by norm_num⟩
  · rw [ht]
    simp
  · intro h
    have h1 := (h.2 1 (by simp)).1
    norm_num [Point.get_cons_one, Point.get_cons_succ, Point.get_cons_zero, Scalar.le] at h1

section SequenceLemmas

variable {S : Type}

end SequenceLemmas
section CalibrationConsumption

variable {S : Type} [LinearOrderedField S]

end CalibrationConsumption
section ClaimC20

variable {S : Type} [LinearOrderedField S]

end ClaimC20

section TraceGrowth

variable {S : Type} [LinearOrderedField S]

/-- The block `if (ub[i] > 0.0)` only adds calls to the trace. -/
theorem calibrateSupV_mem (env : Env S) (distribution : Distribution S)
    (objectiveV : Point S → Point S) (opt : OptimizationAlgorithm S) (n i : Nat)
    (c : Calibration S) (e : Event S) (he : e ∈ c.trace) :
    e ∈ (calibrateSupV env distribution objectiveV opt n i c).trace := by
  unfold calibrateSupV
  simp only
  split
  · split
    · exact List.mem_append_left _ he
    · exact List.mem_append_left _ (List.mem_append_left _ he)
  · exact he

/-- The block `if (lb[i] < 0.0)` only adds calls to the trace. -/
theorem calibrateInfV_mem (env : Env S) (distribution : Distribution S)
    (objectiveV : Point S → Point S) (opt : OptimizationAlgorithm S) (n i : Nat)
    (c : Calibration S) (e : Event S) (he : e ∈ c.trace) :
    e ∈ (calibrateInfV env distribution objectiveV opt n i c).trace := by
  unfold calibrateInfV
  simp only
  split
  · split
    · exact List.mem_append_left _ he
    · exact List.mem_append_left _ (List.mem_append_left _ he)
  · exact he

/-- The loop on `i` only adds calls to the trace. -/
theorem calibrateV_mem (env : Env S) (distribution : Distribution S)
    (objectiveV : Point S → Point S) (opt : OptimizationAlgorithm S) (n : Nat)
    (indices : List Nat) (c : Calibration S) (e : Event S) (he : e ∈ c.trace) :
    e ∈ (calibrateV env distribution objectiveV opt n indices c).trace := by
  induction indices generalizing c with
  | nil => exact he
  | cons i rest ih =>
    have h1 := calibrateSupV_mem env distribution objectiveV opt n i c e he
    have h2 := calibrateInfV_mem env distribution objectiveV opt n i _ e h1
    simp only [calibrateV]
    split
    · exact h1
    · split
      · exact h2
      · exact ih _ h2

/-- The exception of `initialize` is the one of the search for `supU` exactly when that
search yields no starting point. -/
theorem initialize_USup_iff (env : Env S) (self : RatioOfUniforms S) :
    ( RatioOfUniforms.initialize env self).error = some (infeasible Message.noFeasibleUSup) ↔
      (feasibleStart self.distribution_ (env.SobolSequence self.distribution_.dimension)
        (toRange self.distribution_.dimension self.distribution_.lowerBound
          self.distribution_.upperBound) self.candidateNumber_ 0).start.length = 0 := by
  unfold RatioOfUniforms.initialize
  simp only
  split
  · rename_i h
    simp [h]
  · rename_i h
    constructor
    · intro he
      rcases calibrateV_error _ _ _ _ _ _ _ _ he with h1 | h1 | h1
      · simp at h1
      · exact absurd h1 (by decide)
      · exact absurd h1 (by decide)
    · intro h0
      exact absurd h0 h

/-- When the search for `supU` yields a starting point, `initialize` runs the optimizer on
the problem U over the range from that point and stores the exponential of the optimal
value in `supU_`. -/
theorem initialize_supU (env : Env S) (self : RatioOfUniforms S)
    (h : (feasibleStart self.distribution_ (env.SobolSequence self.distribution_.dimension)
        (toRange self.distribution_.dimension self.distribution_.lowerBound
          self.distribution_.upperBound) self.candidateNumber_ 0).start.length ≠ 0) :
    Event.run Problem.U self.distribution_.lowerBound self.distribution_.upperBound
        (feasibleStart self.distribution_ (env.SobolSequence self.distribution_.dimension)
          (toRange self.distribution_.dimension self.distribution_.lowerBound
            self.distribution_.upperBound) self.candidateNumber_ 0).start ∈
      ( RatioOfUniforms.initialize env self).trace ∧
    ( RatioOfUniforms.initialize env self).state.supU_ =
      Scalar.exp env.libm (self.optimizationAlgorithm_
        (getMarginal (RatioOfUniformsUBoundEvaluation env self.distribution_ self.r_) 0)
        self.distribution_.lowerBound self.distribution_.upperBound
        (feasibleStart self.distribution_ (env.SobolSequence self.distribution_.dimension)
          (toRange self.distribution_.dimension self.distribution_.lowerBound
            self.distribution_.upperBound) self.candidateNumber_ 0).start) := by
  unfold RatioOfUniforms.initialize
  simp only
  rw [if_neg h]
  refine ⟨?_, rfl⟩
  apply calibrateV_mem
  simp

end TraceGrowth

section ClaimC21

variable {S : Type} [LinearOrderedField S]

/-- C21: `RatioOfUniformsUBoundEvaluation` maps `x` to the vector of one component
`max(-LogMaxScalar, logPDF(x) / (1 + r*d))` (for a finite log-density `p`, a finite `r` and
`1 + r*d` different from zero, the number `max(-LogMaxScalar, p / (1 + r*d))`); and,
whenever `initialize` does not throw the exception of the search for `supU`, it runs the
optimizer on this objective (marginal 0) with the range `[lb, ub]` as bounds, from the
starting point found by the search, and `supU_` is the exponential of the optimal value
returned for that problem. -/
theorem C21_U_objective_and_supU (env : Env S) (self : RatioOfUniforms S) (x : Point S)
    (h : ( RatioOfUniforms.initialize env self).error ≠
      some (infeasible Message.noFeasibleUSup)) :
    RatioOfUniformsUBoundEvaluation env self.distribution_ self.r_ x =
      [Scalar.max (Scalar.fin (-env.LogMaxScalar))
        (Scalar.div (self.distribution_.computeLogPDF x)
          (Scalar.add (Scalar.fin 1)
            (Scalar.mul self.r_ (Scalar.ofNat self.distribution_.dimension))))] ∧
    (∀ p r : S, self.distribution_.computeLogPDF x = Scalar.fin p → self.r_ = Scalar.fin r →
      1 + r * (self.distribution_.dimension : S) ≠ 0 →
      RatioOfUniformsUBoundEvaluation env self.distribution_ self.r_ x =
        [Scalar.fin (max (-env.LogMaxScalar)
          (p / (1 + r * (self.distribution_.dimension : S))))]) ∧
    (∃ start,
      Event.run Problem.U self.distribution_.lowerBound self.distribution_.upperBound start ∈
        ( RatioOfUniforms.initialize env self).trace ∧
      ( RatioOfUniforms.initialize env self).state.supU_ =
        Scalar.exp env.libm (self.optimizationAlgorithm_
          (getMarginal (RatioOfUniformsUBoundEvaluation env self.distribution_ self.r_) 0)
          self.distribution_.lowerBound self.distribution_.upperBound start)) := by
  refine ⟨rfl, ?_, ?_⟩
  · intro p r hp hr hne
    simp only [RatioOfUniformsUBoundEvaluation, hp, hr, Scalar.ofNat, Scalar.mul, Scalar.add,
      Scalar.div, hne, if_false, Scalar.max, Scalar.lt]
    by_cases hlt : -env.LogMaxScalar < p / (1 + r * (self.distribution_.dimension : S))
    · simp [hlt, max_eq_right (le_of_lt hlt)]
    · simp [hlt, max_eq_left (not_lt.mp hlt)]
  · have hs := (not_congr (initialize_USup_iff env self)).mp h
    exact ⟨_, initialize_supU env self hs⟩

end ClaimC21

/-- C21 (witness): the calibration of a fresh sampler on `uniform01` does not throw; the
statement holds there at the point `x = (1/2)`. -/
theorem C21_U_objective_and_supU_witness :
    ( RatioOfUniforms.initialize
        (exampleEnv (⟨Real.exp, Real.log, fun x y => x ^ y⟩ : Libm ℝ))
        { freshSampler 1 with distribution_ := uniform01 }).error ≠
      some (infeasible Message.noFeasibleUSup) ∧
    RatioOfUniformsUBoundEvaluation
        (exampleEnv (⟨Real.exp, Real.log, fun x y => x ^ y⟩ : Libm ℝ))
        (uniform01 : Distribution ℝ) (Scalar.fin 1) [Scalar.fin (1 / 2)] =
      [Scalar.max (Scalar.fin (-709))
        (Scalar.div ((uniform01 : Distribution ℝ).computeLogPDF [Scalar.fin (1 / 2)])
          (Scalar.add (Scalar.fin 1) (Scalar.mul (Scalar.fin 1) (Scalar.ofNat 1))))] := by
  have herr : ( RatioOfUniforms.initialize
        (exampleEnv (⟨Real.exp, Real.log, fun x y => x ^ y⟩ : Libm ℝ))
        { freshSampler 1 with distribution_ := uniform01 }).error ≠
      some (infeasible Message.noFeasibleUSup) := by
    rw [← setDistribution_eq_initialize _ _ _ uniform01_isContinuous, eval_uniform01]
    simp
  exact ⟨herr, (C21_U_objective_and_supU _ _ [Scalar.fin (1 / 2)] herr).1⟩

section ClaimC22

variable {S : Type} [LinearOrderedField S]

/-- The function `std::max(-LogMaxScalar, y)` returns a value that is not below
`-LogMaxScalar`. -/
theorem Scalar.le_max_fin (a : S) (y : Scalar S) :
    Scalar.le (Scalar.fin a) (Scalar.max (Scalar.fin a) y) = true := by
  unfold Scalar.max
  cases y <;> simp [Scalar.lt, Scalar.le]
  rename_i b
  by_cases h : a < b
  · simp [h, Scalar.le, le_of_lt h]
  · simp [h, Scalar.le]

/-- The function `std::max(-LogMaxScalar, y)` returns `-LogMaxScalar` when `y` is `-inf` or
`NaN`. -/
theorem Scalar.max_fin_of_not_above (a : S) (y : Scalar S)
    (h : y = Scalar.ninf ∨ y = Scalar.nan) :
    Scalar.max (Scalar.fin a) y = Scalar.fin a := by
  rcases h with h | h <;> subst h <;> simp [Scalar.max, Scalar.lt]

/-- A sum whose second term is `-inf` is `-inf` or `NaN`. -/
theorem Scalar.add_ninf (v : Scalar S) :
    Scalar.add v Scalar.ninf = Scalar.ninf ∨ Scalar.add v Scalar.ninf = Scalar.nan := by
  cases v <;> simp [Scalar.add]

/-- A sum whose first term is `-inf` or `NaN` is `-inf` or `NaN`. -/
theorem Scalar.add_of_not_above (v w : Scalar S) (h : v = Scalar.ninf ∨ v = Scalar.nan) :
    Scalar.add v w = Scalar.ninf ∨ Scalar.add v w = Scalar.nan := by
  rcases h with h | h <;> subst h <;> cases w <;> simp [Scalar.add]

/-- The value `logPDF * r / (1 + r*d)` for a log-density `-inf`, a strictly positive `r`
and `d >= 1`: it is `-inf` or `NaN`. -/
theorem Scalar.scaled_ninf (r : Scalar S) (d : Nat) (hd : 1 ≤ d)
    (hr : Scalar.lt (Scalar.fin 0) r = true) :
    Scalar.div (Scalar.mul Scalar.ninf r)
        (Scalar.add (Scalar.fin 1) (Scalar.mul r (Scalar.ofNat d))) = Scalar.ninf ∨
    Scalar.div (Scalar.mul Scalar.ninf r)
        (Scalar.add (Scalar.fin 1) (Scalar.mul r (Scalar.ofNat d))) = Scalar.nan := by
  have hd0 : (0 : S) < (d : S) := by exact_mod_cast hd
  cases r with
  | nan => simp [Scalar.lt] at hr
  | ninf => simp [Scalar.lt] at hr
  | pinf =>
    right
    simp [Scalar.mul, Scalar.ofNat, Scalar.signedInf, ne_of_gt hd0, hd0, Scalar.add,
      Scalar.div]
  | fin r =>
    have hr0 : (0 : S) < r := by simpa [Scalar.lt] using hr
    have hden : ¬ (1 + r * (d : S) < 0) := by
      have : 0 ≤ r * (d : S) := le_of_lt (mul_pos hr0 hd0)
      linarith
    left
    simp [Scalar.mul, Scalar.ofNat, Scalar.signedInf, ne_of_gt hr0, not_lt.mpr (le_of_lt hr0),
      Scalar.add, Scalar.div, hden]

/-- C22: `RatioOfUniformsVBoundEvaluation` (and its copy
`RatioOfUniformsExperimentVBoundEvaluation`) maps a point `x` to a vector of `d` components
whose component `i` is `max(-LogMaxScalar, logPDF(x) * r / (1 + r*d) + log|x_i|)`; this
component is `-LogMaxScalar` when `x_i = 0`, and also when `logPDF(x) = -inf` and `r > 0`;
every component is `>= -LogMaxScalar`. -/
theorem C22_V_objective (env : Env S) (distribution : Distribution S) (r : Scalar S)
    (x : Point S) (i : Nat) (hi : i < distribution.dimension) :
    (RatioOfUniformsVBoundEvaluation env distribution r x).length = distribution.dimension ∧
    RatioOfUniformsExperimentVBoundEvaluation env distribution r x =
      RatioOfUniformsVBoundEvaluation env distribution r x ∧
    (RatioOfUniformsVBoundEvaluation env distribution r x).get i =
      Scalar.max (Scalar.fin (-env.LogMaxScalar))
        (Scalar.add
          (Scalar.div (Scalar.mul (distribution.computeLogPDF x) r)
            (Scalar.add (Scalar.fin 1) (Scalar.mul r (Scalar.ofNat distribution.dimension))))
          (Scalar.log env.libm (Scalar.abs (x.get i)))) ∧
    (x.get i = Scalar.fin 0 →
      (RatioOfUniformsVBoundEvaluation env distribution r x).get i =
        Scalar.fin (-env.LogMaxScalar)) ∧
    (distribution.computeLogPDF x = Scalar.ninf → Scalar.lt (Scalar.fin 0) r = true →
      (RatioOfUniformsVBoundEvaluation env distribution r x).get i =
        Scalar.fin (-env.LogMaxScalar)) ∧
    Scalar.le (Scalar.fin (-env.LogMaxScalar))
      ((RatioOfUniformsVBoundEvaluation env distribution r x).get i) = true := by
  have hget : (RatioOfUniformsVBoundEvaluation env distribution r x).get i =
      Scalar.max (Scalar.fin (-env.LogMaxScalar))
        (Scalar.add
          (Scalar.div (Scalar.mul (distribution.computeLogPDF x) r)
            (Scalar.add (Scalar.fin 1) (Scalar.mul r (Scalar.ofNat distribution.dimension))))
          (Scalar.log env.libm (Scalar.abs (x.get i)))) := by
    simp only [RatioOfUniformsVBoundEvaluation]
    rw [Point.get_map_range _ _ _ hi]
  refine ⟨by simp [RatioOfUniformsVBoundEvaluation], rfl, hget, ?_, ?_, ?_⟩
  · intro hx
    rw [hget, hx]
    apply Scalar.max_fin_of_not_above
    have hlog : Scalar.log env.libm (Scalar.abs (Scalar.fin (0 : S))) = Scalar.ninf := by
      simp [Scalar.abs, Scalar.log]
    rw [hlog]
    exact Scalar.add_ninf _
  · intro hp hr
    rw [hget, hp]
    apply Scalar.max_fin_of_not_above
    exact Scalar.add_of_not_above _ _ (Scalar.scaled_ninf r distribution.dimension (by omega) hr)
  · rw [hget]
    exact Scalar.le_max_fin _ _

end ClaimC22

/-- C22 (witness): the objective of `uniform01` (`d = 1`) with `r = 1` at the point
`x = (0)`: its component 0 is `-LogMaxScalar = -709`. -/
theorem C22_V_objective_witness :
    0 < (uniform01 : Distribution ℝ).dimension ∧
    (RatioOfUniformsVBoundEvaluation
        (exampleEnv (⟨Real.exp, Real.log, fun x y => x ^ y⟩ : Libm ℝ))
        uniform01 (Scalar.fin 1) [Scalar.fin 0]).get 0 = Scalar.fin (-709) :=
  ⟨by decide, (C22_V_objective (exampleEnv (⟨Real.exp, Real.log, fun x y => x ^ y⟩ : Libm ℝ))
    uniform01 (Scalar.fin 1) [Scalar.fin 0] 0 (by decide)).2.2.2.1 rfl⟩

section RunLemmas

variable {S : Type} [LinearOrderedField S]

omit [LinearOrderedField S] in
theorem runProblems_append (a b : List (Event S)) :
    runProblems (a ++ b) = runProblems a ++ runProblems b := by
  induction a with
  | nil => rfl
  | cons e a ih => cases e <;> simp [runProblems, ih]

omit [LinearOrderedField S] in
theorem runProblems_length (t : List (Event S)) :
    (runProblems t).length = optimizerRuns t := by
  induction t with
  | nil => rfl
  | cons e t ih => cases e <;> simp [runProblems, optimizerRuns, ih]

omit [LinearOrderedField S] in
/-- A feasible-point search never runs the optimizer. -/
theorem feasibleStart_runProblems (distribution : Distribution S) (sequence : Nat → Point S)
    (toBox : Point S → Point S) (n pos : Nat) :
    runProblems (feasibleStart distribution sequence toBox n pos).trace = [] := by
  apply List.eq_nil_of_length_eq_zero
  rw [runProblems_length]
  exact (feasibleStart_trace distribution sequence toBox n pos).2.2.2.2

/-- The block `if (ub[i] > 0.0)`, when it does not throw, runs the optimizer on the problem
of `supV[i]` exactly when `ub[i] > 0`. -/
theorem calibrateSupV_runProblems (env : Env S) (distribution : Distribution S)
    (objectiveV : Point S → Point S) (opt : OptimizationAlgorithm S) (n i : Nat)
    (c : Calibration S)
    (h : (calibrateSupV env distribution objectiveV opt n i c).error = none) :
    runProblems (calibrateSupV env distribution objectiveV opt n i c).trace =
      runProblems c.trace ++
        (if Scalar.lt (Scalar.fin 0) (distribution.upperBound.get i) then [Problem.VSup i]
          else []) := by
  unfold calibrateSupV at h ⊢
  simp only at h ⊢
  split
  · rename_i hub
    rw [if_pos hub] at h
    split
    · rename_i hs
      rw [if_pos hs] at h
      simp at h
    · simp [runProblems_append, feasibleStart_runProblems, runProblems]
  · simp

/-- The block `if (lb[i] < 0.0)`, when it does not throw, runs the optimizer on the problem
of `infV[i]` exactly when `lb[i] < 0`. -/
theorem calibrateInfV_runProblems (env : Env S) (distribution : Distribution S)
    (objectiveV : Point S → Point S) (opt : OptimizationAlgorithm S) (n i : Nat)
    (c : Calibration S)
    (h : (calibrateInfV env distribution objectiveV opt n i c).error = none) :
    runProblems (calibrateInfV env distribution objectiveV opt n i c).trace =
      runProblems c.trace ++
        (if Scalar.lt (distribution.lowerBound.get i) (Scalar.fin 0) then [Problem.VInf i]
          else []) := by
  unfold calibrateInfV at h ⊢
  simp only at h ⊢
  split
  · rename_i hlb
    rw [if_pos hlb] at h
    split
    · rename_i hs
      rw [if_pos hs] at h
      simp at h
    · simp [runProblems_append, feasibleStart_runProblems, runProblems]
  · simp

/-- The loop on `i`, when it does not throw, runs the optimizer on the problems of
`sidesToCalibrate`, in order. -/
theorem calibrateV_runProblems (env : Env S) (distribution : Distribution S)
    (objectiveV : Point S → Point S) (opt : OptimizationAlgorithm S) (n : Nat)
    (indices : List Nat) (c : Calibration S) (hc : c.error = none)
    (h : (calibrateV env distribution objectiveV opt n indices c).error = none) :
    runProblems (calibrateV env distribution objectiveV opt n indices c).trace =
      runProblems c.trace ++ sidesToCalibrate distribution indices := by
  induction indices generalizing c with
  | nil => simp [calibrateV, sidesToCalibrate]
  | cons i rest ih =>
    simp only [calibrateV] at h ⊢
    split at h
    · rename_i e he
      rw [he] at h
      simp at h
    · rename_i he1
      split at h
      · rename_i e he
        rw [he] at h
        simp at h
      · rename_i he2
        rw [ih _ he2 h, calibrateInfV_runProblems _ _ _ _ _ _ _ he2,
          calibrateSupV_runProblems _ _ _ _ _ _ _ he1]
        simp [sidesToCalibrate]

/-- A successful `initialize` runs the optimizer on the problem U, then on the problems of
`sidesToCalibrate`, in order. -/
theorem initialize_runProblems (env : Env S) (self : RatioOfUniforms S)
    (h : ( RatioOfUniforms.initialize env self).error = none) :
    runProblems ( RatioOfUniforms.initialize env self).trace =
      Problem.U :: sidesToCalibrate self.distribution_
        (List.range self.distribution_.dimension) := by
  unfold RatioOfUniforms.initialize at h ⊢
  simp only at h ⊢
  split at h
  · simp at h
  · rename_i hs
    rw [if_neg hs, calibrateV_runProblems _ _ _ _ _ _ _ rfl h]
    simp [runProblems_append, feasibleStart_runProblems, runProblems]

/-- The number of problems of `sidesToCalibrate`: one per index with `ub[i] > 0` and one
per index with `lb[i] < 0`. -/
theorem sidesToCalibrate_length (distribution : Distribution S) (indices : List Nat) :
    (sidesToCalibrate distribution indices).length =
      (indices.filter fun i =>
        Scalar.lt (Scalar.fin 0) (distribution.upperBound.get i)).length +
      (indices.filter fun i =>
        Scalar.lt (distribution.lowerBound.get i) (Scalar.fin 0)).length := by
  induction indices with
  | nil => rfl
  | cons i rest ih =>
    simp only [sidesToCalibrate, List.length_append, ih, List.filter_cons]
    by_cases h1 : Scalar.lt (Scalar.fin 0) (distribution.upperBound.get i) = true <;>
      by_cases h2 : Scalar.lt (distribution.lowerBound.get i) (Scalar.fin 0) = true <;>
      simp [h1, h2] <;> omega

end RunLemmas
section SideLemmas

variable {S : Type} [LinearOrderedField S]

/-- The block `if (ub[i] > 0.0)` leaves the entry `k` of `supV_` as it was, unless `k = i`
and `ub[i] > 0`. -/
theorem calibrateSupV_keeps (env : Env S) (distribution : Distribution S)
    (objectiveV : Point S → Point S) (opt : OptimizationAlgorithm S) (n i k : Nat)
    (c : Calibration S)
    (h : i = k → Scalar.lt (Scalar.fin 0) (distribution.upperBound.get k) ≠ true) :
    (calibrateSupV env distribution objectiveV opt n i c).supV_.get k = c.supV_.get k := by
  unfold calibrateSupV
  simp only
  split
  · rename_i hub
    split
    · rfl
    · have hik : ¬ (i = k ∧ k < c.supV_.length) := by
        rintro ⟨hik, _⟩
        subst hik
        exact h rfl hub
      simp only [Point.get_set, if_neg hik]
  · rfl

/-- The block `if (lb[i] < 0.0)` leaves the entry `k` of `infV_` as it was, unless `k = i`
and `lb[i] < 0`. -/
theorem calibrateInfV_keeps (env : Env S) (distribution : Distribution S)
    (objectiveV : Point S → Point S) (opt : OptimizationAlgorithm S) (n i k : Nat)
    (c : Calibration S)
    (h : i = k → Scalar.lt (distribution.lowerBound.get k) (Scalar.fin 0) ≠ true) :
    (calibrateInfV env distribution objectiveV opt n i c).infV_.get k = c.infV_.get k := by
  unfold calibrateInfV
  simp only
  split
  · rename_i hlb
    split
    · rfl
    · have hik : ¬ (i = k ∧ k < c.infV_.length) := by
        rintro ⟨hik, _⟩
        subst hik
        exact h rfl hlb
      simp only [Point.get_set, if_neg hik]
  · rfl

/-- The loop on `i` leaves the entry `k` of `supV_` as it was when the index `k` is not
visited or `ub[k] > 0` fails. -/
theorem calibrateV_keeps_supV (env : Env S) (distribution : Distribution S)
    (objectiveV : Point S → Point S) (opt : OptimizationAlgorithm S) (n : Nat)
    (indices : List Nat) (k : Nat) (c : Calibration S)
    (h : k ∈ indices → Scalar.lt (Scalar.fin 0) (distribution.upperBound.get k) ≠ true) :
    (calibrateV env distribution objectiveV opt n indices c).supV_.get k = c.supV_.get k := by
  induction indices generalizing c with
  | nil => rfl
  | cons i rest ih =>
    have h1 := calibrateSupV_keeps env distribution objectiveV opt n i k c
      (fun hik => h (by simp [hik]))
    have h2 := calibrateInfV_supV env distribution objectiveV opt n i
      (calibrateSupV env distribution objectiveV opt n i c)
    simp only [calibrateV]
    split
    · exact h1
    · split
      · rw [h2, h1]
      · rw [ih _ (fun hk => h (List.mem_cons_of_mem _ hk)), h2, h1]

/-- The loop on `i` leaves the entry `k` of `infV_` as it was when the index `k` is not
visited or `lb[k] < 0` fails. -/
theorem calibrateV_keeps_infV (env : Env S) (distribution : Distribution S)
    (objectiveV : Point S → Point S) (opt : OptimizationAlgorithm S) (n : Nat)
    (indices : List Nat) (k : Nat) (c : Calibration S)
    (h : k ∈ indices → Scalar.lt (distribution.lowerBound.get k) (Scalar.fin 0) ≠ true) :
    (calibrateV env distribution objectiveV opt n indices c).infV_.get k = c.infV_.get k := by
  induction indices generalizing c with
  | nil => rfl
  | cons i rest ih =>
    have h1 := calibrateSupV_infV env distribution objectiveV opt n i c
    have h2 := calibrateInfV_keeps env distribution objectiveV opt n i k
      (calibrateSupV env distribution objectiveV opt n i c) (fun hik => h (by simp [hik]))
    simp only [calibrateV]
    split
    · rw [h1]
    · split
      · rw [h2, h1]
      · rw [ih _ (fun hk => h (List.mem_cons_of_mem _ hk)), h2, h1]

/-- The block `if (ub[i] > 0.0)`, when `ub[i] > 0` and it does not throw: the optimizer is
run on the problem of `supV[i]` over `Interval(zero, ub)` and `supV_[i]` is the
exponential of the optimal value. -/
theorem calibrateSupV_assigns (env : Env S) (distribution : Distribution S)
    (objectiveV : Point S → Point S) (opt : OptimizationAlgorithm S) (n i : Nat)
    (c : Calibration S)
    (hub : Scalar.lt (Scalar.fin 0) (distribution.upperBound.get i) = true)
    (hi : i < c.supV_.length)
    (h : (calibrateSupV env distribution objectiveV opt n i c).error = none) :
    ∃ start,
      Event.run (Problem.VSup i) (Point.const distribution.dimension (Scalar.fin 0))
          distribution.upperBound start ∈
        (calibrateSupV env distribution objectiveV opt n i c).trace ∧
      (calibrateSupV env distribution objectiveV opt n i c).supV_.get i =
        Scalar.exp env.libm (opt (getMarginal objectiveV i)
          (Point.const distribution.dimension (Scalar.fin 0)) distribution.upperBound
          start) := by
  unfold calibrateSupV at h ⊢
  simp only at h ⊢
  rw [if_pos hub] at h ⊢
  split at h
  · simp at h
  · rename_i hs
    rw [if_neg hs]
    refine ⟨_, List.mem_append_right _ (List.mem_singleton.mpr rfl), ?_⟩
    simp only [Point.get_set]
    rw [if_pos ⟨trivial, hi⟩]

/-- The block `if (lb[i] < 0.0)`, when `lb[i] < 0` and it does not throw: the optimizer is
run on the problem of `infV[i]` over `Interval(lb, zero)` and `infV_[i]` is the opposite of
the exponential of the optimal value. -/
theorem calibrateInfV_assigns (env : Env S) (distribution : Distribution S)
    (objectiveV : Point S → Point S) (opt : OptimizationAlgorithm S) (n i : Nat)
    (c : Calibration S)
    (hlb : Scalar.lt (distribution.lowerBound.get i) (Scalar.fin 0) = true)
    (hi : i < c.infV_.length)
    (h : (calibrateInfV env distribution objectiveV opt n i c).error = none) :
    ∃ start,
      Event.run (Problem.VInf i) distribution.lowerBound
          (Point.const distribution.dimension (Scalar.fin 0)) start ∈
        (calibrateInfV env distribution objectiveV opt n i c).trace ∧
      (calibrateInfV env distribution objectiveV opt n i c).infV_.get i =
        Scalar.neg (Scalar.exp env.libm (opt (getMarginal objectiveV i)
          distribution.lowerBound (Point.const distribution.dimension (Scalar.fin 0))
          start)) := by
  unfold calibrateInfV at h ⊢
  simp only at h ⊢
  rw [if_pos hlb] at h ⊢
  split at h
  · simp at h
  · rename_i hs
    rw [if_neg hs]
    refine ⟨_, List.mem_append_right _ (List.mem_singleton.mpr rfl), ?_⟩
    simp only [Point.get_set]
    rw [if_pos ⟨trivial, hi⟩]

/-- After a loop on distinct indices that ends without exception, for every visited index
`k`: when `ub[k] > 0` the optimizer was run on the problem of `supV[k]` over
`Interval(zero, ub)` and `supV_[k]` is the exponential of the optimal value of that run;
when `lb[k] < 0` the same holds for `infV_[k]`, the box `Interval(lb, zero)` and the
opposite of the exponential. -/
theorem calibrateV_assigns (env : Env S) (distribution : Distribution S)
    (objectiveV : Point S → Point S) (opt : OptimizationAlgorithm S) (n : Nat)
    (indices : List Nat) (k : Nat) (c : Calibration S) (hnodup : indices.Nodup)
    (hk : k ∈ indices)
    (h : (calibrateV env distribution objectiveV opt n indices c).error = none) :
    (Scalar.lt (Scalar.fin 0) (distribution.upperBound.get k) = true → k < c.supV_.length →
      ∃ start,
        Event.run (Problem.VSup k) (Point.const distribution.dimension (Scalar.fin 0))
            distribution.upperBound start ∈
          (calibrateV env distribution objectiveV opt n indices c).trace ∧
        (calibrateV env distribution objectiveV opt n indices c).supV_.get k =
          Scalar.exp env.libm (opt (getMarginal objectiveV k)
            (Point.const distribution.dimension (Scalar.fin 0)) distribution.upperBound
            start)) ∧
    (Scalar.lt (distribution.lowerBound.get k) (Scalar.fin 0) = true → k < c.infV_.length →
      ∃ start,
        Event.run (Problem.VInf k) distribution.lowerBound
            (Point.const distribution.dimension (Scalar.fin 0)) start ∈
          (calibrateV env distribution objectiveV opt n indices c).trace ∧
        (calibrateV env distribution objectiveV opt n indices c).infV_.get k =
          Scalar.neg (Scalar.exp env.libm (opt (getMarginal objectiveV k)
            distribution.lowerBound (Point.const distribution.dimension (Scalar.fin 0))
            start))) := by
  induction indices generalizing c with
  | nil => simp at hk
  | cons i rest ih =>
    obtain ⟨hirest, hrest⟩ := List.nodup_cons.mp hnodup
    simp only [calibrateV] at h ⊢
    split at h
    · rename_i e he
      rw [he] at h
      simp at h
    · rename_i he1
      split at h
      · rename_i e he
        rw [he] at h
        simp at h
      · rename_i he2
        have hlen1 := calibrateSupV_supV_length env distribution objectiveV opt n i c
        have hlen2 := calibrateInfV_infV_length env distribution objectiveV opt n i
          (calibrateSupV env distribution objectiveV opt n i c)
        have hs2 := calibrateSupV_infV env distribution objectiveV opt n i c
        have hi2 := calibrateInfV_supV env distribution objectiveV opt n i
          (calibrateSupV env distribution objectiveV opt n i c)
        by_cases hki : k = i
        · subst hki
          constructor
          · intro hub hlen
            obtain ⟨start, hmem, hval⟩ :=
              calibrateSupV_assigns env distribution objectiveV opt n k c hub hlen he1
            refine ⟨start, ?_, ?_⟩
            · exact calibrateV_mem _ _ _ _ _ _ _ _ (calibrateInfV_mem _ _ _ _ _ _ _ _ hmem)
            · rw [calibrateV_keeps_supV _ _ _ _ _ _ _ _ (fun hmem => absurd hmem hirest),
                hi2, hval]
          · intro hlb hlen
            obtain ⟨start, hmem, hval⟩ :=
              calibrateInfV_assigns env distribution objectiveV opt n k
                (calibrateSupV env distribution objectiveV opt n k c) hlb
                (by rw [hs2]; exact hlen) he2
            refine ⟨start, ?_, ?_⟩
            · exact calibrateV_mem _ _ _ _ _ _ _ _ hmem
            · rw [calibrateV_keeps_infV _ _ _ _ _ _ _ _ (fun hmem => absurd hmem hirest),
                hval]
        · have hk2 : k ∈ rest := by
            rcases List.mem_cons.mp hk with h1 | h1
            · exact absurd h1 hki
            · exact h1
          obtain ⟨ih1, ih2⟩ := ih _ hrest hk2 h
          exact ⟨fun hub hlen => ih1 hub (by rw [hi2, hlen1]; exact hlen),
            fun hlb hlen => ih2 hlb (by rw [hlen2, hs2]; exact hlen)⟩

end SideLemmas
section ClaimC23

variable {S : Type} [LinearOrderedField S]

omit [LinearOrderedField S] in
theorem mem_runProblems (t : List (Event S)) (p : Problem) (lb ub start : Point S)
    (h : Event.run p lb ub start ∈ t) : p ∈ runProblems t := by
  induction t with
  | nil => simp at h
  | cons e t ih =>
    rcases List.mem_cons.mp h with h1 | h1
    · subst h1
      simp [runProblems]
    · cases e <;> simp [runProblems, ih h1]

theorem mem_sidesToCalibrate_sup (distribution : Distribution S) (indices : List Nat)
    (k : Nat) (h : Problem.VSup k ∈ sidesToCalibrate distribution indices) :
    Scalar.lt (Scalar.fin 0) (distribution.upperBound.get k) = true := by
  induction indices with
  | nil => simp [sidesToCalibrate] at h
  | cons i rest ih =>
    simp only [sidesToCalibrate, List.mem_append] at h
    rcases h with (h | h) | h
    · split at h
      · rename_i hub
        simp at h
        subst h
        exact hub
      · simp at h
    · split at h <;> simp at h
    · exact ih h

theorem mem_sidesToCalibrate_inf (distribution : Distribution S) (indices : List Nat)
    (k : Nat) (h : Problem.VInf k ∈ sidesToCalibrate distribution indices) :
    Scalar.lt (distribution.lowerBound.get k) (Scalar.fin 0) = true := by
  induction indices with
  | nil => simp [sidesToCalibrate] at h
  | cons i rest ih =>
    simp only [sidesToCalibrate, List.mem_append] at h
    rcases h with (h | h) | h
    · split at h <;> simp at h
    · split at h
      · rename_i hlb
        simp at h
        subst h
        exact hlb
      · simp at h
    · exact ih h

/-- C23: in an `initialize` that throws nothing, the optimizer is run on the problem U,
then, for `i = 0, ..., d-1` in order, on the problem of `supV[i]` exactly when `ub[i] > 0`
and on the problem of `infV[i]` exactly when `lb[i] < 0`: that is
`1 + #{i : ub[i] > 0} + #{i : lb[i] < 0}` runs, and `1 + 2d` when every `lb[i] < 0 < ub[i]`.
When `ub[i] > 0`, `supV_[i]` is the exponential of the optimal value of the marginal `i` of
the V objective over `Interval(zero, ub)`; otherwise no such problem is run and `supV_[i]`
is the entry left by `resize`.  When `lb[i] < 0`, `infV_[i]` is the opposite of the
exponential of the optimal value over `Interval(lb, zero)`; otherwise no such problem is
run and `infV_[i]` is the entry left by `resize`. -/
theorem C23_calibrated_sides (env : Env S) (self : RatioOfUniforms S)
    (h : ( RatioOfUniforms.initialize env self).error = none) :
    runProblems ( RatioOfUniforms.initialize env self).trace =
      Problem.U :: sidesToCalibrate self.distribution_
        (List.range self.distribution_.dimension) ∧
    optimizerRuns ( RatioOfUniforms.initialize env self).trace =
      1 + ((List.range self.distribution_.dimension).filter fun i =>
            Scalar.lt (Scalar.fin 0) (self.distribution_.upperBound.get i)).length +
          ((List.range self.distribution_.dimension).filter fun i =>
            Scalar.lt (self.distribution_.lowerBound.get i) (Scalar.fin 0)).length ∧
    ((∀ i, i < self.distribution_.dimension →
        Scalar.lt (self.distribution_.lowerBound.get i) (Scalar.fin 0) = true ∧
        Scalar.lt (Scalar.fin 0) (self.distribution_.upperBound.get i) = true) →
      optimizerRuns ( RatioOfUniforms.initialize env self).trace =
        1 + 2 * self.distribution_.dimension) ∧
    ∀ i, i < self.distribution_.dimension →
      (Scalar.lt (Scalar.fin 0) (self.distribution_.upperBound.get i) = true →
        ∃ start,
          Event.run (Problem.VSup i)
              (Point.const self.distribution_.dimension (Scalar.fin 0))
              self.distribution_.upperBound start ∈
            ( RatioOfUniforms.initialize env self).trace ∧
          ( RatioOfUniforms.initialize env self).state.supV_.get i =
            Scalar.exp env.libm (self.optimizationAlgorithm_
              (getMarginal
                (RatioOfUniformsVBoundEvaluation env self.distribution_ self.r_) i)
              (Point.const self.distribution_.dimension (Scalar.fin 0))
              self.distribution_.upperBound start)) ∧
      (Scalar.lt (Scalar.fin 0) (self.distribution_.upperBound.get i) ≠ true →
        (∀ lb ub start, Event.run (Problem.VSup i) lb ub start ∉
          ( RatioOfUniforms.initialize env self).trace) ∧
        ( RatioOfUniforms.initialize env self).state.supV_.get i =
          (self.supV_.resize self.distribution_.dimension).get i) ∧
      (Scalar.lt (self.distribution_.lowerBound.get i) (Scalar.fin 0) = true →
        ∃ start,
          Event.run (Problem.VInf i) self.distribution_.lowerBound
              (Point.const self.distribution_.dimension (Scalar.fin 0)) start ∈
            ( RatioOfUniforms.initialize env self).trace ∧
          ( RatioOfUniforms.initialize env self).state.infV_.get i =
            Scalar.neg (Scalar.exp env.libm (self.optimizationAlgorithm_
              (getMarginal
                (RatioOfUniformsVBoundEvaluation env self.distribution_ self.r_) i)
              self.distribution_.lowerBound
              (Point.const self.distribution_.dimension (Scalar.fin 0)) start))) ∧
      (Scalar.lt (self.distribution_.lowerBound.get i) (Scalar.fin 0) ≠ true →
        (∀ lb ub start, Event.run (Problem.VInf i) lb ub start ∉
          ( RatioOfUniforms.initialize env self).trace) ∧
        ( RatioOfUniforms.initialize env self).state.infV_.get i =
          (self.infV_.resize self.distribution_.dimension).get i) := by
  have hrun := initialize_runProblems env self h
  have hcount : optimizerRuns ( RatioOfUniforms.initialize env self).trace =
      1 + ((List.range self.distribution_.dimension).filter fun i =>
            Scalar.lt (Scalar.fin 0) (self.distribution_.upperBound.get i)).length +
          ((List.range self.distribution_.dimension).filter fun i =>
            Scalar.lt (self.distribution_.lowerBound.get i) (Scalar.fin 0)).length := by
    rw [← runProblems_length, hrun, List.length_cons, sidesToCalibrate_length]
    omega
  refine ⟨hrun, hcount, ?_, ?_⟩
  · intro hall
    rw [hcount, List.filter_eq_self.mpr, List.filter_eq_self.mpr, List.length_range]
    · omega
    · intro i hi
      exact (hall i (List.mem_range.mp hi)).1
    · intro i hi
      exact (hall i (List.mem_range.mp hi)).2
  · intro i hi
    have hnosup : Scalar.lt (Scalar.fin 0) (self.distribution_.upperBound.get i) ≠ true →
        ∀ lb ub start, Event.run (Problem.VSup i) lb ub start ∉
          ( RatioOfUniforms.initialize env self).trace := by
      intro hub lb ub start hmem
      have hp := mem_runProblems _ _ _ _ _ hmem
      rw [hrun] at hp
      rcases List.mem_cons.mp hp with hp | hp
      · cases hp
      · exact hub (mem_sidesToCalibrate_sup _ _ _ hp)
    have hnoinf : Scalar.lt (self.distribution_.lowerBound.get i) (Scalar.fin 0) ≠ true →
        ∀ lb ub start, Event.run (Problem.VInf i) lb ub start ∉
          ( RatioOfUniforms.initialize env self).trace := by
      intro hlb lb ub start hmem
      have hp := mem_runProblems _ _ _ _ _ hmem
      rw [hrun] at hp
      rcases List.mem_cons.mp hp with hp | hp
      · cases hp
      · exact hlb (mem_sidesToCalibrate_inf _ _ _ hp)
    unfold RatioOfUniforms.initialize at h hnosup hnoinf ⊢
    simp only at h hnosup hnoinf ⊢
    split at h
    · simp at h
    · rename_i hs
      rw [if_neg hs] at hnosup hnoinf ⊢
      obtain ⟨ha1, ha2⟩ := calibrateV_assigns env self.distribution_ _ _ _ _ i _
        (List.nodup_range _) (List.mem_range.mpr hi) h
      refine ⟨fun hub => ha1 hub (by simp [Point.resize_length, hi]),
        fun hub => ⟨hnosup hub, ?_⟩,
        fun hlb => ha2 hlb (by simp [Point.resize_length, hi]),
        fun hlb => ⟨hnoinf hlb, ?_⟩⟩
      · exact calibrateV_keeps_supV _ _ _ _ _ _ _ _ (fun _ => hub)
      · exact calibrateV_keeps_infV _ _ _ _ _ _ _ _ (fun _ => hlb)

end ClaimC23

/-- C23 (witness): the calibration of a fresh sampler (three candidates) on `twoIntervals`
(`d = 1`, range `[-1, 1]`) throws nothing, and the optimizer is run `1 + 2*1` times. -/
theorem C23_calibrated_sides_witness :
    ( RatioOfUniforms.initialize
        (exampleEnv (⟨Real.exp, Real.log, fun x y => x ^ y⟩ : Libm ℝ))
        { freshSampler 3 with distribution_ := twoIntervals }).error = none ∧
    optimizerRuns ( RatioOfUniforms.initialize
        (exampleEnv (⟨Real.exp, Real.log, fun x y => x ^ y⟩ : Libm ℝ))
        { freshSampler 3 with distribution_ := twoIntervals }).trace = 1 + 2 * 1 := by
  have herr : ( RatioOfUniforms.initialize
        (exampleEnv (⟨Real.exp, Real.log, fun x y => x ^ y⟩ : Libm ℝ))
        { freshSampler 3 with distribution_ := twoIntervals }).error = none := by
    rw [← setDistribution_eq_initialize _ _ _ twoIntervals_isContinuous,
      eval_twoIntervals_three]
  refine ⟨herr, (C23_calibrated_sides _ _ herr).2.2.1 ?_⟩
  intro i hi
  have hi1 : i < 1 := hi
  interval_cases i
  constructor
  · show Scalar.lt ((twoIntervals : Distribution ℝ).lowerBound.get 0) (Scalar.fin 0) = true
    rw [twoIntervals_lowerBound]
    simp [Point.get_cons_zero, Scalar.lt]
  · show Scalar.lt (Scalar.fin 0) ((twoIntervals : Distribution ℝ).upperBound.get 0) = true
    rw [twoIntervals_upperBound]
    simp [Point.get_cons_zero, Scalar.lt]

section ClaimC24

variable {S : Type} [LinearOrderedField S]

theorem foldl_add_replicate (a w : S) (n : Nat) :
    (List.replicate n (Scalar.fin w)).foldl Scalar.add (Scalar.fin a) =
      Scalar.fin (a + (n : S) * w) := by
  induction n generalizing a with
  | zero => simp
  | succ n ih =>
    simp only [List.replicate_succ, List.foldl_cons, Scalar.add, ih]
    congr 1
    push_cast
    ring

/-- C24: on an experiment that is initialized (`infV_` not empty), of size `n >= 1`, when
each of the `n` rejection loops meets an accepted pass within the allowed number of passes
(`ks` lists these passes), `generateWithWeights` returns a sample of exactly `n` points, the
candidates of these passes, each of dimension `d`; and the output argument `weights` is the
vector of length `n` whose every entry is `1/n`, of sum 1. -/
theorem C24_uniform_weights (env : Env S) (self : RatioOfUniformsExperiment S)
    (RandomGenerator : Nat → Scalar S) (fuel : Nat) (ks : List Nat)
    (hinit : self.infV_.length ≠ 0) (hn : 1 ≤ self.size_)
    (hlen : ks.length = self.size_)
    (hchain : RatioOfUniforms.AcceptedChain env self.sampler RandomGenerator fuel 0 ks) :
    (∃ sample,
      (RatioOfUniformsExperiment.generateWithWeights env self RandomGenerator fuel).sample =
        Run.returned sample ∧
      sample = ks.map (fun k =>
        (RatioOfUniforms.trialAt env self.sampler RandomGenerator k).result) ∧
      sample.length = self.size_ ∧
      ∀ x, x ∈ sample → x.length = self.distribution_.dimension) ∧
    (RatioOfUniformsExperiment.generateWithWeights env self RandomGenerator fuel).weights =
      List.replicate self.size_ (Scalar.fin (1 / (self.size_ : S))) ∧
    (RatioOfUniformsExperiment.generateWithWeights env self RandomGenerator fuel).weights.length
      = self.size_ ∧
    Point.sum
      (RatioOfUniformsExperiment.generateWithWeights env self RandomGenerator fuel).weights =
      Scalar.fin 1 := by
  have hn0 : (self.size_ : S) ≠ 0 := by
    have : (0 : S) < (self.size_ : S) := by exact_mod_cast hn
    exact ne_of_gt this
  have hw : (RatioOfUniformsExperiment.generateWithWeights env self RandomGenerator
      fuel).weights = List.replicate self.size_ (Scalar.fin (1 / (self.size_ : S))) := by
    unfold RatioOfUniformsExperiment.generateWithWeights
    have hdiv : Scalar.div (Scalar.fin 1) (Scalar.ofNat self.size_) =
        Scalar.fin (1 / (self.size_ : S)) := by
      simp [Scalar.div, Scalar.ofNat, hn0]
    simp only [hdiv, Point.const]
    split
    · rfl
    · split <;> rfl
  have hloop := (sampleLoop_iff env self.sampler RandomGenerator fuel self.size_ 0
    (ks.map fun k => (RatioOfUniforms.trialAt env self.sampler RandomGenerator k).result)).mpr
    ⟨ks, hlen, hchain, rfl⟩
  rw [Nat.zero_mul] at hloop
  refine ⟨⟨_, ?_, rfl, by simp [hlen], ?_⟩, hw, by rw [hw]; simp, ?_⟩
  · unfold RatioOfUniformsExperiment.generateWithWeights
    simp only [if_neg hinit, hloop]
  · intro x hx
    obtain ⟨k, _, hk⟩ := List.mem_map.mp hx
    rw [← hk]
    simp [RatioOfUniforms.trialAt, RatioOfUniforms.trial, RatioOfUniformsExperiment.sampler]
  · rw [hw, Point.sum, foldl_add_replicate]
    congr 1
    field_simp

end ClaimC24

/-- A pass of the rejection loop on `uniform01Experiment` when the uniform source returns
1/2 for ever: `u = 1/2`, the candidate is `(1/2) / (1/2) = 1` and it is accepted, since
`2 * log(1/2) <= 0`. -/
theorem eval_trial_one_half (size pos : Nat) :
    RatioOfUniforms.trial (exampleEnv (⟨Real.exp, Real.log, fun x y => x ^ y⟩ : Libm ℝ))
        (uniform01Experiment size).sampler drawsOneHalf pos =
      { u := Scalar.fin (1 / 2), ur := Scalar.fin (1 / 2), result := [Scalar.fin 1],
        accepted := true } := by
  have hlog : Real.log 2 ≥ 0 := Real.log_nonneg (by norm_num)
  have hl : Real.log (1 / 2) = -Real.log 2 := by rw [one_div, Real.log_inv]
  have h1' : ¬ ((2 : ℝ)⁻¹ < 0) := by norm_num
  norm_num [RatioOfUniforms.trial, RatioOfUniformsExperiment.sampler, uniform01Experiment,
    exampleEnv, drawsOneHalf, uniform01_dimension, range_one, Point.get_cons_zero,
    Scalar.mul, Scalar.pow, Scalar.add, Scalar.sub, Scalar.neg, Scalar.div, Scalar.log,
    Scalar.ofNat, Scalar.le, uniform01_logPDF_fin, Real.rpow_one, h1']
  linarith

/-- C24 (witness): the experiment of size 2 calibrated on `uniform01`, with the uniform
source returning 1/2 for ever: the two first passes are accepted, the sample is made of the
two points `(1)` and the weights are `[1/2, 1/2]`. -/
theorem C24_uniform_weights_witness :
    (uniform01Experiment 2 : RatioOfUniformsExperiment ℝ).infV_.length ≠ 0 ∧
    1 ≤ (uniform01Experiment 2 : RatioOfUniformsExperiment ℝ).size_ ∧
    RatioOfUniforms.AcceptedChain
      (exampleEnv (⟨Real.exp, Real.log, fun x y => x ^ y⟩ : Libm ℝ))
      (uniform01Experiment 2).sampler drawsOneHalf 1 0 [0, 1] ∧
    (RatioOfUniformsExperiment.generateWithWeights
      (exampleEnv (⟨Real.exp, Real.log, fun x y => x ^ y⟩ : Libm ℝ))
      (uniform01Experiment 2) drawsOneHalf 1).weights =
      [Scalar.fin (1 / 2), Scalar.fin (1 / 2)] ∧
    (RatioOfUniformsExperiment.generateWithWeights
      (exampleEnv (⟨Real.exp, Real.log, fun x y => x ^ y⟩ : Libm ℝ))
      (uniform01Experiment 2) drawsOneHalf 1).sample =
      Run.returned [[Scalar.fin 1], [Scalar.fin 1]] := by
  have hchain : RatioOfUniforms.AcceptedChain
      (exampleEnv (⟨Real.exp, Real.log, fun x y => x ^ y⟩ : Libm ℝ))
      (uniform01Experiment 2).sampler drawsOneHalf 1 0 [0, 1] := by
    refine ⟨⟨le_refl _, by omega, ?_, fun j h1 h2 => by omega⟩,
      ⟨le_refl _, by omega, ?_, fun j h1 h2 => by omega⟩, trivial⟩
    · simp only [RatioOfUniforms.trialAt, eval_trial_one_half]
    · simp only [RatioOfUniforms.trialAt, eval_trial_one_half]
  have hinit : (uniform01Experiment 2 : RatioOfUniformsExperiment ℝ).infV_.length ≠ 0 := by
    simp [uniform01Experiment]
  have key := C24_uniform_weights
    (exampleEnv (⟨Real.exp, Real.log, fun x y => x ^ y⟩ : Libm ℝ))
    (uniform01Experiment 2) drawsOneHalf 1 [0, 1] hinit (by simp [uniform01Experiment]) rfl
    hchain
  refine ⟨hinit, by simp [uniform01Experiment], hchain, ?_, ?_⟩
  · rw [key.2.1]
    norm_num [uniform01Experiment, List.replicate]
  · obtain ⟨sample, hs, hmap, _⟩ := key.1
    rw [hs, hmap]
    simp only [List.map, RatioOfUniforms.trialAt, eval_trial_one_half]

section ClaimC25

variable {S : Type} [LinearOrderedField S]

/-- C25: let an experiment and a sampler hold the same `r_` (1 in the experiment), the
same optimizer, the same candidate number and the same `supU_`, `infV_`, `supV_` (empty
vectors before a first calibration).  For a continuous target of dimension `d >= 1`,
`RatioOfUniformsExperiment::setDistribution` and `RatioOfUniforms::initialize` on that
target make the same calls, end the same way and leave the same `supU_`, `infV_`, `supV_`;
and when they throw nothing, `generateWithWeights` and `getSample(size)` give the same
result (the same points, or the same unfinished loop) for every stream of uniform draws
and every number of passes allowed. -/
theorem C25_same_core (env : Env S) (experiment : RatioOfUniformsExperiment S)
    (sampler : RatioOfUniforms S) (distribution : Distribution S)
    (hcont : distribution.isContinuous = true) (hd : 1 ≤ distribution.dimension)
    (hr : sampler.r_ = experiment.r_)
    (hopt : sampler.optimizationAlgorithm_ = experiment.optimizationAlgorithm_)
    (hN : sampler.candidateNumber_ = experiment.candidateNumber_)
    (hsupU : sampler.supU_ = experiment.supU_)
    (hinfV : sampler.infV_ = experiment.infV_)
    (hsupV : sampler.supV_ = experiment.supV_) :
    (RatioOfUniformsExperiment.setDistribution env experiment distribution).state.supU_ =
      ( RatioOfUniforms.initialize env
        { sampler with distribution_ := distribution }).state.supU_ ∧
    (RatioOfUniformsExperiment.setDistribution env experiment distribution).state.infV_ =
      ( RatioOfUniforms.initialize env
        { sampler with distribution_ := distribution }).state.infV_ ∧
    (RatioOfUniformsExperiment.setDistribution env experiment distribution).state.supV_ =
      ( RatioOfUniforms.initialize env
        { sampler with distribution_ := distribution }).state.supV_ ∧
    (RatioOfUniformsExperiment.setDistribution env experiment distribution).error =
      ( RatioOfUniforms.initialize env { sampler with distribution_ := distribution }).error ∧
    (RatioOfUniformsExperiment.setDistribution env experiment distribution).trace =
      ( RatioOfUniforms.initialize env { sampler with distribution_ := distribution }).trace ∧
    ((RatioOfUniformsExperiment.setDistribution env experiment distribution).error = none →
      ∀ (RandomGenerator : Nat → Scalar S) (fuel : Nat),
        (RatioOfUniformsExperiment.generateWithWeights env
          (RatioOfUniformsExperiment.setDistribution env experiment distribution).state
          RandomGenerator fuel).sample =
        RatioOfUniforms.getSample env
          ( RatioOfUniforms.initialize env
            { sampler with distribution_ := distribution }).state
          RandomGenerator fuel
          (RatioOfUniformsExperiment.setDistribution env experiment
            distribution).state.size_) := by
  have hU : RatioOfUniformsExperimentUBoundEvaluation env distribution experiment.r_ =
      RatioOfUniformsUBoundEvaluation env distribution experiment.r_ := rfl
  have hV : RatioOfUniformsExperimentVBoundEvaluation env distribution experiment.r_ =
      RatioOfUniformsVBoundEvaluation env distribution experiment.r_ := rfl
  have hlen := calibrateV_length env distribution
    (RatioOfUniformsVBoundEvaluation env distribution experiment.r_)
    experiment.optimizationAlgorithm_ experiment.candidateNumber_
    (List.range distribution.dimension)
    { infV_ := experiment.infV_.resize distribution.dimension,
      supV_ := experiment.supV_.resize distribution.dimension,
      pos := (feasibleStart distribution (env.SobolSequence distribution.dimension)
        (toRange distribution.dimension distribution.lowerBound distribution.upperBound)
        experiment.candidateNumber_ 0).pos,
      trace := (feasibleStart distribution (env.SobolSequence distribution.dimension)
        (toRange distribution.dimension distribution.lowerBound distribution.upperBound)
        experiment.candidateNumber_ 0).trace ++
        [Event.run Problem.U distribution.lowerBound distribution.upperBound
          (feasibleStart distribution (env.SobolSequence distribution.dimension)
            (toRange distribution.dimension distribution.lowerBound distribution.upperBound)
            experiment.candidateNumber_ 0).start],
      error := none }
  unfold RatioOfUniformsExperiment.setDistribution RatioOfUniforms.initialize
  simp only [hcont, Bool.not_true, Bool.false_eq_true, if_false, hr, hopt, hN, hsupU, hinfV,
    hsupV, hU, hV]
  split
  · refine ⟨rfl, rfl, rfl, rfl, rfl, ?_⟩
    intro h
    simp at h
  · split
    · rename_i e he
      refine ⟨rfl, rfl, rfl, he.symm, rfl, ?_⟩
      intro h
      simp at h
    · rename_i he
      refine ⟨rfl, rfl, rfl, he.symm, rfl, ?_⟩
      intro _ RandomGenerator fuel
      have hne : (calibrateV env distribution
          (RatioOfUniformsVBoundEvaluation env distribution experiment.r_)
          experiment.optimizationAlgorithm_ experiment.candidateNumber_
          (List.range distribution.dimension)
          { infV_ := experiment.infV_.resize distribution.dimension,
            supV_ := experiment.supV_.resize distribution.dimension,
            pos := (feasibleStart distribution (env.SobolSequence distribution.dimension)
              (toRange distribution.dimension distribution.lowerBound
                distribution.upperBound) experiment.candidateNumber_ 0).pos,
            trace := (feasibleStart distribution (env.SobolSequence distribution.dimension)
              (toRange distribution.dimension distribution.lowerBound
                distribution.upperBound) experiment.candidateNumber_ 0).trace ++
              [Event.run Problem.U distribution.lowerBound distribution.upperBound
                (feasibleStart distribution (env.SobolSequence distribution.dimension)
                  (toRange distribution.dimension distribution.lowerBound
                    distribution.upperBound) experiment.candidateNumber_ 0).start],
            error := none }).infV_.length ≠ 0 := by
        rw [hlen.1, Point.resize_length]
        omega
      simp only [RatioOfUniformsExperiment.generateWithWeights, RatioOfUniforms.getSample,
        WeightedExperimentImplementation.setDistribution, if_neg hne,
        RatioOfUniformsExperiment.sampler, hr, hopt, hN]
      split <;> rfl

end ClaimC25

/-- C25 (witness): a fresh experiment of size 1 and a fresh sampler (one candidate each,
`r = 1`, empty vectors) calibrated on `uniform01`: both end with `supU = 1`, `infV = [0]`,
`supV = [1]`. -/
theorem C25_same_core_witness :
    (uniform01 : Distribution ℝ).isContinuous = true ∧
    1 ≤ (uniform01 : Distribution ℝ).dimension ∧
    (freshSampler 1 : RatioOfUniforms ℝ).r_ = (freshExperiment 1 1).r_ ∧
    (freshSampler 1 : RatioOfUniforms ℝ).infV_ = (freshExperiment 1 1).infV_ ∧
    (freshSampler 1 : RatioOfUniforms ℝ).supV_ = (freshExperiment 1 1).supV_ ∧
    (RatioOfUniformsExperiment.setDistribution
        (exampleEnv (⟨Real.exp, Real.log, fun x y => x ^ y⟩ : Libm ℝ))
        (freshExperiment 1 1) uniform01).state.supV_ =
      ( RatioOfUniforms.initialize
        (exampleEnv (⟨Real.exp, Real.log, fun x y => x ^ y⟩ : Libm ℝ))
        { freshSampler 1 with distribution_ := uniform01 }).state.supV_ ∧
    (RatioOfUniformsExperiment.setDistribution
        (exampleEnv (⟨Real.exp, Real.log, fun x y => x ^ y⟩ : Libm ℝ))
        (freshExperiment 1 1) uniform01).state.supV_ = [Scalar.fin 1] := by
  have key := C25_same_core
    (exampleEnv (⟨Real.exp, Real.log, fun x y => x ^ y⟩ : Libm ℝ))
    (freshExperiment 1 1) (freshSampler 1) uniform01 rfl (by decide)
    (by rw [freshSampler_eq 1 (by decide)]; rfl)
    (by rw [freshSampler_eq 1 (by decide)]; rfl)
    (by rw [freshSampler_eq 1 (by decide)]; rfl)
    (by rw [freshSampler_eq 1 (by decide)]; rfl)
    (by rw [freshSampler_eq 1 (by decide)]; rfl)
    (by rw [freshSampler_eq 1 (by decide)]; rfl)
  refine ⟨rfl, by decide, by rw [freshSampler_eq 1 (by decide)]; rfl,
    by rw [freshSampler_eq 1 (by decide)]; rfl,
    by rw [freshSampler_eq 1 (by decide)]; rfl, key.2.2.1, ?_⟩
  rw [eval_experiment_uniform01]
  simp [Real.exp_zero]

section NumericalRangeEvaluation

variable {S : Type} [LinearOrderedField S]

end NumericalRangeEvaluation
section NumericalRangeExactness

variable {S : Type} [LinearOrderedField S]

end NumericalRangeExactness

section ClaimC26

variable {S : Type} [LinearOrderedField S]

end ClaimC26

section ClaimC30

variable {S : Type} [LinearOrderedField S]

/-- C30: `RegularizedIncompleteGamma(a, x, tail)` throws an `InvalidArgumentException`
whenever the test `a > 0.0` fails; for `a > 0` it returns `tail ? 1 : 0` for every
`x <= 0` and `tail ? 0 : 1` for `x = +inf`, so that at these inputs the lower and the
upper values have sum 1; and `RegularizedIncompleteGammaInverse(a, 1, false)` and
`RegularizedIncompleteGammaInverse(a, 0, true)` both return `+inf`, which
`RegularizedIncompleteGamma` maps to 1 (lower) and to 0 (upper). -/
theorem C30_regularized_incomplete_gamma_boundaries (kernels : GammaKernels S)
    (a : Scalar S) :
    (Scalar.lt (Scalar.fin 0) a = false → ∀ x tail,
      GammaFunctions.RegularizedIncompleteGamma kernels a x tail =
        Run.thrown { kind := ExceptionKind.InvalidArgumentException,
                     message := Message.aMustBePositive }) ∧
    (Scalar.lt (Scalar.fin 0) a = true →
      (∀ x tail, Scalar.le x (Scalar.fin 0) = true →
        GammaFunctions.RegularizedIncompleteGamma kernels a x tail =
          Run.returned (if tail then Scalar.fin 1 else Scalar.fin 0)) ∧
      (∀ tail, GammaFunctions.RegularizedIncompleteGamma kernels a Scalar.pinf tail =
          Run.returned (if tail then Scalar.fin 0 else Scalar.fin 1)) ∧
      (∀ x, Scalar.le x (Scalar.fin 0) = true ∨ x = Scalar.pinf →
        ∃ p q, GammaFunctions.RegularizedIncompleteGamma kernels a x false = Run.returned p ∧
          GammaFunctions.RegularizedIncompleteGamma kernels a x true = Run.returned q ∧
          Scalar.add p q = Scalar.fin 1) ∧
      GammaFunctions.RegularizedIncompleteGammaInverse kernels a (Scalar.fin 1) false =
        Run.returned Scalar.pinf ∧
      GammaFunctions.RegularizedIncompleteGammaInverse kernels a (Scalar.fin 0) true =
        Run.returned Scalar.pinf ∧
      GammaFunctions.RegularizedIncompleteGamma kernels a Scalar.pinf false =
        Run.returned (Scalar.fin 1) ∧
      GammaFunctions.RegularizedIncompleteGamma kernels a Scalar.pinf true =
        Run.returned (Scalar.fin 0)) := by
  constructor
  · intro ha x tail
    simp [GammaFunctions.RegularizedIncompleteGamma, ha]
  · intro ha
    have hle : ∀ x tail, Scalar.le x (Scalar.fin 0) = true →
        GammaFunctions.RegularizedIncompleteGamma kernels a x tail =
          Run.returned (if tail then Scalar.fin 1 else Scalar.fin 0) := by
      intro x tail hx
      simp [GammaFunctions.RegularizedIncompleteGamma, ha, hx]
    have hinf : ∀ tail, GammaFunctions.RegularizedIncompleteGamma kernels a Scalar.pinf tail =
        Run.returned (if tail then Scalar.fin 0 else Scalar.fin 1) := by
      intro tail
      simp [GammaFunctions.RegularizedIncompleteGamma, ha, Scalar.le, Scalar.isinf]
    refine ⟨hle, hinf, ?_, ?_, ?_, by simpa using hinf false, by simpa using hinf true⟩
    · intro x hx
      rcases hx with hx | hx
      · exact ⟨_, _, hle x false hx, hle x true hx, by simp [Scalar.add]⟩
      · subst hx
        exact ⟨_, _, hinf false, hinf true, by simp [Scalar.add]⟩
    · simp [GammaFunctions.RegularizedIncompleteGammaInverse, ha, Scalar.le, SpecFunc.Infinity]
    · simp [GammaFunctions.RegularizedIncompleteGammaInverse, ha, Scalar.le, SpecFunc.Infinity]

end ClaimC30

/-- C30 (witness): for `a = 2`, the lower value at `x = -1` is 0, the upper value is 1, and
the inverse of the lower value at level 1 is `+inf`. -/
theorem C30_regularized_incomplete_gamma_boundaries_witness :
    Scalar.lt (Scalar.fin 0) (Scalar.fin (2 : ℚ)) = true ∧
    GammaFunctions.RegularizedIncompleteGamma unreachedKernels (Scalar.fin (2 : ℚ))
      (Scalar.fin (-1)) false = Run.returned (Scalar.fin 0) ∧
    GammaFunctions.RegularizedIncompleteGamma unreachedKernels (Scalar.fin (2 : ℚ))
      (Scalar.fin (-1)) true = Run.returned (Scalar.fin 1) ∧
    GammaFunctions.RegularizedIncompleteGammaInverse unreachedKernels (Scalar.fin (2 : ℚ))
      (Scalar.fin 1) false = Run.returned Scalar.pinf := by
  have ha : Scalar.lt (Scalar.fin 0) (Scalar.fin (2 : ℚ)) = true := by
    simp [Scalar.lt]
  have hx : Scalar.le (Scalar.fin (-1 : ℚ)) (Scalar.fin 0) = true := by
    simp [Scalar.le]
  have key := (C30_regularized_incomplete_gamma_boundaries unreachedKernels
    (Scalar.fin (2 : ℚ))).2 ha
  exact ⟨ha, by simpa using key.1 (Scalar.fin (-1)) false hx,
    by simpa using key.1 (Scalar.fin (-1)) true hx, key.2.2.2.1⟩

section MeixnerSetterLemmas

variable {S : Type} [LinearOrderedField S]

/-- The method `update()` assigns none of the parameters. -/
theorem MeixnerAttributes.update_parameters (collab : MeixnerCollaborators S)
    (self : MeixnerAttributes S) :
    (MeixnerAttributes.update collab self).beta_ = self.beta_ ∧
    (MeixnerAttributes.update collab self).alpha_ = self.alpha_ ∧
    (MeixnerAttributes.update collab self).delta_ = self.delta_ ∧
    (MeixnerAttributes.update collab self).gamma_ = self.gamma_ :=
  ⟨rfl, rfl, rfl, rfl⟩

theorem Scalar.eq_of_eq_true (a b : Scalar S) (h : Scalar.eq a b = true) : a = b := by
  cases a <;> cases b <;> simp [Scalar.eq] at h ⊢
  exact h

theorem Scalar.lt_zero_false_iff_le (x : Scalar S) (h : x ≠ Scalar.nan) :
    Scalar.lt (Scalar.fin 0) x = false ↔ Scalar.le x (Scalar.fin 0) = true := by
  cases x <;> simp [Scalar.lt, Scalar.le] at h ⊢

theorem MeixnerAttributes.setBeta_spec (collab : MeixnerCollaborators S)
    (self : MeixnerAttributes S) (beta : Scalar S) :
    (Scalar.lt (Scalar.fin 0) beta = false →
      MeixnerAttributes.setBeta collab self beta =
        { state := self,
          error := some { kind := ExceptionKind.InvalidArgumentException,
                          message := Message.betaMustBePositive } }) ∧
    (Scalar.lt (Scalar.fin 0) beta = true →
      (MeixnerAttributes.setBeta collab self beta).error = none ∧
      (MeixnerAttributes.setBeta collab self beta).state.beta_ = beta ∧
      (MeixnerAttributes.setBeta collab self beta).state.alpha_ = self.alpha_ ∧
      (MeixnerAttributes.setBeta collab self beta).state.delta_ = self.delta_) := by
  constructor
  · intro h
    simp [MeixnerAttributes.setBeta, h]
  · intro h
    by_cases he : Scalar.eq beta self.beta_ = true
    · have := Scalar.eq_of_eq_true _ _ he
      simp only [MeixnerAttributes.setBeta, h, he, Bool.not_true, Bool.not_false,
        Bool.false_eq_true, if_false]
      refine ⟨?_, ?_, ?_, ?_⟩ <;> first | trivial | rfl | exact this.symm
    · simp only [MeixnerAttributes.setBeta, h, he, Bool.not_true, Bool.not_false,
        Bool.false_eq_true, if_false, if_true]
      refine ⟨?_, ?_, ?_, ?_⟩ <;> trivial

theorem MeixnerAttributes.setAlpha_spec (collab : MeixnerCollaborators S)
    (self : MeixnerAttributes S) (alpha : Scalar S) :
    (Scalar.le (Scalar.fin collab.M_PI) (Scalar.abs alpha) = true →
      MeixnerAttributes.setAlpha collab self alpha =
        { state := self,
          error := some { kind := ExceptionKind.InvalidArgumentException,
                          message := Message.alphaMustBeInRange } }) ∧
    (Scalar.le (Scalar.fin collab.M_PI) (Scalar.abs alpha) = false →
      (MeixnerAttributes.setAlpha collab self alpha).error = none ∧
      (MeixnerAttributes.setAlpha collab self alpha).state.alpha_ = alpha ∧
      (MeixnerAttributes.setAlpha collab self alpha).state.beta_ = self.beta_ ∧
      (MeixnerAttributes.setAlpha collab self alpha).state.delta_ = self.delta_) := by
  constructor
  · intro h
    simp [MeixnerAttributes.setAlpha, h]
  · intro h
    by_cases he : Scalar.eq alpha self.alpha_ = true
    · have := Scalar.eq_of_eq_true _ _ he
      simp only [MeixnerAttributes.setAlpha, h, he, Bool.not_true, Bool.not_false,
        Bool.false_eq_true, if_false]
      refine ⟨?_, ?_, ?_, ?_⟩ <;> first | trivial | rfl | exact this.symm
    · simp only [MeixnerAttributes.setAlpha, h, he, Bool.not_true, Bool.not_false,
        Bool.false_eq_true, if_false, if_true]
      refine ⟨?_, ?_, ?_, ?_⟩ <;> trivial

theorem MeixnerAttributes.setDelta_spec (collab : MeixnerCollaborators S)
    (self : MeixnerAttributes S) (delta : Scalar S) :
    (Scalar.lt (Scalar.fin 0) delta = false →
      MeixnerAttributes.setDelta collab self delta =
        { state := self,
          error := some { kind := ExceptionKind.InvalidArgumentException,
                          message := Message.deltaMustBePositive } }) ∧
    (Scalar.lt (Scalar.fin 0) delta = true →
      (MeixnerAttributes.setDelta collab self delta).error = none ∧
      (MeixnerAttributes.setDelta collab self delta).state.delta_ = delta ∧
      (MeixnerAttributes.setDelta collab self delta).state.beta_ = self.beta_ ∧
      (MeixnerAttributes.setDelta collab self delta).state.alpha_ = self.alpha_) := by
  constructor
  · intro h
    simp [MeixnerAttributes.setDelta, h]
  · intro h
    by_cases he : Scalar.eq delta self.delta_ = true
    · have := Scalar.eq_of_eq_true _ _ he
      simp only [MeixnerAttributes.setDelta, h, he, Bool.not_true, Bool.not_false,
        Bool.false_eq_true, if_false]
      refine ⟨?_, ?_, ?_, ?_⟩ <;> first | trivial | rfl | exact this.symm
    · simp only [MeixnerAttributes.setDelta, h, he, Bool.not_true, Bool.not_false,
        Bool.false_eq_true, if_false, if_true]
      refine ⟨?_, ?_, ?_, ?_⟩ <;> trivial

theorem MeixnerAttributes.setBetaAlphaDelta_spec (collab : MeixnerCollaborators S)
    (self : MeixnerAttributes S) (beta alpha delta : Scalar S) :
    ((Scalar.lt (Scalar.fin 0) beta = false ∨
        Scalar.le (Scalar.fin collab.M_PI) (Scalar.abs alpha) = true ∨
        Scalar.lt (Scalar.fin 0) delta = false) →
      (MeixnerAttributes.setBetaAlphaDelta collab self beta alpha delta).state = self ∧
      ∃ e, (MeixnerAttributes.setBetaAlphaDelta collab self beta alpha delta).error = some e ∧
        e.kind = ExceptionKind.InvalidArgumentException) ∧
    (¬ (Scalar.lt (Scalar.fin 0) beta = false ∨
        Scalar.le (Scalar.fin collab.M_PI) (Scalar.abs alpha) = true ∨
        Scalar.lt (Scalar.fin 0) delta = false) →
      (MeixnerAttributes.setBetaAlphaDelta collab self beta alpha delta).error = none ∧
      (MeixnerAttributes.setBetaAlphaDelta collab self beta alpha delta).state.beta_ = beta ∧
      (MeixnerAttributes.setBetaAlphaDelta collab self beta alpha delta).state.alpha_ = alpha ∧
      (MeixnerAttributes.setBetaAlphaDelta collab self beta alpha delta).state.delta_ =
        delta) := by
  by_cases hb : Scalar.lt (Scalar.fin 0) beta = true
  · by_cases ha : Scalar.le (Scalar.fin collab.M_PI) (Scalar.abs alpha) = true
    · refine ⟨fun _ => ?_, fun h => absurd (Or.inr (Or.inl ha)) h⟩
      simp [MeixnerAttributes.setBetaAlphaDelta, hb, ha]
    · by_cases hd : Scalar.lt (Scalar.fin 0) delta = true
      · constructor
        · intro h
          rcases h with h | h | h
          · rw [hb] at h; cases h
          · exact absurd h ha
          · rw [hd] at h; cases h
        · intro _
          by_cases he : (!(Scalar.eq beta self.beta_) || !(Scalar.eq alpha self.alpha_)
              || !(Scalar.eq delta self.delta_)) = true
          · simp only [MeixnerAttributes.setBetaAlphaDelta, hb, ha, hd, he, Bool.not_true,
              Bool.false_eq_true, if_false, if_true]
            refine ⟨?_, ?_, ?_, ?_⟩ <;> trivial
          · have he' : Scalar.eq beta self.beta_ = true ∧ Scalar.eq alpha self.alpha_ = true ∧
                Scalar.eq delta self.delta_ = true := by
              simpa [and_assoc] using he
            have h1 := Scalar.eq_of_eq_true _ _ he'.1
            have h2 := Scalar.eq_of_eq_true _ _ he'.2.1
            have h3 := Scalar.eq_of_eq_true _ _ he'.2.2
            simp only [MeixnerAttributes.setBetaAlphaDelta, hb, ha, hd, he, Bool.not_true,
              Bool.false_eq_true, if_false]
            refine ⟨?_, ?_, ?_, ?_⟩ <;>
              first | trivial | rfl | exact h1.symm | exact h2.symm | exact h3.symm
      · refine ⟨fun _ => ?_, fun h => absurd (Or.inr (Or.inr (by simpa using hd))) h⟩
        simp [MeixnerAttributes.setBetaAlphaDelta, hb, ha, hd]
  · refine ⟨fun _ => ?_, fun h => absurd (Or.inl (by simpa using hb)) h⟩
    simp [MeixnerAttributes.setBetaAlphaDelta, hb]

end MeixnerSetterLemmas
section ClaimC29

variable {S : Type} [LinearOrderedField S]

/-- C29: `setBetaAlphaDelta(beta, alpha, delta)` throws an `InvalidArgumentException` if and
only if one of the tests `beta > 0.0`, `std::abs(alpha) < M_PI`, `delta > 0.0` fails; for
arguments `beta` and `delta` that are not `NaN`, that is if and only if `beta <= 0` or
`|alpha| >= pi` or `delta <= 0`.  When it throws, every attribute (the parameters and the
derived attributes) is as before; when it does not, `getBeta`, `getAlpha` and `getDelta`
return the given values.  The same holds for `setBeta`, `setAlpha` and `setDelta`, each
with its own test, the two other parameters being left as they were. -/
theorem C29_meixner_setters (collab : MeixnerCollaborators S) (self : MeixnerAttributes S)
    (beta alpha delta : Scalar S) :
    ((∃ e, (MeixnerAttributes.setBetaAlphaDelta collab self beta alpha delta).error = some e ∧
        e.kind = ExceptionKind.InvalidArgumentException) ↔
      (Scalar.lt (Scalar.fin 0) beta = false ∨
        Scalar.le (Scalar.fin collab.M_PI) (Scalar.abs alpha) = true ∨
        Scalar.lt (Scalar.fin 0) delta = false)) ∧
    (beta ≠ Scalar.nan → delta ≠ Scalar.nan →
      ((∃ e,
          (MeixnerAttributes.setBetaAlphaDelta collab self beta alpha delta).error = some e ∧
          e.kind = ExceptionKind.InvalidArgumentException) ↔
        (Scalar.le beta (Scalar.fin 0) = true ∨
          Scalar.le (Scalar.fin collab.M_PI) (Scalar.abs alpha) = true ∨
          Scalar.le delta (Scalar.fin 0) = true))) ∧
    ((MeixnerAttributes.setBetaAlphaDelta collab self beta alpha delta).error ≠ none →
      (MeixnerAttributes.setBetaAlphaDelta collab self beta alpha delta).state = self) ∧
    ((MeixnerAttributes.setBetaAlphaDelta collab self beta alpha delta).error = none →
      MeixnerAttributes.getBeta
        (MeixnerAttributes.setBetaAlphaDelta collab self beta alpha delta).state = beta ∧
      MeixnerAttributes.getAlpha
        (MeixnerAttributes.setBetaAlphaDelta collab self beta alpha delta).state = alpha ∧
      MeixnerAttributes.getDelta
        (MeixnerAttributes.setBetaAlphaDelta collab self beta alpha delta).state = delta) ∧
    (((∃ e, (MeixnerAttributes.setBeta collab self beta).error = some e ∧
          e.kind = ExceptionKind.InvalidArgumentException) ↔
        Scalar.lt (Scalar.fin 0) beta = false) ∧
      ((MeixnerAttributes.setBeta collab self beta).error ≠ none →
        (MeixnerAttributes.setBeta collab self beta).state = self) ∧
      ((MeixnerAttributes.setBeta collab self beta).error = none →
        MeixnerAttributes.getBeta (MeixnerAttributes.setBeta collab self beta).state = beta ∧
        MeixnerAttributes.getAlpha (MeixnerAttributes.setBeta collab self beta).state =
          MeixnerAttributes.getAlpha self ∧
        MeixnerAttributes.getDelta (MeixnerAttributes.setBeta collab self beta).state =
          MeixnerAttributes.getDelta self)) ∧
    (((∃ e, (MeixnerAttributes.setAlpha collab self alpha).error = some e ∧
          e.kind = ExceptionKind.InvalidArgumentException) ↔
        Scalar.le (Scalar.fin collab.M_PI) (Scalar.abs alpha) = true) ∧
      ((MeixnerAttributes.setAlpha collab self alpha).error ≠ none →
        (MeixnerAttributes.setAlpha collab self alpha).state = self) ∧
      ((MeixnerAttributes.setAlpha collab self alpha).error = none →
        MeixnerAttributes.getAlpha (MeixnerAttributes.setAlpha collab self alpha).state =
          alpha ∧
        MeixnerAttributes.getBeta (MeixnerAttributes.setAlpha collab self alpha).state =
          MeixnerAttributes.getBeta self ∧
        MeixnerAttributes.getDelta (MeixnerAttributes.setAlpha collab self alpha).state =
          MeixnerAttributes.getDelta self)) ∧
    (((∃ e, (MeixnerAttributes.setDelta collab self delta).error = some e ∧
          e.kind = ExceptionKind.InvalidArgumentException) ↔
        Scalar.lt (Scalar.fin 0) delta = false) ∧
      ((MeixnerAttributes.setDelta collab self delta).error ≠ none →
        (MeixnerAttributes.setDelta collab self delta).state = self) ∧
      ((MeixnerAttributes.setDelta collab self delta).error = none →
        MeixnerAttributes.getDelta (MeixnerAttributes.setDelta collab self delta).state =
          delta ∧
        MeixnerAttributes.getBeta (MeixnerAttributes.setDelta collab self delta).state =
          MeixnerAttributes.getBeta self ∧
        MeixnerAttributes.getAlpha (MeixnerAttributes.setDelta collab self delta).state =
          MeixnerAttributes.getAlpha self)) := by
  have hall := MeixnerAttributes.setBetaAlphaDelta_spec collab self beta alpha delta
  have hiff : (∃ e,
        (MeixnerAttributes.setBetaAlphaDelta collab self beta alpha delta).error = some e ∧
        e.kind = ExceptionKind.InvalidArgumentException) ↔
      (Scalar.lt (Scalar.fin 0) beta = false ∨
        Scalar.le (Scalar.fin collab.M_PI) (Scalar.abs alpha) = true ∨
        Scalar.lt (Scalar.fin 0) delta = false) := by
    constructor
    · rintro ⟨e, he, _⟩
      by_contra hc
      rw [(hall.2 hc).1] at he
      cases he
    · intro hc
      exact (hall.1 hc).2
  refine ⟨hiff, ?_, ?_, ?_, ?_, ?_, ?_⟩
  · intro hb hd
    rw [hiff, Scalar.lt_zero_false_iff_le beta hb, Scalar.lt_zero_false_iff_le delta hd]
  · intro herr
    by_cases hc : (Scalar.lt (Scalar.fin 0) beta = false ∨
        Scalar.le (Scalar.fin collab.M_PI) (Scalar.abs alpha) = true ∨
        Scalar.lt (Scalar.fin 0) delta = false)
    · exact (hall.1 hc).1
    · exact absurd (hall.2 hc).1 herr
  · intro herr
    have hc : ¬ (Scalar.lt (Scalar.fin 0) beta = false ∨
        Scalar.le (Scalar.fin collab.M_PI) (Scalar.abs alpha) = true ∨
        Scalar.lt (Scalar.fin 0) delta = false) := by
      intro hc
      obtain ⟨e, he, _⟩ := (hall.1 hc).2
      rw [herr] at he
      cases he
    exact (hall.2 hc).2
  · have hs := MeixnerAttributes.setBeta_spec collab self beta
    by_cases hb : Scalar.lt (Scalar.fin 0) beta = true
    · obtain ⟨h1, h2, h3, h4⟩ := hs.2 hb
      refine ⟨⟨?_, ?_⟩, fun herr => absurd h1 herr, fun _ => ⟨h2, h3, h4⟩⟩
      · rintro ⟨e, he, _⟩
        rw [h1] at he
        cases he
      · intro h
        rw [hb] at h
        cases h
    · have hb' : Scalar.lt (Scalar.fin 0) beta = false := by simpa using hb
      have h1 := hs.1 hb'
      refine ⟨⟨fun _ => hb', fun _ => ⟨_, by rw [h1], rfl⟩⟩, fun _ => by rw [h1], ?_⟩
      intro herr
      rw [h1] at herr
      cases herr
  · have hs := MeixnerAttributes.setAlpha_spec collab self alpha
    by_cases ha : Scalar.le (Scalar.fin collab.M_PI) (Scalar.abs alpha) = true
    · have h1 := hs.1 ha
      refine ⟨⟨fun _ => ha, fun _ => ⟨_, by rw [h1], rfl⟩⟩, fun _ => by rw [h1], ?_⟩
      intro herr
      rw [h1] at herr
      cases herr
    · have ha' : Scalar.le (Scalar.fin collab.M_PI) (Scalar.abs alpha) = false := by
        simpa using ha
      obtain ⟨h1, h2, h3, h4⟩ := hs.2 ha'
      refine ⟨⟨?_, fun h => absurd h ha⟩, fun herr => absurd h1 herr, fun _ => ⟨h2, h3, h4⟩⟩
      rintro ⟨e, he, _⟩
      rw [h1] at he
      cases he
  · have hs := MeixnerAttributes.setDelta_spec collab self delta
    by_cases hd : Scalar.lt (Scalar.fin 0) delta = true
    · obtain ⟨h1, h2, h3, h4⟩ := hs.2 hd
      refine ⟨⟨?_, ?_⟩, fun herr => absurd h1 herr, fun _ => ⟨h2, h3, h4⟩⟩
      · rintro ⟨e, he, _⟩
        rw [h1] at he
        cases he
      · intro h
        rw [hd] at h
        cases h
    · have hd' : Scalar.lt (Scalar.fin 0) delta = false := by simpa using hd
      have h1 := hs.1 hd'
      refine ⟨⟨fun _ => hd', fun _ => ⟨_, by rw [h1], rfl⟩⟩, fun _ => by rw [h1], ?_⟩
      intro herr
      rw [h1] at herr
      cases herr

end ClaimC29

section ClaimC28

variable {S : Type} [LinearOrderedField S]

/-- C28: on a point whose dimension is not 1, `computeCDF` and `computeComplementaryCDF`
both throw an `InvalidArgumentException`.  On a point `x` of dimension 1 both branch on the
test `x[0] <= getMean()[0]` and use the same interpolant: when the test holds they return
`a` and `1 - a`, where `a = cdfApproximation_(x)[0]`; otherwise `1 - a'` and `a'`, where
`a' = ccdfApproximation_(x)[0]`.  For finite values of the interpolants the sum of the two
results is 1 (in exact arithmetic). -/
theorem C28_cdf_plus_complementary_cdf (collab : MeixnerCollaborators S)
    (self : MeixnerAttributes S) (point : Point S) :
    (point.length ≠ 1 →
      MeixnerAttributes.computeCDF collab self point = Run.thrown dimensionNotOne ∧
      MeixnerAttributes.computeComplementaryCDF collab self point =
        Run.thrown dimensionNotOne ∧
      dimensionNotOne.kind = ExceptionKind.InvalidArgumentException) ∧
    (point.length = 1 →
      (Scalar.le (point.get 0) ((MeixnerAttributes.getMean collab self).get 0) = true →
        MeixnerAttributes.computeCDF collab self point =
          Run.returned ((self.cdfApproximation_ point).get 0) ∧
        MeixnerAttributes.computeComplementaryCDF collab self point =
          Run.returned (Scalar.sub (Scalar.fin 1) ((self.cdfApproximation_ point).get 0))) ∧
      (Scalar.le (point.get 0) ((MeixnerAttributes.getMean collab self).get 0) = false →
        MeixnerAttributes.computeCDF collab self point =
          Run.returned (Scalar.sub (Scalar.fin 1) ((self.ccdfApproximation_ point).get 0)) ∧
        MeixnerAttributes.computeComplementaryCDF collab self point =
          Run.returned ((self.ccdfApproximation_ point).get 0)) ∧
      ∀ a a' : S, (self.cdfApproximation_ point).get 0 = Scalar.fin a →
        (self.ccdfApproximation_ point).get 0 = Scalar.fin a' →
        ∃ p q, MeixnerAttributes.computeCDF collab self point = Run.returned p ∧
          MeixnerAttributes.computeComplementaryCDF collab self point = Run.returned q ∧
          Scalar.add p q = Scalar.fin 1) := by
  constructor
  · intro h
    simp [MeixnerAttributes.computeCDF, MeixnerAttributes.computeComplementaryCDF, h,
      dimensionNotOne]
  · intro h
    have hle : Scalar.le (point.get 0) ((MeixnerAttributes.getMean collab self).get 0) = true →
        MeixnerAttributes.computeCDF collab self point =
          Run.returned ((self.cdfApproximation_ point).get 0) ∧
        MeixnerAttributes.computeComplementaryCDF collab self point =
          Run.returned (Scalar.sub (Scalar.fin 1) ((self.cdfApproximation_ point).get 0)) := by
      intro hm
      simp [MeixnerAttributes.computeCDF, MeixnerAttributes.computeComplementaryCDF, h, hm]
    have hgt : Scalar.le (point.get 0) ((MeixnerAttributes.getMean collab self).get 0) = false →
        MeixnerAttributes.computeCDF collab self point =
          Run.returned (Scalar.sub (Scalar.fin 1) ((self.ccdfApproximation_ point).get 0)) ∧
        MeixnerAttributes.computeComplementaryCDF collab self point =
          Run.returned ((self.ccdfApproximation_ point).get 0) := by
      intro hm
      simp [MeixnerAttributes.computeCDF, MeixnerAttributes.computeComplementaryCDF, h, hm]
    refine ⟨hle, hgt, ?_⟩
    intro a a' ha ha'
    by_cases hm : Scalar.le (point.get 0) ((MeixnerAttributes.getMean collab self).get 0) = true
    · refine ⟨_, _, (hle hm).1, (hle hm).2, ?_⟩
      rw [ha]
      simp [Scalar.sub, Scalar.neg, Scalar.add]
    · have hm' : Scalar.le (point.get 0)
          ((MeixnerAttributes.getMean collab self).get 0) = false := by simpa using hm
      refine ⟨_, _, (hgt hm').1, (hgt hm').2, ?_⟩
      rw [ha']
      simp [Scalar.sub, Scalar.neg, Scalar.add]

end ClaimC28

section MeixnerBoxLemmas

variable {S : Type} [LinearOrderedField S]

/-- One pass through the loop of `getRealization`: the draw `u == 0` is discarded, and the
candidate `v / u` is returned exactly when the test `accepts` holds. -/
theorem MeixnerDistribution.getRealization_pass (m : Libm S) (self : MeixnerDistribution S)
    (RandomGenerator : Nat → Scalar S) (fuel pos : Nat) :
    MeixnerDistribution.getRealization m self RandomGenerator (fuel + 1) pos =
      if Scalar.eq (Scalar.mul self.b_ (RandomGenerator pos)) (Scalar.fin 0) then
        MeixnerDistribution.getRealization m self RandomGenerator fuel (pos + 1)
      else if MeixnerDistribution.accepts m self (Scalar.mul self.b_ (RandomGenerator pos))
          (Scalar.add self.c_ (Scalar.mul self.dc_ (RandomGenerator (pos + 1)))) then
        some ([Scalar.div (Scalar.add self.c_ (Scalar.mul self.dc_ (RandomGenerator (pos + 1))))
          (Scalar.mul self.b_ (RandomGenerator pos))], pos + 2)
      else MeixnerDistribution.getRealization m self RandomGenerator fuel (pos + 2) := by
  simp only [MeixnerDistribution.getRealization, MeixnerDistribution.accepts]

/-- The bounds stored by `update()`: `b_` is the square root of the optimal value of the
maximization of `MeixnerBoundB` over the range, `c_` the optimal value of the minimization
of `MeixnerBoundCD` and `c_ + dc_` is built from the optimal value of its maximization. -/
theorem MeixnerAttributes.update_box (collab : MeixnerCollaborators S)
    (self : MeixnerAttributes S) :
    (MeixnerAttributes.update collab self).b_ =
      Scalar.sqrt collab.sqrt (collab.solver false
        (some (MeixnerAttributes.update collab self).range_)
        (MeixnerBoundB collab.libm
          (MeixnerAttributes.sampler collab (MeixnerAttributes.update collab self)))
        (MeixnerAttributes.getMean collab (MeixnerAttributes.update collab self))) ∧
    (MeixnerAttributes.update collab self).c_ =
      collab.solver true none
        (MeixnerBoundCD collab.libm collab.sqrt
          (MeixnerAttributes.sampler collab (MeixnerAttributes.update collab self)))
        (MeixnerAttributes.getMean collab (MeixnerAttributes.update collab self)) ∧
    (MeixnerAttributes.update collab self).dc_ =
      Scalar.sub
        (collab.solver false none
          (MeixnerBoundCD collab.libm collab.sqrt
            (MeixnerAttributes.sampler collab (MeixnerAttributes.update collab self)))
          (MeixnerAttributes.getMean collab (MeixnerAttributes.update collab self)))
        (MeixnerAttributes.update collab self).c_ :=
  ⟨rfl, rfl, rfl⟩

end MeixnerBoxLemmas

/-- The value of `x * sqrt(p(x))` at `x = 0`, when it is comparable to a number, is 0. -/
theorem MeixnerBoundCD_zero (self : MeixnerDistribution ℝ) :
    (MeixnerBoundCD (⟨Real.exp, Real.log, fun x y => x ^ y⟩ : Libm ℝ) Real.sqrt self
        [Scalar.fin 0]).get 0 = Scalar.fin 0 ∨
    (MeixnerBoundCD (⟨Real.exp, Real.log, fun x y => x ^ y⟩ : Libm ℝ) Real.sqrt self
        [Scalar.fin 0]).get 0 = Scalar.nan := by
  have hget : (MeixnerBoundCD (⟨Real.exp, Real.log, fun x y => x ^ y⟩ : Libm ℝ) Real.sqrt self
        [Scalar.fin 0]).get 0 =
      Scalar.mul (Scalar.fin 0) (Scalar.sqrt Real.sqrt
        (Scalar.exp (⟨Real.exp, Real.log, fun x y => x ^ y⟩ : Libm ℝ)
          (self.computeLogPDF (Scalar.fin 0)))) := rfl
  rw [hget]
  cases self.computeLogPDF (Scalar.fin 0) with
  | nan => right; simp [Scalar.exp, Scalar.sqrt, Scalar.mul]
  | ninf => left; simp [Scalar.exp, Scalar.sqrt, Scalar.mul]
  | pinf => right; simp [Scalar.exp, Scalar.sqrt, Scalar.mul, Scalar.signedInf]
  | fin l =>
    left
    have h : ¬ (Real.exp l < 0) := not_lt.mpr (Real.exp_pos l).le
    simp [Scalar.exp, Scalar.sqrt, Scalar.mul, h]

/-- C27: let `b_` be an upper bound of `sqrt(p(x))`, `c_` a lower bound and `c_ + dc_` an
upper bound of `x * sqrt(p(x))` over all `x` (as are `b = sup sqrt(p)`, `c = inf x*sqrt(p)`
and `d = sup x*sqrt(p)`, the values that `update()` computes with its solver), where `p`
is the density `exp(computeLogPDF)` read by the objectives `MeixnerBoundB` and
`MeixnerBoundCD`.  Then every pair `(u, v)` with `u > 0` that passes the test
`2 * log(u) <= computeLogPDF(v / u)` of `getRealization` satisfies `0 <= u <= b_` and
`c_ <= v <= c_ + dc_`: the sampled box encloses the acceptance region. -/
theorem C27_meixner_enclosing_box (self : MeixnerDistribution ℝ) (b c dc u v : ℝ)
    (hb : self.b_ = Scalar.fin b) (hc : self.c_ = Scalar.fin c) (hdc : self.dc_ = Scalar.fin dc)
    (hB : ∀ x : ℝ, Scalar.le
      (Scalar.sqrt Real.sqrt
        ((MeixnerBoundB (⟨Real.exp, Real.log, fun x y => x ^ y⟩ : Libm ℝ) self
          [Scalar.fin x]).get 0))
      self.b_ = true)
    (hC : ∀ x : ℝ, Scalar.le self.c_
      ((MeixnerBoundCD (⟨Real.exp, Real.log, fun x y => x ^ y⟩ : Libm ℝ) Real.sqrt self
        [Scalar.fin x]).get 0) = true)
    (hD : ∀ x : ℝ, Scalar.le
      ((MeixnerBoundCD (⟨Real.exp, Real.log, fun x y => x ^ y⟩ : Libm ℝ) Real.sqrt self
        [Scalar.fin x]).get 0)
      (Scalar.add self.c_ self.dc_) = true)
    (hu : 0 < u)
    (hacc : MeixnerDistribution.accepts (⟨Real.exp, Real.log, fun x y => x ^ y⟩ : Libm ℝ) self
      (Scalar.fin u) (Scalar.fin v) = true) :
    0 ≤ u ∧ u ≤ b ∧ c ≤ v ∧ v ≤ c + dc := by
  have hne : u ≠ 0 := ne_of_gt hu
  -- the bounds at x = 0
  have hc0 : c ≤ 0 ∧ 0 ≤ c + dc := by
    have h1 := hC 0
    have h2 := hD 0
    rw [hc] at h1
    rw [hc, hdc] at h2
    rcases MeixnerBoundCD_zero self with h0 | h0
    · rw [h0] at h1 h2
      simp only [Scalar.le, Scalar.add, decide_eq_true_eq] at h1 h2
      exact ⟨h1, h2⟩
    · rw [h0] at h1
      simp [Scalar.le] at h1
  -- the test
  have hacc' : Scalar.le (Scalar.fin (2 * Real.log u))
      (self.computeLogPDF (Scalar.fin (v / u))) = true := by
    have := hacc
    simp only [MeixnerDistribution.accepts, Scalar.log, not_lt.mpr hu.le, hne, if_false,
      Scalar.mul, Scalar.div] at this
    exact this
  have hBρ := hB (v / u)
  have hCρ := hC (v / u)
  have hDρ := hD (v / u)
  have hgetB : (MeixnerBoundB (⟨Real.exp, Real.log, fun x y => x ^ y⟩ : Libm ℝ) self
      [Scalar.fin (v / u)]).get 0 =
      Scalar.exp (⟨Real.exp, Real.log, fun x y => x ^ y⟩ : Libm ℝ)
        (self.computeLogPDF (Scalar.fin (v / u))) := rfl
  have hgetCD : (MeixnerBoundCD (⟨Real.exp, Real.log, fun x y => x ^ y⟩ : Libm ℝ) Real.sqrt
      self [Scalar.fin (v / u)]).get 0 =
      Scalar.mul (Scalar.fin (v / u)) (Scalar.sqrt Real.sqrt
        (Scalar.exp (⟨Real.exp, Real.log, fun x y => x ^ y⟩ : Libm ℝ)
          (self.computeLogPDF (Scalar.fin (v / u))))) := rfl
  rw [hgetB, hb] at hBρ
  rw [hgetCD, hc] at hCρ
  rw [hgetCD, hc, hdc] at hDρ
  cases hlp : self.computeLogPDF (Scalar.fin (v / u)) with
  | nan => rw [hlp] at hacc'; simp [Scalar.le] at hacc'
  | ninf => rw [hlp] at hacc'; simp [Scalar.le] at hacc'
  | pinf => rw [hlp] at hBρ; simp [Scalar.exp, Scalar.sqrt, Scalar.le] at hBρ
  | fin l =>
    rw [hlp] at hacc' hBρ hCρ hDρ
    have hexp : ¬ (Real.exp l < 0) := not_lt.mpr (Real.exp_pos l).le
    simp only [Scalar.le, decide_eq_true_eq] at hacc'
    simp only [Scalar.exp, Scalar.sqrt, hexp, if_false, Scalar.le, decide_eq_true_eq] at hBρ
    simp only [Scalar.exp, Scalar.sqrt, hexp, if_false, Scalar.mul, Scalar.le,
      decide_eq_true_eq] at hCρ
    simp only [Scalar.exp, Scalar.sqrt, hexp, if_false, Scalar.mul, Scalar.add, Scalar.le,
      decide_eq_true_eq] at hDρ
    -- u <= sqrt(p(v / u))
    have hus : u ≤ Real.sqrt (Real.exp l) := by
      rw [← Real.exp_half]
      calc u = Real.exp (Real.log u) := (Real.exp_log hu).symm
        _ ≤ Real.exp (l / 2) := Real.exp_le_exp.mpr (by linarith)
    have hv : v = v / u * u := by field_simp
    refine ⟨hu.le, le_trans hus hBρ, ?_, ?_⟩
    · by_cases hρ : 0 ≤ v / u
      · have : 0 ≤ v := by rw [hv]; exact mul_nonneg hρ hu.le
        linarith [hc0.1]
      · have hρ' : v / u ≤ 0 := (not_le.mp hρ).le
        have : v / u * Real.sqrt (Real.exp l) ≤ v / u * u :=
          mul_le_mul_of_nonpos_left hus hρ'
        linarith
    · by_cases hρ : 0 ≤ v / u
      · have : v / u * u ≤ v / u * Real.sqrt (Real.exp l) :=
          mul_le_mul_of_nonneg_left hus hρ
        linarith
      · have hρ' : v / u ≤ 0 := (not_le.mp hρ).le
        have : v ≤ 0 := by rw [hv]; exact mul_nonpos_of_nonpos_of_nonneg hρ' hu.le
        linarith [hc0.2]

theorem flatDensitySampler_logPDF_fin (x : ℝ) :
    (flatDensitySampler : MeixnerDistribution ℝ).computeLogPDF (Scalar.fin x) =
      if -1 / 2 ≤ x ∧ x ≤ 1 / 2 then Scalar.fin 0 else Scalar.ninf := by
  simp [flatDensitySampler, Scalar.le]

/-- C27 (witness): for the density `p = 1` on `[-1/2, 1/2]`, `b_ = 1`, `c_ = -1/2` and
`c_ + dc_ = 1/2` are the bounds of `sqrt(p)` and of `x * sqrt(p)`; the pair `u = 1/2`,
`v = 1/8` passes the test (`2 * log(1/2) <= 0 = log p(1/4)`) and lies in the box. -/
theorem C27_meixner_enclosing_box_witness :
    MeixnerDistribution.accepts (⟨Real.exp, Real.log, fun x y => x ^ y⟩ : Libm ℝ)
      flatDensitySampler (Scalar.fin (1 / 2)) (Scalar.fin (1 / 8)) = true ∧
    (0 : ℝ) ≤ 1 / 2 ∧ (1 / 2 : ℝ) ≤ 1 ∧ (-1 / 2 : ℝ) ≤ 1 / 8 ∧ (1 / 8 : ℝ) ≤ -1 / 2 + 1 := by
  have hlog : Real.log (1 / 2) ≤ 0 := Real.log_nonpos (by norm_num) (by norm_num)
  have hacc : MeixnerDistribution.accepts (⟨Real.exp, Real.log, fun x y => x ^ y⟩ : Libm ℝ)
      flatDensitySampler (Scalar.fin (1 / 2)) (Scalar.fin (1 / 8)) = true := by
    have h2 : ¬ ((1 / 2 : ℝ) < 0) := by norm_num
    have h2' : (1 / 2 : ℝ) ≠ 0 := by norm_num
    simp only [MeixnerDistribution.accepts, Scalar.log, h2, h2', if_false, Scalar.mul,
      Scalar.div, flatDensitySampler_logPDF_fin]
    norm_num [Scalar.le]
    linarith
  have hB : ∀ x : ℝ, Scalar.le
      (Scalar.sqrt Real.sqrt
        ((MeixnerBoundB (⟨Real.exp, Real.log, fun x y => x ^ y⟩ : Libm ℝ) flatDensitySampler
          [Scalar.fin x]).get 0))
      (flatDensitySampler : MeixnerDistribution ℝ).b_ = true := by
    intro x
    have hget : (MeixnerBoundB (⟨Real.exp, Real.log, fun x y => x ^ y⟩ : Libm ℝ)
        flatDensitySampler [Scalar.fin x]).get 0 =
        Scalar.exp (⟨Real.exp, Real.log, fun x y => x ^ y⟩ : Libm ℝ)
          ((flatDensitySampler : MeixnerDistribution ℝ).computeLogPDF (Scalar.fin x)) := rfl
    rw [hget, flatDensitySampler_logPDF_fin]
    split <;> norm_num [Scalar.exp, Scalar.sqrt, Scalar.le, flatDensitySampler]
  have hCD : ∀ x : ℝ,
      (MeixnerBoundCD (⟨Real.exp, Real.log, fun x y => x ^ y⟩ : Libm ℝ) Real.sqrt
        flatDensitySampler [Scalar.fin x]).get 0 =
      if -1 / 2 ≤ x ∧ x ≤ 1 / 2 then Scalar.fin x else Scalar.fin 0 := by
    intro x
    have hget : (MeixnerBoundCD (⟨Real.exp, Real.log, fun x y => x ^ y⟩ : Libm ℝ) Real.sqrt
        flatDensitySampler [Scalar.fin x]).get 0 =
        Scalar.mul (Scalar.fin x) (Scalar.sqrt Real.sqrt
          (Scalar.exp (⟨Real.exp, Real.log, fun x y => x ^ y⟩ : Libm ℝ)
            ((flatDensitySampler : MeixnerDistribution ℝ).computeLogPDF (Scalar.fin x)))) := rfl
    rw [hget, flatDensitySampler_logPDF_fin]
    split <;> norm_num [Scalar.exp, Scalar.sqrt, Scalar.mul]
  have hC : ∀ x : ℝ, Scalar.le (flatDensitySampler : MeixnerDistribution ℝ).c_
      ((MeixnerBoundCD (⟨Real.exp, Real.log, fun x y => x ^ y⟩ : Libm ℝ) Real.sqrt
        flatDensitySampler [Scalar.fin x]).get 0) = true := by
    intro x
    rw [hCD]
    split
    · rename_i h
      simp only [flatDensitySampler, Scalar.le, decide_eq_true_eq]
      exact h.1
    · norm_num [flatDensitySampler, Scalar.le]
  have hD : ∀ x : ℝ, Scalar.le
      ((MeixnerBoundCD (⟨Real.exp, Real.log, fun x y => x ^ y⟩ : Libm ℝ) Real.sqrt
        flatDensitySampler [Scalar.fin x]).get 0)
      (Scalar.add (flatDensitySampler : MeixnerDistribution ℝ).c_
        (flatDensitySampler : MeixnerDistribution ℝ).dc_) = true := by
    intro x
    rw [hCD]
    split
    · rename_i h
      simp only [flatDensitySampler, Scalar.add, Scalar.le, decide_eq_true_eq]
      linarith [h.2]
    · norm_num [flatDensitySampler, Scalar.add, Scalar.le]
  exact ⟨hacc, C27_meixner_enclosing_box flatDensitySampler 1 (-1 / 2) 1 (1 / 2) (1 / 8)
    rfl rfl rfl hB hC hD (by norm_num) hacc⟩

end OpenTURNS
